import Mathlib

/-!
# VC4 DSI host controller (drivers/gpu/drm/vc4/vc4_dsi.c)

A shallow embedding of the parts of the driver that the specification talks
about: the HS timing calculation, the packet encoder and the transfer engine
of `vc4_dsi_host_transfer`, the interrupt handler, the ULPS sequencer
`vc4_dsi_ulps`, the attach callback `vc4_dsi_host_attach`, and the lane divider
and the timing registers of `vc4_dsi_encoder_enable`.

Conventions of the embedding.

* A `u32` is a natural number kept below `2 ^ 32` by an explicit `% 2 ^ 32`
  wherever the C arithmetic can wrap; a `u8` is kept below `256` in the same way.
* An integer division whose divisor can be zero returns an `Option`.
* Register accesses, waits and buffer stores are recorded, in program order,
  as a list of `Event`s.  What the hardware answers (read values, whether the
  completion arrives) is an input of the model, the record `Hw`.
* Logging calls (`pr_err`, `dev_info`, `dev_err`, `DRM_ERROR`) have no effect
  on the device and are left out, except for the register reads they perform
  and for the error reports of the interrupt handler and of attach.
-/

namespace Vc4Dsi

/-! ## Kernel helpers used by the driver -/

/-- Modelled from the spec: BIT(n) is declared in linux/bitops.h, which is not
among the sources; it is the word with only bit n set. -/
def BIT (n : Nat) : Nat := 2 ^ n

/-- Modelled from the spec: VC4_MASK(high, low) is declared in vc4_regs.h, which
is not among the sources; it is the word with exactly the bits low..high set
(the driver names fields by their bit range, "bits 23:8"). -/
def VC4_MASK (high low : Nat) : Nat := 2 ^ (high + 1) - 2 ^ low

/-- Modelled from the spec: VC4_SET_FIELD(value, FIELD) is declared in
vc4_regs.h, which is not among the sources; it moves the value to the position
of the field (a 32-bit shift) and keeps the bits of the field mask, so a value
that does not fit the field is truncated. -/
def VC4_SET_FIELD (value mask shift : Nat) : Nat :=
  ((value <<< shift) % 2 ^ 32) &&& mask

/-- Modelled from the spec: VC4_GET_FIELD(word, FIELD) is declared in
vc4_regs.h, which is not among the sources; it keeps the bits of the field mask
and moves them down to bit 0. -/
def VC4_GET_FIELD (word mask shift : Nat) : Nat :=
  (word &&& mask) >>> shift

/-- Modelled from the spec: DIV_ROUND_UP(n, d) is declared in linux/kernel.h,
which is not among the sources; the spec reads it as the ceiling of n / d.  The
kernel header defines it as `(((n) + (d) - 1) / (d))`, evaluated in the unsigned
type of its operands, here `bits` wide, so the sum wraps at `2 ^ bits` before
the division.  A zero divisor is a division by zero. -/
def DIV_ROUND_UP (bits n d : Nat) : Option Nat :=
  if d = 0 then none else some ((n + d - 1) % 2 ^ bits / d)

/-- Modelled from the spec: roundup(x, y) is declared in linux/kernel.h, which is
not among the sources; the spec reads it as rounding x up to a multiple of y.
The kernel header defines it as `(((x) + (__y - 1)) / __y) * __y`, here
evaluated in `u32`, the type of x at its one use. -/
def roundup (x y : Nat) : Nat :=
  ((x + (y - 1)) % 2 ^ 32 / y) * y % 2 ^ 32

/-! ## Register map (lines 39-489) -/

def DSI_CMD_FIFO_DEPTH : Nat := 16
def DSI_PIX_FIFO_DEPTH : Nat := 256
def DSI_PIX_FIFO_WIDTH : Nat := 4

def DSI0_CTRL : Nat := 0x00
def DSI1_CTRL : Nat := 0x00

def DSI0_TXPKT1C : Nat := 0x04
def DSI1_TXPKT1C : Nat := 0x04
def DSI_TXPKT1C_TRIG_CMD_MASK : Nat := VC4_MASK 31 24
def DSI_TXPKT1C_TRIG_CMD_SHIFT : Nat := 24
def DSI_TXPKT1C_CMD_REPEAT_MASK : Nat := VC4_MASK 23 10
def DSI_TXPKT1C_CMD_REPEAT_SHIFT : Nat := 10
def DSI_TXPKT1C_DISPLAY_NO_MASK : Nat := VC4_MASK 9 8
def DSI_TXPKT1C_DISPLAY_NO_SHIFT : Nat := 8
def DSI_TXPKT1C_DISPLAY_NO_SHORT : Nat := 0
def DSI_TXPKT1C_DISPLAY_NO_PRIMARY : Nat := 1
def DSI_TXPKT1C_DISPLAY_NO_SECONDARY : Nat := 2
def DSI_TXPKT1C_CMD_TX_TIME_MASK : Nat := VC4_MASK 7 6
def DSI_TXPKT1C_CMD_TX_TIME_SHIFT : Nat := 6
def DSI_TXPKT1C_CMD_CTRL_MASK : Nat := VC4_MASK 5 4
def DSI_TXPKT1C_CMD_CTRL_SHIFT : Nat := 4
def DSI_TXPKT1C_CMD_CTRL_TX : Nat := 0
def DSI_TXPKT1C_CMD_CTRL_RX : Nat := 1
def DSI_TXPKT1C_CMD_CTRL_TRIG : Nat := 2
def DSI_TXPKT1C_CMD_CTRL_BTA : Nat := 3
def DSI_TXPKT1C_CMD_MODE_LP : Nat := BIT 3
def DSI_TXPKT1C_CMD_TYPE_LONG : Nat := BIT 2
def DSI_TXPKT1C_CMD_TE_EN : Nat := BIT 1
def DSI_TXPKT1C_CMD_EN : Nat := BIT 0

def DSI0_TXPKT1H : Nat := 0x08
def DSI1_TXPKT1H : Nat := 0x08
def DSI_TXPKT1H_BC_CMDFIFO_MASK : Nat := VC4_MASK 31 24
def DSI_TXPKT1H_BC_CMDFIFO_SHIFT : Nat := 24
def DSI_TXPKT1H_BC_PARAM_MASK : Nat := VC4_MASK 23 8
def DSI_TXPKT1H_BC_PARAM_SHIFT : Nat := 8
def DSI_TXPKT1H_BC_DT_MASK : Nat := VC4_MASK 7 0
def DSI_TXPKT1H_BC_DT_SHIFT : Nat := 0

def DSI0_RXPKT1H : Nat := 0x0c
def DSI1_RXPKT1H : Nat := 0x14
def DSI_RXPKT1H_PKT_TYPE_LONG : Nat := BIT 24
def DSI_RXPKT1H_BC_PARAM_MASK : Nat := VC4_MASK 23 8
def DSI_RXPKT1H_BC_PARAM_SHIFT : Nat := 8
def DSI_RXPKT1H_SHORT_1_MASK : Nat := VC4_MASK 23 16
def DSI_RXPKT1H_SHORT_1_SHIFT : Nat := 16
def DSI_RXPKT1H_SHORT_0_MASK : Nat := VC4_MASK 15 8
def DSI_RXPKT1H_SHORT_0_SHIFT : Nat := 8

def DSI0_TXPKT_CMD_FIFO : Nat := 0x14
def DSI1_TXPKT_CMD_FIFO : Nat := 0x1c
def DSI0_TXPKT_PIX_FIFO : Nat := 0x20
def DSI1_TXPKT_PIX_FIFO : Nat := 0x20
def DSI1_RXPKT_FIFO : Nat := 0x24

def DSI0_INT_STAT : Nat := 0x24
def DSI0_INT_EN : Nat := 0x28
def DSI1_INT_STAT : Nat := 0x30
def DSI1_INT_EN : Nat := 0x34
def DSI1_INT_PHY_DIR_RTF : Nat := BIT 21
def DSI1_INT_PR_TO : Nat := BIT 13
def DSI1_INT_TA_TO : Nat := BIT 12
def DSI1_INT_LPRX_TO : Nat := BIT 11
def DSI1_INT_HSTX_TO : Nat := BIT 10
def DSI1_INT_ERR_CONT_LP1 : Nat := BIT 9
def DSI1_INT_ERR_CONT_LP0 : Nat := BIT 8
def DSI1_INT_ERR_CONTROL : Nat := BIT 7
def DSI1_INT_ERR_SYNC_ESC : Nat := BIT 6
def DSI1_INT_TXPKT1_DONE : Nat := BIT 1

def DSI1_INTERRUPTS_ALWAYS_ENABLED : Nat :=
  DSI1_INT_ERR_SYNC_ESC ||| DSI1_INT_ERR_CONTROL ||| DSI1_INT_ERR_CONT_LP0 |||
  DSI1_INT_ERR_CONT_LP1 ||| DSI1_INT_HSTX_TO ||| DSI1_INT_LPRX_TO |||
  DSI1_INT_TA_TO ||| DSI1_INT_PR_TO

def DSI0_STAT : Nat := 0x2c
def DSI1_STAT : Nat := 0x38
def DSI1_STAT_PHY_D3_ULPS : Nat := BIT 31
def DSI1_STAT_PHY_D3_STOP : Nat := BIT 30
def DSI1_STAT_PHY_D2_ULPS : Nat := BIT 29
def DSI1_STAT_PHY_D2_STOP : Nat := BIT 28
def DSI1_STAT_PHY_D1_ULPS : Nat := BIT 27
def DSI1_STAT_PHY_D1_STOP : Nat := BIT 26
def DSI1_STAT_PHY_D0_ULPS : Nat := BIT 25
def DSI1_STAT_PHY_D0_STOP : Nat := BIT 24
def DSI1_STAT_PHY_CLOCK_ULPS : Nat := BIT 18
def DSI1_STAT_PHY_CLOCK_STOP : Nat := BIT 16
def DSI1_STAT_TXPKT1_DONE : Nat := BIT 1

def DSI0_PHYC : Nat := 0x40
def DSI1_PHYC : Nat := 0x4c
def DSI1_PHYC_CLANE_ULPS : Nat := BIT 17
def DSI_PHYC_DLANE3_ULPS : Nat := BIT 13
def DSI0_PHYC_CLANE_ULPS : Nat := BIT 9
def DSI_PHYC_DLANE2_ULPS : Nat := BIT 9
def DSI_PHYC_DLANE1_ULPS : Nat := BIT 5
def DSI_PHYC_DLANE0_ULPS : Nat := BIT 1

def DSI0_PHY_AFEC0 : Nat := 0x64
def DSI1_PHY_AFEC0 : Nat := 0x70
def DSI0_PHY_AFEC0_LATCH_ULPS : Nat := BIT 24
def DSI1_PHY_AFEC0_LATCH_ULPS : Nat := BIT 14

def DSI_CTRL_CLR_LDF : Nat := BIT 7
def DSI0_CTRL_CLR_PBCF : Nat := BIT 6
def DSI1_CTRL_CLR_RXF : Nat := BIT 6
def DSI0_CTRL_CLR_CPBCF : Nat := BIT 5
def DSI1_CTRL_CLR_PDF : Nat := BIT 5
def DSI0_CTRL_CLR_PDF : Nat := BIT 4
def DSI1_CTRL_CLR_CDF : Nat := BIT 4
def DSI0_CTRL_CLR_CDF : Nat := BIT 3

def DSI0_CTRL_RESET_FIFOS : Nat :=
  DSI_CTRL_CLR_LDF ||| DSI0_CTRL_CLR_PBCF ||| DSI0_CTRL_CLR_CPBCF |||
  DSI0_CTRL_CLR_PDF ||| DSI0_CTRL_CLR_CDF

def DSI1_CTRL_RESET_FIFOS : Nat :=
  DSI_CTRL_CLR_LDF ||| DSI1_CTRL_CLR_RXF ||| DSI1_CTRL_CLR_PDF ||| DSI1_CTRL_CLR_CDF

/-- The selection `dsi->port ? DSI1_x : DSI0_x` made by DSI_PORT_READ,
DSI_PORT_WRITE and DSI_PORT_BIT (lines 590-594). -/
def DSI_PORT (port dsi0 dsi1 : Nat) : Nat := if port ≠ 0 then dsi1 else dsi0

/-- Modelled from the spec: MIPI_DSI_MSG_USE_LPM, the low-power-mode flag of a
message, is declared in drm_mipi_dsi.h, which is not among the sources. -/
def MIPI_DSI_MSG_USE_LPM : Nat := BIT 1

/-- Modelled from the spec: ETIMEDOUT, the TIMEOUT error code, is declared in
the kernel errno headers, which are not among the sources. -/
def ETIMEDOUT : Int := 110

/-- Modelled from the spec: ENXIO, the MISMATCH error code, is declared in the
kernel errno headers, which are not among the sources. -/
def ENXIO : Int := 6

/-! ## Register map, continued: the remaining offsets and the timing fields -/

def DSI0_RXPKT2H : Nat := 0x10
def DSI1_RXPKT2H : Nat := 0x18
def DSI0_DISP0_CTRL : Nat := 0x18
def DSI0_DISP1_CTRL : Nat := 0x1c
def DSI1_DISP1_CTRL : Nat := 0x2c
def DSI0_HSTX_TO_CNT : Nat := 0x30
def DSI0_LPRX_TO_CNT : Nat := 0x34
def DSI0_TA_TO_CNT : Nat := 0x38
def DSI0_PR_TO_CNT : Nat := 0x3c
def DSI1_PHYC_ESC_CLK_LPDT_MASK : Nat := VC4_MASK 25 20
def DSI1_PHYC_ESC_CLK_LPDT_SHIFT : Nat := 20
def DSI0_PHYC_ESC_CLK_LPDT_MASK : Nat := VC4_MASK 17 12
def DSI0_PHYC_ESC_CLK_LPDT_SHIFT : Nat := 12
def DSI0_HS_CLT0 : Nat := 0x44
def DSI0_HS_CLT1 : Nat := 0x48
def DSI0_HS_CLT2 : Nat := 0x4c
def DSI0_HS_DLT3 : Nat := 0x50
def DSI0_HS_DLT4 : Nat := 0x54
def DSI0_HS_DLT5 : Nat := 0x58
def DSI0_HS_DLT6 : Nat := 0x5c
def DSI0_HS_DLT7 : Nat := 0x60
def DSI0_PHY_AFEC1 : Nat := 0x68
def DSI0_TST_SEL : Nat := 0x6c
def DSI0_TST_MON : Nat := 0x70
def DSI0_ID : Nat := 0x74

def DSI1_TXPKT2C : Nat := 0x0c
def DSI1_TXPKT2H : Nat := 0x10
def DSI1_DISP0_CTRL : Nat := 0x28
def DSI1_HSTX_TO_CNT : Nat := 0x3c
def DSI1_LPRX_TO_CNT : Nat := 0x40
def DSI1_TA_TO_CNT : Nat := 0x44
def DSI1_PR_TO_CNT : Nat := 0x48

def DSI1_HS_CLT0 : Nat := 0x50
def DSI_HS_CLT0_CZERO_MASK : Nat := VC4_MASK 26 18
def DSI_HS_CLT0_CZERO_SHIFT : Nat := 18
def DSI_HS_CLT0_CPRE_MASK : Nat := VC4_MASK 17 9
def DSI_HS_CLT0_CPRE_SHIFT : Nat := 9
def DSI_HS_CLT0_CPREP_MASK : Nat := VC4_MASK 8 0
def DSI_HS_CLT0_CPREP_SHIFT : Nat := 0

def DSI1_HS_CLT1 : Nat := 0x54
def DSI_HS_CLT1_CTRAIL_MASK : Nat := VC4_MASK 17 9
def DSI_HS_CLT1_CTRAIL_SHIFT : Nat := 9
def DSI_HS_CLT1_CPOST_MASK : Nat := VC4_MASK 8 0
def DSI_HS_CLT1_CPOST_SHIFT : Nat := 0

def DSI1_HS_CLT2 : Nat := 0x58
def DSI_HS_CLT2_WUP_MASK : Nat := VC4_MASK 23 0
def DSI_HS_CLT2_WUP_SHIFT : Nat := 0

def DSI1_HS_DLT3 : Nat := 0x5c
def DSI_HS_DLT3_EXIT_MASK : Nat := VC4_MASK 26 18
def DSI_HS_DLT3_EXIT_SHIFT : Nat := 18
def DSI_HS_DLT3_ZERO_MASK : Nat := VC4_MASK 17 9
def DSI_HS_DLT3_ZERO_SHIFT : Nat := 9
def DSI_HS_DLT3_PRE_MASK : Nat := VC4_MASK 8 0
def DSI_HS_DLT3_PRE_SHIFT : Nat := 0

def DSI1_HS_DLT4 : Nat := 0x60
def DSI_HS_DLT4_ANLAT_MASK : Nat := VC4_MASK 22 18
def DSI_HS_DLT4_ANLAT_SHIFT : Nat := 18
def DSI_HS_DLT4_TRAIL_MASK : Nat := VC4_MASK 17 9
def DSI_HS_DLT4_TRAIL_SHIFT : Nat := 9
def DSI_HS_DLT4_LPX_MASK : Nat := VC4_MASK 8 0
def DSI_HS_DLT4_LPX_SHIFT : Nat := 0

def DSI1_HS_DLT5 : Nat := 0x64
def DSI_HS_DLT5_INIT_MASK : Nat := VC4_MASK 23 0
def DSI_HS_DLT5_INIT_SHIFT : Nat := 0

def DSI1_HS_DLT6 : Nat := 0x68
def DSI_HS_DLT6_TA_GET_MASK : Nat := VC4_MASK 31 24
def DSI_HS_DLT6_TA_GET_SHIFT : Nat := 24
def DSI_HS_DLT6_TA_SURE_MASK : Nat := VC4_MASK 23 16
def DSI_HS_DLT6_TA_SURE_SHIFT : Nat := 16
def DSI_HS_DLT6_TA_GO_MASK : Nat := VC4_MASK 15 8
def DSI_HS_DLT6_TA_GO_SHIFT : Nat := 8
def DSI_HS_DLT6_LP_LPX_MASK : Nat := VC4_MASK 7 0
def DSI_HS_DLT6_LP_LPX_SHIFT : Nat := 0

def DSI1_HS_DLT7 : Nat := 0x6c
def DSI_HS_DLT7_LP_WUP_MASK : Nat := VC4_MASK 23 0
def DSI_HS_DLT7_LP_WUP_SHIFT : Nat := 0

def DSI1_PHY_AFEC1 : Nat := 0x74
def DSI1_TST_SEL : Nat := 0x78
def DSI1_TST_MON : Nat := 0x7c
def DSI1_PHY_TST1 : Nat := 0x80
def DSI1_PHY_TST2 : Nat := 0x84
def DSI1_PHY_FIFO_STAT : Nat := 0x88
def DSI1_ID : Nat := 0x8c

/-- The register map of port 0: every offset that the source defines under a
DSI0_ name (lines 43-322), in the order of the source. -/
def DSI0_registers : List Nat :=
  [DSI0_CTRL, DSI0_TXPKT1C, DSI0_TXPKT1H, DSI0_RXPKT1H, DSI0_RXPKT2H, DSI0_TXPKT_CMD_FIFO,
   DSI0_DISP0_CTRL, DSI0_DISP1_CTRL, DSI0_TXPKT_PIX_FIFO, DSI0_INT_STAT, DSI0_INT_EN,
   DSI0_STAT, DSI0_HSTX_TO_CNT, DSI0_LPRX_TO_CNT, DSI0_TA_TO_CNT, DSI0_PR_TO_CNT, DSI0_PHYC,
   DSI0_HS_CLT0, DSI0_HS_CLT1, DSI0_HS_CLT2, DSI0_HS_DLT3, DSI0_HS_DLT4, DSI0_HS_DLT5,
   DSI0_HS_DLT6, DSI0_HS_DLT7, DSI0_PHY_AFEC0, DSI0_PHY_AFEC1, DSI0_TST_SEL, DSI0_TST_MON,
   DSI0_ID]

/-- The register map of port 1: every offset that the source defines under a
DSI1_ name (lines 47-489), in the order of the offsets. -/
def DSI1_registers : List Nat :=
  [DSI1_CTRL, DSI1_TXPKT1C, DSI1_TXPKT1H, DSI1_TXPKT2C, DSI1_TXPKT2H, DSI1_RXPKT1H,
   DSI1_RXPKT2H, DSI1_TXPKT_CMD_FIFO, DSI1_TXPKT_PIX_FIFO, DSI1_RXPKT_FIFO, DSI1_DISP0_CTRL,
   DSI1_DISP1_CTRL, DSI1_INT_STAT, DSI1_INT_EN, DSI1_STAT, DSI1_HSTX_TO_CNT,
   DSI1_LPRX_TO_CNT, DSI1_TA_TO_CNT, DSI1_PR_TO_CNT, DSI1_PHYC, DSI1_HS_CLT0, DSI1_HS_CLT1,
   DSI1_HS_CLT2, DSI1_HS_DLT3, DSI1_HS_DLT4, DSI1_HS_DLT5, DSI1_HS_DLT6, DSI1_HS_DLT7,
   DSI1_PHY_AFEC0, DSI1_PHY_AFEC1, DSI1_TST_SEL, DSI1_TST_MON, DSI1_PHY_TST1, DSI1_PHY_TST2,
   DSI1_PHY_FIFO_STAT, DSI1_ID]

/-- Modelled from the spec: the WARN_ON inside VC4_SET_FIELD(value, FIELD) is
declared in vc4_regs.h, which is not among the sources; it fires when the value,
moved to the position of the field, has a bit outside the field mask. -/
def VC4_SET_FIELD_warns (value mask shift : Nat) : Bool :=
  decide (((value <<< shift) % 2 ^ 32) &&& (2 ^ 32 - 1 - mask) ≠ 0)

/-- Modelled from the spec: MIPI_DSI_MODE_VIDEO, the video-mode flag of a
peripheral, is declared in drm_mipi_dsi.h, which is not among the sources. -/
def MIPI_DSI_MODE_VIDEO : Nat := BIT 0

/-- Modelled from the spec: enum mipi_dsi_pixel_format is declared in
drm_mipi_dsi.h, which is not among the sources; the four pixel formats of the
link configuration. -/
inductive mipi_dsi_pixel_format where
  | MIPI_DSI_FMT_RGB888
  | MIPI_DSI_FMT_RGB666
  | MIPI_DSI_FMT_RGB666_PACKED
  | MIPI_DSI_FMT_RGB565
deriving DecidableEq

/-! ## Timing calculator (lines 864-880, 1039-1042) -/

/-- The function `dsi_hs_timing(u32 ui_ns, u32 ns, u32 ui)`:
`roundup(ui + DIV_ROUND_UP(ns, ui_ns), 8)`, all in `u32`. -/
def dsi_hs_timing (ui_ns ns ui : Nat) : Option Nat :=
  (DIV_ROUND_UP 32 ns ui_ns).map fun q => roundup ((ui + q) % 2 ^ 32) 8

/-- ESC always runs at 100Mhz. -/
def ESC_TIME_NS : Nat := 10

/-- The function `dsi_esc_timing(u32 ns)`: `DIV_ROUND_UP(ns, ESC_TIME_NS)`. -/
def dsi_esc_timing (ns : Nat) : Option Nat :=
  DIV_ROUND_UP 32 ns ESC_TIME_NS

/-- The local `ui_ns` of `vc4_dsi_encoder_enable` (line 1042):
`ui_ns = DIV_ROUND_UP(500000000, hs_clock)`, computed in `unsigned long`
(`BITS_PER_LONG` bits: 32 on the BCM2835) and stored in a `uint32_t`. -/
def vc4_dsi_encoder_enable_ui_ns (BITS_PER_LONG hs_clock : Nat) : Option Nat :=
  (DIV_ROUND_UP BITS_PER_LONG 500000000 hs_clock).map fun q => q % 2 ^ 32

/-- A timing value as the enable sequence computes it (lines 1042-1079):
`dsi_hs_timing(ui_ns, ns, ui)` with `ui_ns` derived from the PHY clock rate. -/
def vc4_dsi_encoder_enable_hs_timing (BITS_PER_LONG hs_clock ns ui : Nat) : Option Nat :=
  (vc4_dsi_encoder_enable_ui_ns BITS_PER_LONG hs_clock).bind fun ui_ns =>
    dsi_hs_timing ui_ns ns ui

/-! ## Transfer engine: `vc4_dsi_host_transfer` (lines 1163-1329) -/

/-- What the driver does to the device and to the caller's buffer, in program
order. -/
inductive Event where
  /-- The call `dsi_write(dsi, offset, val)`, reached through DSI_WRITE and
  DSI_PORT_WRITE. -/
  | write (offset val : Nat)
  /-- The call `readl(dsi->regs + offset)`, reached through DSI_READ and
  DSI_PORT_READ. -/
  | read (offset : Nat)
  /-- The condition of a WARN_ON_ONCE held. -/
  | warn
  /-- The assignment `dsi->xfer_result = 0`. -/
  | xfer_result_clear
  /-- The call `reinit_completion(&dsi->xfer_completion)`. -/
  | reinit_completion
  /-- The call `wait_for_completion_timeout(&dsi->xfer_completion, msecs_to_jiffies(msecs))`. -/
  | wait_for_completion_timeout (msecs : Nat)
  /-- The call `udelay(usecs)`. -/
  | udelay (usecs : Nat)
  /-- The store `msg_rx[index] = val` into the caller's response buffer. -/
  | rx_store (index val : Nat)
  /-- The call `complete(&dsi->xfer_completion)`. -/
  | complete
  /-- The assignment `dsi->xfer_result = -ETIMEDOUT`. -/
  | xfer_result_timeout
  /-- The report `DRM_ERROR("DSI%d: %s error\n", ...)` that dsi_handle_error makes
  for the interrupt bit `bit`. -/
  | drm_error (bit : Nat)
deriving DecidableEq

/-- The `struct mipi_dsi_packet` that `mipi_dsi_create_packet(&packet, msg)`
fills in (that function lives in drm_mipi_dsi.c, outside the sources, so the
packet is an input here): `u8 header[4]`, `size_t payload_length`,
`const u8 *payload`. -/
structure mipi_dsi_packet where
  header : Nat → Nat
  payload_length : Nat
  payload : Nat → Nat

/-- The fields of `struct mipi_dsi_msg` that the transfer reads itself. -/
structure mipi_dsi_msg where
  flags : Nat
  rx_len : Nat

/-- The answers of the hardware during one transfer. -/
structure Hw where
  /-- Whether `wait_for_completion_timeout` returned non-zero: the interrupt
  handler signalled the completion within the 100 ms. -/
  completed : Bool
  /-- The value of `dsi->xfer_result` when the wait returns, as the interrupt
  handler left it after the transfer reset it to 0. -/
  xfer_result : Int
  /-- The value read from STAT after a wait that timed out. -/
  stat : Nat
  /-- The value read from RXPKT1H. -/
  rxpkt1h : Nat
  /-- The value returned by the i-th read of offset DSI1_RXPKT_FIFO. -/
  rxpkt_fifo : Nat → Nat
  /-- The value read from TXPKT1C on the reset path. -/
  txpkt1c : Nat
  /-- The value read from CTRL on the reset path. -/
  ctrl : Nat

/-- The return value and the events of one call. -/
structure XferOutcome where
  ret : Int
  trace : List Event

/-- The local `cmd_fifo_len` (lines 1171, 1192). -/
def cmd_fifo_len (is_long : Bool) (packet : mipi_dsi_packet) : Nat :=
  if is_long then packet.payload_length % DSI_PIX_FIFO_WIDTH else 0

/-- The local `pix_fifo_len`, a `u32` (lines 1171, 1193-1194). -/
def pix_fifo_len (is_long : Bool) (packet : mipi_dsi_packet) : Nat :=
  if is_long then
    ((packet.payload_length - cmd_fifo_len is_long packet) / DSI_PIX_FIFO_WIDTH) % 2 ^ 32
  else 0

/-- The header word `pkth` (lines 1168, 1178-1181, 1198). -/
def pkth (is_long : Bool) (packet : mipi_dsi_packet) : Nat :=
  let pkth0 := 0 ||| VC4_SET_FIELD (packet.header 0 % 256)
    DSI_TXPKT1H_BC_DT_MASK DSI_TXPKT1H_BC_DT_SHIFT
  let pkth1 := pkth0 ||| VC4_SET_FIELD
    ((packet.header 1 % 256) ||| ((packet.header 2 % 256) <<< 8))
    DSI_TXPKT1H_BC_PARAM_MASK DSI_TXPKT1H_BC_PARAM_SHIFT
  if is_long then
    pkth1 ||| VC4_SET_FIELD (cmd_fifo_len is_long packet)
      DSI_TXPKT1H_BC_CMDFIFO_MASK DSI_TXPKT1H_BC_CMDFIFO_SHIFT
  else pkth1

/-- The control word `pktc` (lines 1168, 1201-1207, 1223-1240). -/
def pktc (msg : mipi_dsi_msg) (is_long : Bool) (packet : mipi_dsi_packet) : Nat :=
  let pktc0 := 0 ||| (if msg.rx_len ≠ 0 then
      VC4_SET_FIELD DSI_TXPKT1C_CMD_CTRL_RX DSI_TXPKT1C_CMD_CTRL_MASK DSI_TXPKT1C_CMD_CTRL_SHIFT
    else
      VC4_SET_FIELD DSI_TXPKT1C_CMD_CTRL_TX DSI_TXPKT1C_CMD_CTRL_MASK DSI_TXPKT1C_CMD_CTRL_SHIFT)
  let pktc1 := if msg.flags &&& MIPI_DSI_MSG_USE_LPM ≠ 0 then
      pktc0 ||| DSI_TXPKT1C_CMD_MODE_LP else pktc0
  let pktc2 := if is_long then pktc1 ||| DSI_TXPKT1C_CMD_TYPE_LONG else pktc1
  let pktc3 := pktc2 ||| VC4_SET_FIELD 1
    DSI_TXPKT1C_CMD_REPEAT_MASK DSI_TXPKT1C_CMD_REPEAT_SHIFT
  let pktc4 := pktc3 ||| DSI_TXPKT1C_CMD_EN
  if pix_fifo_len is_long packet ≠ 0 then
    pktc4 ||| VC4_SET_FIELD DSI_TXPKT1C_DISPLAY_NO_SECONDARY
      DSI_TXPKT1C_DISPLAY_NO_MASK DSI_TXPKT1C_DISPLAY_NO_SHIFT
  else
    pktc4 ||| VC4_SET_FIELD DSI_TXPKT1C_DISPLAY_NO_SHORT
      DSI_TXPKT1C_DISPLAY_NO_MASK DSI_TXPKT1C_DISPLAY_NO_SHIFT

/-- The loop of lines 1212-1213: one command-FIFO write per residual byte. -/
def cmd_fifo_writes (port : Nat) (packet : mipi_dsi_packet) (n : Nat) : List Event :=
  (List.range n).map fun i =>
    Event.write (DSI_PORT port DSI0_TXPKT_CMD_FIFO DSI1_TXPKT_CMD_FIFO)
      (packet.payload i % 256)

/-- The word written to the pixel FIFO in round i of the loop of lines
1214-1221: `pix[0] | pix[1] << 8 | pix[2] << 16 | pix[3] << 24` with
`pix = packet.payload + cmd_fifo_len + i * 4`. -/
def pix_fifo_word (packet : mipi_dsi_packet) (cmd_len i : Nat) : Nat :=
  let pix := fun k => packet.payload (cmd_len + i * 4 + k) % 256
  ((pix 0) ||| ((pix 1) <<< 8) ||| ((pix 2) <<< 16) ||| ((pix 3) <<< 24)) % 2 ^ 32

/-- The loop of lines 1214-1221: one pixel-FIFO write per whole word. -/
def pix_fifo_writes (port : Nat) (packet : mipi_dsi_packet) (cmd_len n : Nat) : List Event :=
  (List.range n).map fun i =>
    Event.write (DSI_PORT port DSI0_TXPKT_PIX_FIFO DSI1_TXPKT_PIX_FIFO)
      (pix_fifo_word packet cmd_len i)

/-- Lines 1242-1256: the arming of the completion interrupt and the submission
of the packet, up to the start of the wait. -/
def xfer_arm_and_send (port : Nat) (msg : mipi_dsi_msg) (is_long : Bool)
    (packet : mipi_dsi_packet) : List Event :=
  [Event.xfer_result_clear,
   Event.reinit_completion,
   Event.write (DSI_PORT port DSI0_INT_STAT DSI1_INT_STAT)
     (DSI1_INT_TXPKT1_DONE ||| DSI1_INT_PHY_DIR_RTF),
   Event.write (DSI_PORT port DSI0_INT_EN DSI1_INT_EN)
     (if msg.rx_len ≠ 0 then DSI1_INTERRUPTS_ALWAYS_ENABLED ||| DSI1_INT_PHY_DIR_RTF
      else DSI1_INTERRUPTS_ALWAYS_ENABLED ||| DSI1_INT_TXPKT1_DONE),
   Event.write (DSI_PORT port DSI0_TXPKT1H DSI1_TXPKT1H) (pkth is_long packet),
   Event.write (DSI_PORT port DSI0_TXPKT1C DSI1_TXPKT1C) (pktc msg is_long packet),
   Event.wait_for_completion_timeout 100]

/-- Lines 1182-1256: the capacity assertion (the WARN_ON_ONCE of line 1196, which
the model records every time its condition holds), the FIFO writes, the arming
of the interrupts and the submission of the packet. -/
def xfer_submit (port : Nat) (msg : mipi_dsi_msg) (is_long : Bool)
    (packet : mipi_dsi_packet) : List Event :=
  (if is_long then
    (if DSI_PIX_FIFO_DEPTH ≤ pix_fifo_len is_long packet then [Event.warn] else [])
   else []) ++
  cmd_fifo_writes port packet (cmd_fifo_len is_long packet) ++
  pix_fifo_writes port packet (cmd_fifo_len is_long packet) (pix_fifo_len is_long packet) ++
  xfer_arm_and_send port msg is_long packet

/-- Lines 1258-1275: the value of `ret` after the completion wait, and the
register reads made when the wait timed out. -/
def xfer_wait (port : Nat) (hw : Hw) : Int × List Event :=
  if hw.completed then
    (hw.xfer_result, [])
  else
    (if (hw.stat % 2 ^ 32) &&& DSI1_STAT_TXPKT1_DONE ≠ 0 then 0 else -ETIMEDOUT,
     [Event.read (DSI_PORT port DSI0_STAT DSI1_STAT),
      Event.read (DSI_PORT port DSI0_INT_STAT DSI1_INT_STAT)])

/-- Lines 1281-1307, entered with `ret == 0 && msg->rx_len`: the decoding of the
response.  The first component is the new `ret`: `-ENXIO` when a long response
declares another length than requested, 0 otherwise. -/
def xfer_response (port : Nat) (msg : mipi_dsi_msg) (hw : Hw) : Int × List Event :=
  let rxpkt1h := hw.rxpkt1h % 2 ^ 32
  let rd := Event.read (DSI_PORT port DSI0_RXPKT1H DSI1_RXPKT1H)
  if rxpkt1h &&& DSI_RXPKT1H_PKT_TYPE_LONG ≠ 0 then
    let rxlen := VC4_GET_FIELD rxpkt1h DSI_RXPKT1H_BC_PARAM_MASK DSI_RXPKT1H_BC_PARAM_SHIFT
    if rxlen ≠ msg.rx_len then
      (- ENXIO, [rd])
    else
      (0, rd :: (List.range msg.rx_len).flatMap fun i =>
        [Event.read DSI1_RXPKT_FIFO,
         Event.rx_store i ((hw.rxpkt_fifo i % 2 ^ 32) % 256)])
  else
    (0, rd ::
      Event.rx_store 0
        (VC4_GET_FIELD rxpkt1h DSI_RXPKT1H_SHORT_0_MASK DSI_RXPKT1H_SHORT_0_SHIFT % 256) ::
      (if 1 < msg.rx_len then
        [Event.rx_store 1
          (VC4_GET_FIELD rxpkt1h DSI_RXPKT1H_SHORT_1_MASK DSI_RXPKT1H_SHORT_1_SHIFT % 256)]
       else []))

/-- Lines 1311-1328, the label `reset_fifo_and_return`. -/
def reset_fifo_and_return (port : Nat) (hw : Hw) : List Event :=
  [Event.read (DSI_PORT port DSI0_TXPKT1C DSI1_TXPKT1C),
   Event.write (DSI_PORT port DSI0_TXPKT1C DSI1_TXPKT1C)
     ((hw.txpkt1c % 2 ^ 32) &&& (2 ^ 32 - 1 - DSI_TXPKT1C_CMD_EN)),
   Event.udelay 1,
   Event.read (DSI_PORT port DSI0_CTRL DSI1_CTRL),
   Event.write (DSI_PORT port DSI0_CTRL DSI1_CTRL)
     (if port = 0 then (hw.ctrl % 2 ^ 32) ||| DSI0_CTRL_RESET_FIFOS
      else (hw.ctrl % 2 ^ 32) ||| DSI1_CTRL_RESET_FIFOS),
   Event.write (DSI_PORT port DSI0_TXPKT1C DSI1_TXPKT1C) 0,
   Event.write (DSI_PORT port DSI0_INT_EN DSI1_INT_EN) DSI1_INTERRUPTS_ALWAYS_ENABLED]

/-- The function `vc4_dsi_host_transfer(host, msg)` on the port `dsi->port`.
`is_long` is `mipi_dsi_packet_format_is_long(msg->type)` and `packet` is what
`mipi_dsi_create_packet` produced; both helpers live outside the sources. -/
def vc4_dsi_host_transfer (port : Nat) (msg : mipi_dsi_msg) (is_long : Bool)
    (packet : mipi_dsi_packet) (hw : Hw) : XferOutcome :=
  let submitted := xfer_submit port msg is_long packet
  let waited := xfer_wait port hw
  let remask := [Event.write (DSI_PORT port DSI0_INT_EN DSI1_INT_EN)
    DSI1_INTERRUPTS_ALWAYS_ENABLED]
  if waited.1 ≠ 0 then
    { ret := waited.1,
      trace := submitted ++ waited.2 ++ remask ++ reset_fifo_and_return port hw }
  else if msg.rx_len ≠ 0 then
    let response := xfer_response port msg hw
    if response.1 ≠ 0 then
      { ret := response.1,
        trace := submitted ++ waited.2 ++ remask ++ response.2 ++
          reset_fifo_and_return port hw }
    else
      { ret := 0, trace := submitted ++ waited.2 ++ remask ++ response.2 }
  else
    { ret := 0, trace := submitted ++ waited.2 ++ remask }

/-- The register writes of a trace, in order, as (offset, value) pairs. -/
def register_writes : List Event → List (Nat × Nat)
  | [] => []
  | Event.write offset val :: rest => (offset, val) :: register_writes rest
  | _ :: rest => register_writes rest

/-- The content of the register at `offset` after the writes of a trace, for a
register that holds the last value written to it; `init` is its content before. -/
def reg_after (offset init : Nat) : List Event → Nat
  | [] => init
  | Event.write o val :: rest =>
    reg_after offset (if o = offset then val else init) rest
  | _ :: rest => reg_after offset init rest

/-- The stores into the caller's response buffer made by a trace, in order, as
(index, value) pairs. -/
def rx_stores : List Event → List (Nat × Nat)
  | [] => []
  | Event.rx_store index val :: rest => (index, val) :: rx_stores rest
  | _ :: rest => rx_stores rest

/-! ## Interrupt classifier: `vc4_dsi_irq_handler` (lines 1419-1465) -/

/-- Modelled from the spec: irqreturn_t is declared in linux/irqreturn.h, which
is not among the sources; IRQ_NONE reports the interrupt as unhandled (not
claimed), IRQ_HANDLED as handled. -/
inductive irqreturn_t where
  | IRQ_NONE
  | IRQ_HANDLED
deriving DecidableEq

/-- The function `dsi_handle_error(dsi, &ret, stat, bit, type)` (lines
1419-1428): the new `*ret` and the report made. -/
def dsi_handle_error (ret : irqreturn_t) (stat bit : Nat) : irqreturn_t × List Event :=
  if stat &&& bit = 0 then (ret, [])
  else (irqreturn_t.IRQ_HANDLED, [Event.drm_error bit])

/-- The eight calls of dsi_handle_error in `vc4_dsi_irq_handler` (lines
1438-1453), starting from `ret = IRQ_NONE`: the value of `ret` after them and
the reports made, in order. -/
def irq_handle_errors (stat : Nat) : irqreturn_t × List Event :=
  let r1 := dsi_handle_error irqreturn_t.IRQ_NONE stat DSI1_INT_ERR_SYNC_ESC
  let r2 := dsi_handle_error r1.1 stat DSI1_INT_ERR_CONTROL
  let r3 := dsi_handle_error r2.1 stat DSI1_INT_ERR_CONT_LP0
  let r4 := dsi_handle_error r3.1 stat DSI1_INT_ERR_CONT_LP1
  let r5 := dsi_handle_error r4.1 stat DSI1_INT_HSTX_TO
  let r6 := dsi_handle_error r5.1 stat DSI1_INT_LPRX_TO
  let r7 := dsi_handle_error r6.1 stat DSI1_INT_TA_TO
  let r8 := dsi_handle_error r7.1 stat DSI1_INT_PR_TO
  (r8.1, r1.2 ++ r2.2 ++ r3.2 ++ r4.2 ++ r5.2 ++ r6.2 ++ r7.2 ++ r8.2)

/-- What one run of the interrupt handler returns and leaves behind. -/
structure IrqOutcome where
  ret : irqreturn_t
  /-- The value of `dsi->xfer_result` when the handler returns. -/
  xfer_result : Int
  trace : List Event

/-- The function `vc4_dsi_irq_handler(irq, data)` on the port `dsi->port`.
`int_stat` is what the read of INT_STAT returns and `xfer_result` the value of
`dsi->xfer_result` when the handler starts. -/
def vc4_dsi_irq_handler (port int_stat : Nat) (xfer_result : Int) : IrqOutcome :=
  let stat := int_stat % 2 ^ 32
  let clear := [Event.read (DSI_PORT port DSI0_INT_STAT DSI1_INT_STAT),
    Event.write (DSI_PORT port DSI0_INT_STAT DSI1_INT_STAT) stat]
  let errors := irq_handle_errors stat
  if stat &&& (DSI1_INT_TXPKT1_DONE ||| DSI1_INT_PHY_DIR_RTF) ≠ 0 then
    { ret := irqreturn_t.IRQ_HANDLED,
      xfer_result := xfer_result,
      trace := clear ++ errors.2 ++ [Event.complete] }
  else if stat &&& DSI1_INT_HSTX_TO ≠ 0 then
    { ret := irqreturn_t.IRQ_HANDLED,
      xfer_result := -ETIMEDOUT,
      trace := clear ++ errors.2 ++ [Event.complete, Event.xfer_result_timeout] }
  else
    { ret := errors.1,
      xfer_result := xfer_result,
      trace := clear ++ errors.2 }

/-! ## Power-state sequencer: `vc4_dsi_latch_ulps`, `vc4_dsi_ulps` (lines 801-862) -/

/-- The registers that hold what was last written to them (PHYC, PHY_AFEC0),
by offset: the content after a write of `val` at `offset`. -/
def reg_write (regs : Nat → Nat) (offset val : Nat) : Nat → Nat :=
  fun o => if o = offset then val else regs o

/-- The answers of the hardware during one run of `vc4_dsi_ulps`: the values
that the successive reads of STAT return in the first and in the second poll,
until the bound of the poll elapses. -/
structure UlpsHw where
  stat_ulps_poll : List Nat
  stat_stop_poll : List Nat

/-- Modelled from the spec: wait_for(COND, MS) is declared in vc4_drv.h, which is
not among the sources; it polls until the condition holds or the bound elapses
and returns 0 or -ETIMEDOUT.  The condition here is always
`(DSI_PORT_READ(STAT) & mask) == mask`; `reads` are the values STAT returns
until the bound elapses.  The result is the return value and the number of
reads of STAT made. -/
def wait_for (mask : Nat) : List Nat → Int × Nat
  | [] => (-ETIMEDOUT, 0)
  | v :: rest =>
    if (v % 2 ^ 32) &&& mask = mask then (0, 1)
    else ((wait_for mask rest).1, (wait_for mask rest).2 + 1)

/-- The function `vc4_dsi_latch_ulps(dsi, latch)` (lines 801-811): the content of
the registers afterwards and the accesses made. -/
def vc4_dsi_latch_ulps (port : Nat) (latch : Bool) (regs : Nat → Nat) :
    (Nat → Nat) × List Event :=
  let afec0 := regs (DSI_PORT port DSI0_PHY_AFEC0 DSI1_PHY_AFEC0) % 2 ^ 32
  let afec0 := if latch then
      afec0 ||| DSI_PORT port DSI0_PHY_AFEC0_LATCH_ULPS DSI1_PHY_AFEC0_LATCH_ULPS
    else
      afec0 &&& (2 ^ 32 - 1 - DSI_PORT port DSI0_PHY_AFEC0_LATCH_ULPS DSI1_PHY_AFEC0_LATCH_ULPS)
  (reg_write regs (DSI_PORT port DSI0_PHY_AFEC0 DSI1_PHY_AFEC0) afec0,
   [Event.read (DSI_PORT port DSI0_PHY_AFEC0 DSI1_PHY_AFEC0),
    Event.write (DSI_PORT port DSI0_PHY_AFEC0 DSI1_PHY_AFEC0) afec0])

/-- The local `phyc_ulps` of `vc4_dsi_ulps` (lines 816-820). -/
def phyc_ulps (port lanes : Nat) : Nat :=
  DSI_PORT port DSI0_PHYC_CLANE_ULPS DSI1_PHYC_CLANE_ULPS |||
  DSI_PHYC_DLANE0_ULPS |||
  (if 1 < lanes then DSI_PHYC_DLANE1_ULPS else 0) |||
  (if 2 < lanes then DSI_PHYC_DLANE2_ULPS else 0) |||
  (if 3 < lanes then DSI_PHYC_DLANE3_ULPS else 0)

/-- The local `stat_ulps` of `vc4_dsi_ulps` (lines 821-825). -/
def stat_ulps (lanes : Nat) : Nat :=
  DSI1_STAT_PHY_CLOCK_ULPS |||
  DSI1_STAT_PHY_D0_ULPS |||
  (if 1 < lanes then DSI1_STAT_PHY_D1_ULPS else 0) |||
  (if 2 < lanes then DSI1_STAT_PHY_D2_ULPS else 0) |||
  (if 3 < lanes then DSI1_STAT_PHY_D3_ULPS else 0)

/-- The local `stat_stop` of `vc4_dsi_ulps` (lines 826-830). -/
def stat_stop (lanes : Nat) : Nat :=
  DSI1_STAT_PHY_CLOCK_STOP |||
  DSI1_STAT_PHY_D0_STOP |||
  (if 1 < lanes then DSI1_STAT_PHY_D1_STOP else 0) |||
  (if 2 < lanes then DSI1_STAT_PHY_D2_STOP else 0) |||
  (if 3 < lanes then DSI1_STAT_PHY_D3_STOP else 0)

/-- The function `vc4_dsi_ulps(dsi, ulps)` on the port `dsi->port` with
`dsi->lanes` lanes: the content of the registers afterwards and the events.
PHYC and PHY_AFEC0 hold what was last written to them (`regs` is their content
at entry); STAT is a status register, whose writes are recorded and whose reads
are answered by the hardware. -/
def vc4_dsi_ulps (port lanes : Nat) (ulps : Bool) (hw : UlpsHw) (regs : Nat → Nat) :
    (Nat → Nat) × List Event :=
  let STAT := DSI_PORT port DSI0_STAT DSI1_STAT
  let PHYC := DSI_PORT port DSI0_PHYC DSI1_PHYC
  let not_phyc_ulps := 2 ^ 32 - 1 - phyc_ulps port lanes
  let phyc1 := (regs PHYC % 2 ^ 32) ||| phyc_ulps port lanes
  let regs1 := reg_write regs PHYC phyc1
  let poll1 := wait_for (stat_ulps lanes) hw.stat_ulps_poll
  let trace1 := [Event.write STAT (stat_ulps lanes), Event.read PHYC, Event.write PHYC phyc1] ++
    List.replicate poll1.2 (Event.read STAT)
  if poll1.1 ≠ 0 then
    let phyc2 := (regs1 PHYC % 2 ^ 32) &&& not_phyc_ulps
    let latched := vc4_dsi_latch_ulps port false (reg_write regs1 PHYC phyc2)
    (latched.1,
     trace1 ++ [Event.read STAT, Event.read PHYC, Event.write PHYC phyc2] ++ latched.2)
  else
    let latched := vc4_dsi_latch_ulps port ulps regs1
    let phyc3 := (latched.1 PHYC % 2 ^ 32) &&& not_phyc_ulps
    let regs3 := reg_write latched.1 PHYC phyc3
    let poll2 := wait_for (stat_stop lanes) hw.stat_stop_poll
    let trace2 := trace1 ++ latched.2 ++
      [Event.write STAT (stat_stop lanes), Event.read PHYC, Event.write PHYC phyc3] ++
      List.replicate poll2.2 (Event.read STAT)
    if poll2.1 ≠ 0 then
      let phyc4 := (regs3 PHYC % 2 ^ 32) &&& not_phyc_ulps
      (reg_write regs3 PHYC phyc4,
       trace2 ++ [Event.read STAT, Event.read PHYC, Event.write PHYC phyc4])
    else
      (regs3, trace2)

/-! ## Payload written to the FIFOs (lines 1212-1221) -/

/-- The values that a trace writes to the register at `offset`, in order. -/
def fifo_written (offset : Nat) : List Event → List Nat
  | [] => []
  | Event.write o val :: rest =>
    if o = offset then val :: fifo_written offset rest else fifo_written offset rest
  | _ :: rest => fifo_written offset rest

/-- The four bytes of a 32-bit word, least significant first. -/
def le_bytes (w : Nat) : List Nat :=
  [w % 256, (w >>> 8) % 256, (w >>> 16) % 256, (w >>> 24) % 256]

/-- The offsets that a trace reads, in order. -/
def register_reads : List Event → List Nat
  | [] => []
  | Event.read offset :: rest => offset :: register_reads rest
  | _ :: rest => register_reads rest

/-! ## Link configuration: `vc4_dsi_host_attach` (lines 1331-1354) and the divider
of `vc4_dsi_encoder_enable` (lines 979-996) -/

/-- The fields of `struct mipi_dsi_device` that attach reads: `unsigned int
channel`, `unsigned int lanes`, `enum mipi_dsi_pixel_format format`,
`unsigned long mode_flags`. -/
structure mipi_dsi_device where
  channel : Nat
  lanes : Nat
  format : mipi_dsi_pixel_format
  mode_flags : Nat

/-- The answers of the kernel during attach: whether `of_drm_find_panel`
returned a panel, and what `drm_panel_attach` returns for it. -/
structure AttachEnv where
  panel_found : Bool
  drm_panel_attach_ret : Int

/-- What attach calls, in program order. -/
inductive AttachAction where
  /-- The report `dev_err(..., "Only VIDEO mode panels supported currently.\n")`. -/
  | dev_err
  /-- The call `of_drm_find_panel(device->dev.of_node)`. -/
  | of_drm_find_panel
  /-- The call `drm_panel_attach(dsi->panel, dsi->connector)`. -/
  | drm_panel_attach
  /-- The call `drm_helper_hpd_irq_event(dsi->connector->dev)`. -/
  | drm_helper_hpd_irq_event
deriving DecidableEq

/-- The return value of attach, the link configuration it leaves in
`struct vc4_dsi` (`u32 lanes`, `u32 channel`, `format`, `u32 mode_flags`) and its
calls. -/
structure AttachOutcome where
  ret : Int
  lanes : Nat
  channel : Nat
  format : mipi_dsi_pixel_format
  mode_flags : Nat
  actions : List AttachAction

/-- The function `vc4_dsi_host_attach(host, device)`. -/
def vc4_dsi_host_attach (device : mipi_dsi_device) (env : AttachEnv) : AttachOutcome :=
  let lanes := device.lanes % 2 ^ 32
  let channel := device.channel % 2 ^ 32
  let mode_flags := device.mode_flags % 2 ^ 32
  if mode_flags &&& MIPI_DSI_MODE_VIDEO = 0 then
    { ret := 0, lanes := lanes, channel := channel, format := device.format,
      mode_flags := mode_flags, actions := [AttachAction.dev_err] }
  else if env.panel_found then
    { ret := env.drm_panel_attach_ret, lanes := lanes, channel := channel,
      format := device.format, mode_flags := mode_flags,
      actions := [AttachAction.of_drm_find_panel, AttachAction.drm_panel_attach] }
  else
    { ret := 0, lanes := lanes, channel := channel, format := device.format,
      mode_flags := mode_flags,
      actions := [AttachAction.of_drm_find_panel, AttachAction.drm_helper_hpd_irq_event] }

/-- The local `divider` after the `switch (dsi->format)` of
`vc4_dsi_encoder_enable` (lines 979-996), with `lanes` the stored `dsi->lanes`;
`none` where the C division is by zero. -/
def vc4_dsi_encoder_enable_divider (format : mipi_dsi_pixel_format) (lanes : Nat) :
    Option Nat :=
  match format with
  | mipi_dsi_pixel_format.MIPI_DSI_FMT_RGB888 => if lanes = 0 then none else some (24 / lanes)
  | mipi_dsi_pixel_format.MIPI_DSI_FMT_RGB666 => if lanes = 0 then none else some (24 / lanes)
  | mipi_dsi_pixel_format.MIPI_DSI_FMT_RGB666_PACKED =>
    if lanes = 0 then none else some (18 / lanes)
  | mipi_dsi_pixel_format.MIPI_DSI_FMT_RGB565 => if lanes = 0 then none else some (16 / lanes)

/-! ## Timing registers of `vc4_dsi_encoder_enable` (lines 1044-1099) -/

/-- The register fields that `vc4_dsi_encoder_enable` fills with a timing value
through VC4_SET_FIELD in lines 1044-1099: those of HS_CLT0, HS_CLT1, HS_CLT2,
HS_DLT3, HS_DLT4, HS_DLT5, HS_DLT6, HS_DLT7 and the ESC_CLK_LPDT field of PHYC,
in program order. -/
inductive TimingField where
  | CZERO
  | CPRE
  | CPREP
  | CTRAIL
  | CPOST
  | WUP
  | EXIT
  | ZERO
  | PRE
  | LPX
  | TRAIL
  | ANLAT
  | INIT
  | TA_GET
  | TA_SURE
  | TA_GO
  | LP_LPX
  | LP_WUP
  | ESC_CLK_LPDT
deriving DecidableEq

/-- The local `lpx` of `vc4_dsi_encoder_enable` (line 917):
`uint32_t lpx = dsi_esc_timing(60)`. -/
def vc4_dsi_encoder_enable_lpx : Option Nat := dsi_esc_timing 60

/-- The value that lines 1044-1099 pass to VC4_SET_FIELD for each field, for the
unit interval `ui_ns`; the products and the difference are `uint32_t`.  `none`
where a division is by zero. -/
def vc4_dsi_encoder_enable_timing (ui_ns : Nat) : TimingField → Option Nat
  | TimingField.CZERO => dsi_hs_timing ui_ns 262 0
  | TimingField.CPRE => dsi_hs_timing ui_ns 0 8
  | TimingField.CPREP => dsi_hs_timing ui_ns 38 0
  | TimingField.CTRAIL => dsi_hs_timing ui_ns 60 0
  | TimingField.CPOST => dsi_hs_timing ui_ns 60 52
  | TimingField.WUP => dsi_hs_timing ui_ns 1000000 0
  | TimingField.EXIT => dsi_hs_timing ui_ns 100 0
  | TimingField.ZERO => dsi_hs_timing ui_ns 105 6
  | TimingField.PRE => dsi_hs_timing ui_ns 40 4
  | TimingField.LPX =>
    vc4_dsi_encoder_enable_lpx.bind fun lpx =>
      dsi_hs_timing ui_ns ((lpx * ESC_TIME_NS) % 2 ^ 32) 0
  | TimingField.TRAIL =>
    (dsi_hs_timing ui_ns 0 8).bind fun trail_ui =>
      (dsi_hs_timing ui_ns 60 4).map fun trail_ns => max trail_ui trail_ns
  | TimingField.ANLAT => some 0
  | TimingField.INIT => dsi_hs_timing ui_ns 1000 5000
  | TimingField.TA_GET => vc4_dsi_encoder_enable_lpx.map fun lpx => (lpx * 5) % 2 ^ 32
  | TimingField.TA_SURE => vc4_dsi_encoder_enable_lpx
  | TimingField.TA_GO => vc4_dsi_encoder_enable_lpx.map fun lpx => (lpx * 4) % 2 ^ 32
  | TimingField.LP_LPX => vc4_dsi_encoder_enable_lpx
  | TimingField.LP_WUP => dsi_esc_timing 1000000
  | TimingField.ESC_CLK_LPDT =>
    vc4_dsi_encoder_enable_lpx.map fun lpx => (lpx + 2 ^ 32 - 1) % 2 ^ 32

/-- The mask of each field, as lines 1044-1099 name it on port `port`. -/
def timing_field_mask (port : Nat) : TimingField → Nat
  | TimingField.CZERO => DSI_HS_CLT0_CZERO_MASK
  | TimingField.CPRE => DSI_HS_CLT0_CPRE_MASK
  | TimingField.CPREP => DSI_HS_CLT0_CPREP_MASK
  | TimingField.CTRAIL => DSI_HS_CLT1_CTRAIL_MASK
  | TimingField.CPOST => DSI_HS_CLT1_CPOST_MASK
  | TimingField.WUP => DSI_HS_CLT2_WUP_MASK
  | TimingField.EXIT => DSI_HS_DLT3_EXIT_MASK
  | TimingField.ZERO => DSI_HS_DLT3_ZERO_MASK
  | TimingField.PRE => DSI_HS_DLT3_PRE_MASK
  | TimingField.LPX => DSI_HS_DLT4_LPX_MASK
  | TimingField.TRAIL => DSI_HS_DLT4_TRAIL_MASK
  | TimingField.ANLAT => DSI_HS_DLT4_ANLAT_MASK
  | TimingField.INIT => DSI_HS_DLT5_INIT_MASK
  | TimingField.TA_GET => DSI_HS_DLT6_TA_GET_MASK
  | TimingField.TA_SURE => DSI_HS_DLT6_TA_SURE_MASK
  | TimingField.TA_GO => DSI_HS_DLT6_TA_GO_MASK
  | TimingField.LP_LPX => DSI_HS_DLT6_LP_LPX_MASK
  | TimingField.LP_WUP => DSI_HS_DLT7_LP_WUP_MASK
  | TimingField.ESC_CLK_LPDT =>
    if port = 0 then DSI0_PHYC_ESC_CLK_LPDT_MASK else DSI1_PHYC_ESC_CLK_LPDT_MASK

/-- The shift of each field, as lines 1044-1099 name it on port `port`. -/
def timing_field_shift (port : Nat) : TimingField → Nat
  | TimingField.CZERO => DSI_HS_CLT0_CZERO_SHIFT
  | TimingField.CPRE => DSI_HS_CLT0_CPRE_SHIFT
  | TimingField.CPREP => DSI_HS_CLT0_CPREP_SHIFT
  | TimingField.CTRAIL => DSI_HS_CLT1_CTRAIL_SHIFT
  | TimingField.CPOST => DSI_HS_CLT1_CPOST_SHIFT
  | TimingField.WUP => DSI_HS_CLT2_WUP_SHIFT
  | TimingField.EXIT => DSI_HS_DLT3_EXIT_SHIFT
  | TimingField.ZERO => DSI_HS_DLT3_ZERO_SHIFT
  | TimingField.PRE => DSI_HS_DLT3_PRE_SHIFT
  | TimingField.LPX => DSI_HS_DLT4_LPX_SHIFT
  | TimingField.TRAIL => DSI_HS_DLT4_TRAIL_SHIFT
  | TimingField.ANLAT => DSI_HS_DLT4_ANLAT_SHIFT
  | TimingField.INIT => DSI_HS_DLT5_INIT_SHIFT
  | TimingField.TA_GET => DSI_HS_DLT6_TA_GET_SHIFT
  | TimingField.TA_SURE => DSI_HS_DLT6_TA_SURE_SHIFT
  | TimingField.TA_GO => DSI_HS_DLT6_TA_GO_SHIFT
  | TimingField.LP_LPX => DSI_HS_DLT6_LP_LPX_SHIFT
  | TimingField.LP_WUP => DSI_HS_DLT7_LP_WUP_SHIFT
  | TimingField.ESC_CLK_LPDT =>
    if port = 0 then DSI0_PHYC_ESC_CLK_LPDT_SHIFT else DSI1_PHYC_ESC_CLK_LPDT_SHIFT

/-! ## Concrete inputs -/

/-- A DCS long write (data type 0x39) of 18 payload bytes 1, 2, ..., 18. -/
def packet_18 : mipi_dsi_packet :=
  { header := fun i => if i = 0 then 0x39 else if i = 1 then 18 else 0,
    payload_length := 18,
    payload := fun i => i + 1 }

/-- A long write of 1028 zero bytes: 257 whole words, one more than the pixel
FIFO holds. -/
def packet_1028 : mipi_dsi_packet :=
  { header := fun i => if i = 0 then 0x39 else if i = 1 then 0x04 else if i = 2 then 0x04 else 0,
    payload_length := 1028,
    payload := fun _ => 0 }

/-- A message that expects no response and has no flag set. -/
def msg_tx_only : mipi_dsi_msg := { flags := 0, rx_len := 0 }

/-- Hardware that signals the completion in time, without error. -/
def hw_completes : Hw :=
  { completed := true, xfer_result := 0, stat := 0, rxpkt1h := 0,
    rxpkt_fifo := fun _ => 0, txpkt1c := 0, ctrl := 0 }

/-- Hardware that never signals the completion and whose STAT shows nothing. -/
def hw_times_out : Hw :=
  { completed := false, xfer_result := 0, stat := 0, rxpkt1h := 0,
    rxpkt_fifo := fun _ => 0, txpkt1c := 0x605, ctrl := 0 }

/-- A DCS read (data type 0x06) of the register 0x0a: a short packet. -/
def packet_dcs_read : mipi_dsi_packet :=
  { header := fun i => if i = 0 then 0x06 else if i = 1 then 0x0a else 0,
    payload_length := 0,
    payload := fun _ => 0 }

/-- A message that expects a response of 8 bytes. -/
def msg_read_8 : mipi_dsi_msg := { flags := 0, rx_len := 8 }

/-- A message that expects a response of 1 byte. -/
def msg_read_1 : mipi_dsi_msg := { flags := 0, rx_len := 1 }

/-- Hardware that completes in time and answers with a long response declaring
10 bytes: RXPKT1H has PKT_TYPE_LONG (bit 24) set and 10 in bits 23:8. -/
def hw_long_response_10 : Hw :=
  { completed := true, xfer_result := 0, stat := 0, rxpkt1h := 0x01000a00,
    rxpkt_fifo := fun _ => 0, txpkt1c := 0x411, ctrl := 0 }

/-- Hardware that completes in time and answers with a short response whose
bytes are 0x12 and 0x34. -/
def hw_short_response : Hw :=
  { completed := true, xfer_result := 0, stat := 0, rxpkt1h := 0x00341200,
    rxpkt_fifo := fun _ => 0, txpkt1c := 0x411, ctrl := 0 }

/-- Hardware whose STAT shows no lane in ULPS during the first poll. -/
def ulps_hw_no_answer : UlpsHw := { stat_ulps_poll := [0, 0, 0], stat_stop_poll := [] }

/-- Register contents at entry: PHYC of port 1 (offset 0x4c) with the clock lane
and the data lanes 0 and 1 enabled and no ULPS request, PHY_AFEC0 of port 1
(offset 0x70) with LATCH_ULPS (bit 14) set. -/
def regs_two_lanes : Nat → Nat :=
  fun o => if o = 0x4c then 0x10011 else if o = 0x70 then 0x4123 else 0

/-- Hardware whose STAT shows the clock lane and the data lanes 0 and 1 in ULPS
at the second read of the first poll (bits 18, 25, 27) and in STOP at the first
read of the second poll (bits 16, 24, 26). -/
def ulps_hw_answers : UlpsHw :=
  { stat_ulps_poll := [0, 0x0a040000], stat_stop_poll := [0x05010000] }

/-- Hardware whose STAT shows the lanes in ULPS in the first poll and never shows
them in STOP in the second. -/
def ulps_hw_no_stop : UlpsHw :=
  { stat_ulps_poll := [0x0a040000], stat_stop_poll := [0, 0] }

/-- A message that expects a response of 10 bytes. -/
def msg_read_10 : mipi_dsi_msg := { flags := 0, rx_len := 10 }

/-- A video-mode peripheral that declares no lane at all. -/
def device_no_lane : mipi_dsi_device :=
  { channel := 0, lanes := 0, format := mipi_dsi_pixel_format.MIPI_DSI_FMT_RGB888,
    mode_flags := 1 }

/-- A video-mode peripheral that declares five lanes. -/
def device_five_lanes : mipi_dsi_device :=
  { channel := 0, lanes := 5, format := mipi_dsi_pixel_format.MIPI_DSI_FMT_RGB565,
    mode_flags := 1 }

/-- A video-mode peripheral with two lanes and RGB888 pixels. -/
def device_two_lanes : mipi_dsi_device :=
  { channel := 0, lanes := 2, format := mipi_dsi_pixel_format.MIPI_DSI_FMT_RGB888,
    mode_flags := 1 }

/-- A kernel in which no panel is registered for the peripheral. -/
def attach_no_panel : AttachEnv := { panel_found := false, drm_panel_attach_ret := 0 }

/-! ### The specification's reading of the timing formula -/

/-- The ceiling of the exact quotient n / d, as the specification writes
`ceil(nanoseconds / ui_duration_ns)`. -/
def spec_ceil_div (n d : Nat) : Nat := ⌈(n : ℚ) / (d : ℚ)⌉₊

/-- The specification's `round_up_to_multiple_of_8(x)`: v is the least multiple
of 8 that is at least x. -/
def spec_round_up_to_multiple_of_8 (x v : Nat) : Prop :=
  8 ∣ v ∧ x ≤ v ∧ ∀ m, 8 ∣ m → x ≤ m → v ≤ m

/-! # Proofs -/

set_option maxRecDepth 20000

/-! ## Arithmetic of the rounding helpers -/

theorem ceil_div_le_iff (n d k : Nat) (hd : 0 < d) : (n + d - 1) / d ≤ k ↔ n ≤ k * d := by
  rw [← Nat.lt_succ_iff, Nat.div_lt_iff_lt_mul hd, Nat.succ_mul]
  omega

theorem spec_ceil_div_eq (n d : Nat) (hd : 0 < d) : spec_ceil_div n d = (n + d - 1) / d := by
  have hdq : (0 : ℚ) < (d : ℚ) := by exact_mod_cast hd
  unfold spec_ceil_div
  apply le_antisymm
  · rw [Nat.ceil_le, div_le_iff₀ hdq]
    have h := (ceil_div_le_iff n d ((n + d - 1) / d) hd).1 le_rfl
    exact_mod_cast h
  · rw [ceil_div_le_iff n d _ hd]
    have h : (n : ℚ) / (d : ℚ) ≤ (⌈(n : ℚ) / (d : ℚ)⌉₊ : ℚ) := Nat.le_ceil _
    rw [div_le_iff₀ hdq] at h
    exact_mod_cast h

theorem ceil_div_antitone (n d1 d2 : Nat) (h2 : 0 < d2) (h : d2 ≤ d1) :
    (n + d1 - 1) / d1 ≤ (n + d2 - 1) / d2 := by
  rw [ceil_div_le_iff n d1 _ (by omega)]
  have h1 := (ceil_div_le_iff n d2 ((n + d2 - 1) / d2) h2).1 le_rfl
  exact le_trans h1 (Nat.mul_le_mul_left _ h)

theorem ceil_div_le_self (n d : Nat) (hd : 0 < d) : (n + d - 1) / d ≤ n := by
  rw [ceil_div_le_iff n d n hd]
  exact Nat.le_mul_of_pos_right n hd

theorem ceil_div_pos (n d : Nat) (hn : 0 < n) (hd : 0 < d) : 1 ≤ (n + d - 1) / d := by
  rw [Nat.one_le_div_iff hd]
  omega

theorem roundup_8_dvd (x : Nat) : 8 ∣ roundup x 8 := by
  unfold roundup
  have h : (x + (8 - 1)) % 2 ^ 32 / 8 * 8 < 2 ^ 32 := by
    have := Nat.mod_lt (x + (8 - 1)) (show 0 < 2 ^ 32 by norm_num)
    omega
  rw [Nat.mod_eq_of_lt h]
  exact Nat.dvd_mul_left 8 _

theorem roundup_8_lt (x : Nat) : roundup x 8 < 2 ^ 32 := by
  unfold roundup
  exact Nat.mod_lt _ (by norm_num)

theorem roundup_8_eq (x : Nat) (h : x + 7 < 2 ^ 32) : roundup x 8 = (x + 7) / 8 * 8 := by
  unfold roundup
  have h1 : (x + (8 - 1)) % 2 ^ 32 = x + 7 := Nat.mod_eq_of_lt h
  rw [h1]
  apply Nat.mod_eq_of_lt
  omega

theorem spec_round_up_div (x : Nat) : spec_round_up_to_multiple_of_8 x ((x + 7) / 8 * 8) := by
  refine ⟨Nat.dvd_mul_left 8 _, by omega, ?_⟩
  rintro m ⟨k, rfl⟩ hm
  omega

theorem dsi_hs_timing_eq (ui_ns ns ui : Nat) (h : 1 ≤ ui_ns) :
    dsi_hs_timing ui_ns ns ui =
      some (roundup ((ui + (ns + ui_ns - 1) % 2 ^ 32 / ui_ns) % 2 ^ 32) 8) := by
  have h0 : ui_ns ≠ 0 := by omega
  simp [dsi_hs_timing, DIV_ROUND_UP, h0]

theorem dsi_hs_timing_exact (ui_ns ns ui : Nat) (h : 1 ≤ ui_ns)
    (hns : ns + ui_ns - 1 < 2 ^ 32) (hui : ui + (ns + ui_ns - 1) / ui_ns + 7 < 2 ^ 32) :
    dsi_hs_timing ui_ns ns ui = some ((ui + (ns + ui_ns - 1) / ui_ns + 7) / 8 * 8) := by
  rw [dsi_hs_timing_eq ui_ns ns ui h, Nat.mod_eq_of_lt hns,
    Nat.mod_eq_of_lt (by omega), roundup_8_eq _ hui]

theorem enable_ui_ns_exact (BITS R : Nat) (h0 : 0 < R) (hR : 500000000 + R - 1 < 2 ^ BITS) :
    vc4_dsi_encoder_enable_ui_ns BITS R = some ((500000000 + R - 1) / R) := by
  have hne : R ≠ 0 := by omega
  have hle : (500000000 + R - 1) / R ≤ 500000000 := ceil_div_le_self 500000000 R h0
  have hlt : (500000000 + R - 1) / R % 2 ^ 32 = (500000000 + R - 1) / R :=
    Nat.mod_eq_of_lt (by omega)
  unfold vc4_dsi_encoder_enable_ui_ns DIV_ROUND_UP
  rw [if_neg hne, Option.map_some', Nat.mod_eq_of_lt hR, hlt]

/-! ## Bit fields -/

theorem VC4_MASK_testBit (h l i : Nat) (hl : l ≤ h + 1) :
    (VC4_MASK h l).testBit i = (decide (l ≤ i) && decide (i ≤ h)) := by
  have e : VC4_MASK h l = (2 ^ (h + 1 - l) - 1) <<< l := by
    unfold VC4_MASK
    rw [Nat.shiftLeft_eq, Nat.sub_mul, one_mul, ← Nat.pow_add, Nat.sub_add_cancel hl]
  rw [e, Nat.testBit_shiftLeft, Nat.testBit_two_pow_sub_one]
  by_cases h1 : l ≤ i <;> by_cases h2 : i ≤ h <;> simp [h1, h2] <;> omega

theorem VC4_GET_FIELD_or (x y m s : Nat) :
    VC4_GET_FIELD (x ||| y) m s = VC4_GET_FIELD x m s ||| VC4_GET_FIELD y m s := by
  unfold VC4_GET_FIELD
  apply Nat.eq_of_testBit_eq
  intro i
  simp only [Nat.testBit_shiftRight, Nat.testBit_and, Nat.testBit_or]
  cases x.testBit (s + i) <;> cases y.testBit (s + i) <;> cases m.testBit (s + i) <;> rfl

theorem VC4_GET_FIELD_zero (m s : Nat) : VC4_GET_FIELD 0 m s = 0 := by
  simp [VC4_GET_FIELD]

theorem VC4_GET_SET_FIELD (v h l : Nat) (hl : l ≤ h) (h32 : h < 32)
    (hv : v < 2 ^ (h + 1 - l)) :
    VC4_GET_FIELD (VC4_SET_FIELD v (VC4_MASK h l) l) (VC4_MASK h l) l = v := by
  unfold VC4_GET_FIELD VC4_SET_FIELD
  apply Nat.eq_of_testBit_eq
  intro i
  simp only [Nat.testBit_shiftRight, Nat.testBit_and, Nat.testBit_mod_two_pow,
    Nat.testBit_shiftLeft, VC4_MASK_testBit h l (l + i) (by omega)]
  by_cases hi : i < h + 1 - l
  · have h1 : l + i < 32 := by omega
    have h2 : l + i ≤ h := by omega
    simp [h1, h2]
  · have h2 : ¬ (l + i ≤ h) := by omega
    have h3 : v.testBit i = false := by
      apply Nat.testBit_lt_two_pow
      exact lt_of_lt_of_le hv (Nat.pow_le_pow_right (by norm_num) (by omega))
    simp [h2, h3]

theorem VC4_GET_SET_FIELD_other (v h l h' l' : Nat) (hl : l' ≤ h' + 1)
    (hd : h' < l ∨ h < l') :
    VC4_GET_FIELD (VC4_SET_FIELD v (VC4_MASK h' l') l') (VC4_MASK h l) l = 0 := by
  unfold VC4_GET_FIELD VC4_SET_FIELD
  apply Nat.eq_of_testBit_eq
  intro i
  simp only [Nat.testBit_shiftRight, Nat.testBit_and, Nat.zero_testBit,
    VC4_MASK_testBit h' l' (l + i) hl]
  by_cases h1 : l + i ≤ h'
  · by_cases h3 : l + i ≤ h
    · have h4 : ¬ (l' ≤ l + i) := by omega
      simp [h4]
    · have e : (VC4_MASK h l).testBit (l + i) = false := by
        by_cases h5 : l ≤ h + 1
        · rw [VC4_MASK_testBit h l (l + i) h5]; simp [h3]
        · unfold VC4_MASK
          have : 2 ^ (h + 1) ≤ 2 ^ l := Nat.pow_le_pow_right (by norm_num) (by omega)
          rw [Nat.sub_eq_zero_of_le this]; simp
      simp [e]
  · simp [h1]

/-! ## Shape of the trace of a transfer -/

theorem transfer_trace_starts_with_submit (port : Nat) (msg : mipi_dsi_msg) (is_long : Bool)
    (packet : mipi_dsi_packet) (hw : Hw) :
    ∃ rest, (vc4_dsi_host_transfer port msg is_long packet hw).trace =
      xfer_submit port msg is_long packet ++ rest := by
  unfold vc4_dsi_host_transfer
  simp only
  split_ifs
  · exact ⟨_, by simp only [List.append_assoc]; rfl⟩
  · exact ⟨_, by simp only [List.append_assoc]; rfl⟩
  · exact ⟨_, by simp only [List.append_assoc]; rfl⟩
  · exact ⟨_, by simp only [List.append_assoc]; rfl⟩

theorem pkth_written (port : Nat) (msg : mipi_dsi_msg) (is_long : Bool)
    (packet : mipi_dsi_packet) (hw : Hw) :
    Event.write (DSI_PORT port DSI0_TXPKT1H DSI1_TXPKT1H) (pkth is_long packet) ∈
      (vc4_dsi_host_transfer port msg is_long packet hw).trace := by
  obtain ⟨rest, h⟩ := transfer_trace_starts_with_submit port msg is_long packet hw
  rw [h]
  simp [xfer_submit, xfer_arm_and_send]

theorem pktc_written (port : Nat) (msg : mipi_dsi_msg) (is_long : Bool)
    (packet : mipi_dsi_packet) (hw : Hw) :
    Event.write (DSI_PORT port DSI0_TXPKT1C DSI1_TXPKT1C) (pktc msg is_long packet) ∈
      (vc4_dsi_host_transfer port msg is_long packet hw).trace := by
  obtain ⟨rest, h⟩ := transfer_trace_starts_with_submit port msg is_long packet hw
  rw [h]
  simp [xfer_submit, xfer_arm_and_send]

/-! ## Register writes of a trace -/

theorem register_writes_append (a b : List Event) :
    register_writes (a ++ b) = register_writes a ++ register_writes b := by
  induction a with
  | nil => rfl
  | cons e a ih => cases e <;> simp [register_writes, ih]

theorem reg_after_append (offset init : Nat) (a b : List Event) :
    reg_after offset init (a ++ b) = reg_after offset (reg_after offset init a) b := by
  induction a generalizing init with
  | nil => rfl
  | cons e a ih => cases e <;> simp [reg_after, ih]

theorem register_writes_reset (port : Nat) (hw : Hw) :
    register_writes (reset_fifo_and_return port hw) =
      [(DSI_PORT port DSI0_TXPKT1C DSI1_TXPKT1C,
          (hw.txpkt1c % 2 ^ 32) &&& (2 ^ 32 - 1 - DSI_TXPKT1C_CMD_EN)),
       (DSI_PORT port DSI0_CTRL DSI1_CTRL,
          (hw.ctrl % 2 ^ 32) |||
            (if port = 0 then DSI0_CTRL_RESET_FIFOS else DSI1_CTRL_RESET_FIFOS)),
       (DSI_PORT port DSI0_TXPKT1C DSI1_TXPKT1C, 0),
       (DSI_PORT port DSI0_INT_EN DSI1_INT_EN, DSI1_INTERRUPTS_ALWAYS_ENABLED)] := by
  by_cases h : port = 0 <;> simp [reset_fifo_and_return, register_writes, h]

theorem reg_after_reset (port init : Nat) (hw : Hw) :
    reg_after (DSI_PORT port DSI0_TXPKT1C DSI1_TXPKT1C) init (reset_fifo_and_return port hw) = 0 := by
  by_cases h : port = 0 <;>
    simp [reset_fifo_and_return, reg_after, DSI_PORT, h, DSI0_TXPKT1C, DSI1_TXPKT1C, DSI0_CTRL,
      DSI1_CTRL, DSI0_INT_EN, DSI1_INT_EN]

theorem udelay_mem_reset (port : Nat) (hw : Hw) :
    Event.udelay 1 ∈ reset_fifo_and_return port hw := by
  simp [reset_fifo_and_return]

theorem udelay_not_mem_submit (port : Nat) (msg : mipi_dsi_msg) (is_long : Bool)
    (packet : mipi_dsi_packet) : Event.udelay 1 ∉ xfer_submit port msg is_long packet := by
  unfold xfer_submit cmd_fifo_writes pix_fifo_writes xfer_arm_and_send
  split_ifs <;> simp

theorem udelay_not_mem_wait (port : Nat) (hw : Hw) : Event.udelay 1 ∉ (xfer_wait port hw).2 := by
  unfold xfer_wait
  split_ifs <;> simp

theorem udelay_not_mem_response (port : Nat) (msg : mipi_dsi_msg) (hw : Hw) :
    Event.udelay 1 ∉ (xfer_response port msg hw).2 := by
  unfold xfer_response
  simp only
  split_ifs <;> simp

theorem cmd_en_cleared (x : Nat) : (x % 2 ^ 32) &&& (2 ^ 32 - 1 - DSI_TXPKT1C_CMD_EN) &&&
    DSI_TXPKT1C_CMD_EN = 0 := by
  apply Nat.eq_of_testBit_eq
  intro i
  have e : (2 ^ 32 - 1 - DSI_TXPKT1C_CMD_EN) = VC4_MASK 31 1 := by decide
  have e1 : DSI_TXPKT1C_CMD_EN = 2 ^ 0 := rfl
  rw [e, Nat.testBit_and, Nat.testBit_and, VC4_MASK_testBit 31 1 i (by norm_num), e1,
    Nat.testBit_two_pow]
  by_cases h : 0 = i
  · subst h; simp
  · simp [h]

theorem or_and_self_right (x m : Nat) : (x ||| m) &&& m = m := by
  apply Nat.eq_of_testBit_eq
  intro i
  simp only [Nat.testBit_and, Nat.testBit_or]
  cases x.testBit i <;> cases m.testBit i <;> rfl

theorem xfer_wait_ret (port : Nat) (hw : Hw) :
    (xfer_wait port hw).1 =
      if hw.completed then hw.xfer_result
      else if (hw.stat % 2 ^ 32) &&& DSI1_STAT_TXPKT1_DONE ≠ 0 then 0 else -ETIMEDOUT := by
  unfold xfer_wait
  split_ifs <;> rfl

theorem neg_ETIMEDOUT_ne_zero : -ETIMEDOUT ≠ 0 := by decide

theorem transfer_ret (port : Nat) (msg : mipi_dsi_msg) (is_long : Bool)
    (packet : mipi_dsi_packet) (hw : Hw) :
    (vc4_dsi_host_transfer port msg is_long packet hw).ret =
      if (xfer_wait port hw).1 ≠ 0 then (xfer_wait port hw).1
      else if msg.rx_len ≠ 0 then (xfer_response port msg hw).1 else 0 := by
  unfold vc4_dsi_host_transfer
  simp only
  split_ifs <;> simp_all

theorem transfer_trace_cases (port : Nat) (msg : mipi_dsi_msg) (is_long : Bool)
    (packet : mipi_dsi_packet) (hw : Hw) :
    ((vc4_dsi_host_transfer port msg is_long packet hw).ret ≠ 0 ∧
      ∃ pre, (vc4_dsi_host_transfer port msg is_long packet hw).trace =
        pre ++ reset_fifo_and_return port hw) ∨
    ((vc4_dsi_host_transfer port msg is_long packet hw).ret = 0 ∧
      Event.udelay 1 ∉ (vc4_dsi_host_transfer port msg is_long packet hw).trace) := by
  have hs := udelay_not_mem_submit port msg is_long packet
  have hw1 := udelay_not_mem_wait port hw
  have hr := udelay_not_mem_response port msg hw
  unfold vc4_dsi_host_transfer
  simp only
  split_ifs with h1 h2 h3
  · exact Or.inl ⟨h1, _, rfl⟩
  · exact Or.inl ⟨h3, _, rfl⟩
  · right
    simp [hs, hw1, hr]
  · right
    simp [hs, hw1]

/-! ## Packet encoder: the FIFO split, the capacity assertion, the display selector -/

/-- C1: for a long packet of payload length L (below 2^34, which every 32-bit
size_t is, so that the word count fits the u32 pix_fifo_len), the transfer
computes cmd_fifo_len = L mod 4 and pix_fifo_len = (L - cmd_fifo_len) / 4, and
cmd_fifo_len + 4 * pix_fifo_len = L; it makes exactly that many command-FIFO
and pixel-FIFO writes. -/
theorem fifo_split (port : Nat) (packet : mipi_dsi_packet)
    (hL : packet.payload_length < 2 ^ 34) :
    cmd_fifo_len true packet = packet.payload_length % 4 ∧
    pix_fifo_len true packet = (packet.payload_length - cmd_fifo_len true packet) / 4 ∧
    cmd_fifo_len true packet + 4 * pix_fifo_len true packet = packet.payload_length ∧
    (cmd_fifo_writes port packet (cmd_fifo_len true packet)).length =
      packet.payload_length % 4 ∧
    (pix_fifo_writes port packet (cmd_fifo_len true packet)
      (pix_fifo_len true packet)).length = (packet.payload_length - packet.payload_length % 4) / 4 := by
  have hc : cmd_fifo_len true packet = packet.payload_length % 4 := by
    simp [cmd_fifo_len, DSI_PIX_FIFO_WIDTH]
  have hp : pix_fifo_len true packet = (packet.payload_length - packet.payload_length % 4) / 4 := by
    simp only [pix_fifo_len, hc, DSI_PIX_FIFO_WIDTH, if_true]
    apply Nat.mod_eq_of_lt
    omega
  refine ⟨hc, ?_, ?_, ?_, ?_⟩
  · rw [hp, hc]
  · rw [hp, hc]; omega
  · simp [cmd_fifo_writes, hc]
  · simp [pix_fifo_writes, hp]

/-- Witness of C1: a payload of 18 bytes gives cmd_fifo_len = 2 and
pix_fifo_len = 4. -/
theorem fifo_split_witness :
    cmd_fifo_len true packet_18 = 2 ∧ pix_fifo_len true packet_18 = 4 ∧
    cmd_fifo_len true packet_18 + 4 * pix_fifo_len true packet_18 = 18 := by
  have h := fifo_split 1 packet_18 (by decide)
  exact ⟨h.1.trans (by decide), h.2.1.trans (by decide), h.2.2.1⟩

/-- C2, amended: for a long packet whose pix_fifo_len reaches the pixel-FIFO
depth (256), the transfer only raises the WARN_ON_ONCE warning and carries on:
it writes the residual bytes to the command FIFO and all pix_fifo_len words to
the pixel FIFO, then writes the header and control words; its return value is the
one every other packet would get from the same hardware answers (0 when the
completion arrives without error and no response is expected), so there is no
capacity error. -/
theorem capacity_only_warns (port : Nat) (msg : mipi_dsi_msg) (packet : mipi_dsi_packet)
    (hw : Hw) (hcap : DSI_PIX_FIFO_DEPTH ≤ pix_fifo_len true packet) :
    (∃ rest, (vc4_dsi_host_transfer port msg true packet hw).trace =
        Event.warn :: (cmd_fifo_writes port packet (cmd_fifo_len true packet) ++
          (pix_fifo_writes port packet (cmd_fifo_len true packet) (pix_fifo_len true packet) ++
            (xfer_arm_and_send port msg true packet ++ rest)))) ∧
    Event.write (DSI_PORT port DSI0_TXPKT1H DSI1_TXPKT1H) (pkth true packet) ∈
      xfer_arm_and_send port msg true packet ∧
    Event.write (DSI_PORT port DSI0_TXPKT1C DSI1_TXPKT1C) (pktc msg true packet) ∈
      xfer_arm_and_send port msg true packet ∧
    (pix_fifo_writes port packet (cmd_fifo_len true packet) (pix_fifo_len true packet)).length =
      pix_fifo_len true packet ∧
    (∀ is_long' packet', (vc4_dsi_host_transfer port msg is_long' packet' hw).ret =
      (vc4_dsi_host_transfer port msg true packet hw).ret) ∧
    (hw.completed = true → hw.xfer_result = 0 → msg.rx_len = 0 →
      (vc4_dsi_host_transfer port msg true packet hw).ret = 0) := by
  refine ⟨?_, by simp [xfer_arm_and_send], by simp [xfer_arm_and_send],
    by simp [pix_fifo_writes], ?_, ?_⟩
  · obtain ⟨rest, h⟩ := transfer_trace_starts_with_submit port msg true packet hw
    refine ⟨rest, ?_⟩
    rw [h]
    unfold xfer_submit
    simp only [if_true, if_pos hcap, List.append_assoc, List.singleton_append,
      List.cons_append, List.nil_append]
  · intro is_long' packet'
    rw [transfer_ret, transfer_ret]
  · intro hc hx hr
    rw [transfer_ret]
    simp [xfer_wait, hc, hx, hr]

/-- Witness of C2: the 1028-byte long write, whose 257 words exceed the depth. -/
theorem capacity_only_warns_witness :
    DSI_PIX_FIFO_DEPTH ≤ pix_fifo_len true packet_1028 ∧
    (vc4_dsi_host_transfer 1 msg_tx_only true packet_1028 hw_completes).ret = 0 :=
  ⟨by decide,
    (capacity_only_warns 1 msg_tx_only packet_1028 hw_completes
      (by decide)).2.2.2.2.2 rfl rfl rfl⟩

/-- C2 as stated fails: a long write of 1028 bytes has pix_fifo_len = 257 > 256,
yet the transfer returns 0 (no capacity error) after 262 register writes, 257
of them to the pixel FIFO. -/
theorem oversized_packet_is_submitted :
    DSI_PIX_FIFO_DEPTH < pix_fifo_len true packet_1028 ∧
    (vc4_dsi_host_transfer 1 msg_tx_only true packet_1028 hw_completes).ret = 0 ∧
    (register_writes
      (vc4_dsi_host_transfer 1 msg_tx_only true packet_1028 hw_completes).trace).length = 262 ∧
    ((register_writes
      (vc4_dsi_host_transfer 1 msg_tx_only true packet_1028 hw_completes).trace).filter
        (fun w => w.1 = DSI1_TXPKT_PIX_FIFO)).length = 257 := by
  refine ⟨by decide, by decide, by decide, by decide⟩

/-- C3: the DISPLAY_NO field (bits 9:8) of the control word that the transfer
writes to TXPKT1C is SECONDARY (2) if and only if pix_fifo_len > 0 and is SHORT
(0) otherwise, so never PRIMARY; a short packet, and a payload of length 0,
give cmd_fifo_len = 0, pix_fifo_len = 0 and DISPLAY_NO = SHORT. -/
theorem display_no_selection (port : Nat) (msg : mipi_dsi_msg) (is_long : Bool)
    (packet : mipi_dsi_packet) (hw : Hw) :
    Event.write (DSI_PORT port DSI0_TXPKT1C DSI1_TXPKT1C) (pktc msg is_long packet) ∈
      (vc4_dsi_host_transfer port msg is_long packet hw).trace ∧
    (VC4_GET_FIELD (pktc msg is_long packet) DSI_TXPKT1C_DISPLAY_NO_MASK
        DSI_TXPKT1C_DISPLAY_NO_SHIFT = DSI_TXPKT1C_DISPLAY_NO_SECONDARY ↔
      0 < pix_fifo_len is_long packet) ∧
    (¬ 0 < pix_fifo_len is_long packet →
      VC4_GET_FIELD (pktc msg is_long packet) DSI_TXPKT1C_DISPLAY_NO_MASK
        DSI_TXPKT1C_DISPLAY_NO_SHIFT = DSI_TXPKT1C_DISPLAY_NO_SHORT) ∧
    VC4_GET_FIELD (pktc msg is_long packet) DSI_TXPKT1C_DISPLAY_NO_MASK
        DSI_TXPKT1C_DISPLAY_NO_SHIFT ≠ DSI_TXPKT1C_DISPLAY_NO_PRIMARY ∧
    (is_long = false ∨ packet.payload_length = 0 →
      cmd_fifo_len is_long packet = 0 ∧ pix_fifo_len is_long packet = 0 ∧
      VC4_GET_FIELD (pktc msg is_long packet) DSI_TXPKT1C_DISPLAY_NO_MASK
        DSI_TXPKT1C_DISPLAY_NO_SHIFT = DSI_TXPKT1C_DISPLAY_NO_SHORT) := by
  have key : VC4_GET_FIELD (pktc msg is_long packet) DSI_TXPKT1C_DISPLAY_NO_MASK
      DSI_TXPKT1C_DISPLAY_NO_SHIFT = if pix_fifo_len is_long packet ≠ 0 then 2 else 0 := by
    unfold pktc
    simp only
    split_ifs <;> decide
  have hz : is_long = false ∨ packet.payload_length = 0 →
      cmd_fifo_len is_long packet = 0 ∧ pix_fifo_len is_long packet = 0 := by
    rintro (h | h)
    · simp [cmd_fifo_len, pix_fifo_len, h]
    · cases is_long <;> simp [cmd_fifo_len, pix_fifo_len, h]
  refine ⟨pktc_written port msg is_long packet hw, ?_, ?_, ?_, ?_⟩
  · rw [key]
    by_cases h : pix_fifo_len is_long packet = 0
    · simp [h, DSI_TXPKT1C_DISPLAY_NO_SECONDARY]
    · simp [h, DSI_TXPKT1C_DISPLAY_NO_SECONDARY, Nat.pos_of_ne_zero h]
  · intro h
    rw [key]
    have h0 : pix_fifo_len is_long packet = 0 := by omega
    simp [h0, DSI_TXPKT1C_DISPLAY_NO_SHORT]
  · rw [key]
    split_ifs <;> decide
  · intro h
    obtain ⟨h1, h2⟩ := hz h
    refine ⟨h1, h2, ?_⟩
    rw [key]
    simp [h2, DSI_TXPKT1C_DISPLAY_NO_SHORT]

/-! ## Timing calculator -/

/-- C4, amended: for every ui_ns >= 1, dsi_hs_timing(ui_ns, ns, ui) returns a
32-bit multiple of 8; and when neither ns + ui_ns - 1 nor
ui + ceil(ns / ui_ns) + 7 wraps at 2^32, it is the least multiple of 8 that is
at least ui + ceil(ns / ui_ns). -/
theorem dsi_hs_timing_round_up (ui_ns ns ui : Nat) (h : 1 ≤ ui_ns) :
    ∃ v, dsi_hs_timing ui_ns ns ui = some v ∧ 8 ∣ v ∧ v < 2 ^ 32 ∧
      (ns + ui_ns - 1 < 2 ^ 32 → ui + spec_ceil_div ns ui_ns + 7 < 2 ^ 32 →
        spec_round_up_to_multiple_of_8 (ui + spec_ceil_div ns ui_ns) v) := by
  refine ⟨_, dsi_hs_timing_eq ui_ns ns ui h, roundup_8_dvd _, roundup_8_lt _, ?_⟩
  intro hns hui
  rw [spec_ceil_div_eq ns ui_ns h] at hui ⊢
  have e := dsi_hs_timing_exact ui_ns ns ui h hns hui
  rw [dsi_hs_timing_eq ui_ns ns ui h] at e
  rw [Option.some.inj e]
  exact spec_round_up_div _

/-- Witness of C4: the clock-prepare timing at a 1 ns unit interval. -/
theorem dsi_hs_timing_round_up_witness :
    1 ≤ 1 ∧ ∃ v, dsi_hs_timing 1 38 0 = some v ∧ 8 ∣ v ∧ v < 2 ^ 32 ∧
      (38 + 1 - 1 < 2 ^ 32 → 0 + spec_ceil_div 38 1 + 7 < 2 ^ 32 →
        spec_round_up_to_multiple_of_8 (0 + spec_ceil_div 38 1) v) :=
  ⟨by decide, dsi_hs_timing_round_up 1 38 0 (by decide)⟩

/-- C4 as stated fails: with ui_ns = 2, ns = 2^32 - 1 and ui = 0 the sum
ns + ui_ns - 1 wraps to 0 inside DIV_ROUND_UP, so the function returns 0 although
ui + ceil(ns / ui_ns) + 7 = 2^31 + 7 is below 2^32 and the least multiple of 8
above ui + ceil(ns / ui_ns) is 2^31. -/
theorem dsi_hs_timing_wraps_in_div_round_up :
    (1 ≤ 2 ∧ 4294967295 < 2 ^ 32 ∧ 0 < 2 ^ 32) ∧
    dsi_hs_timing 2 4294967295 0 = some 0 ∧
    0 + spec_ceil_div 4294967295 2 + 7 < 2 ^ 32 ∧
    ¬ spec_round_up_to_multiple_of_8 (0 + spec_ceil_div 4294967295 2) 0 := by
  have hc : spec_ceil_div 4294967295 2 = 2147483648 := by
    rw [spec_ceil_div_eq _ _ (by norm_num)]
  refine ⟨by norm_num, by decide, ?_, ?_⟩
  · rw [hc]; norm_num
  · rw [hc]
    rintro ⟨-, h, -⟩
    omega

/-- C5, amended: for PHY clock rates 0 < R1 <= R2 and as long as nothing wraps
(500000000 + R2 - 1 fits an unsigned long, D + 500000000 <= 2^32 and
U + D + 7 < 2^32), the enable sequence's timing value at the slower rate R1 is
at most the one at the faster rate R2: the cycle count is monotonically
non-increasing as the bit-clock rate decreases. -/
theorem hs_timing_monotone_in_rate (BITS R1 R2 D U : Nat) (h1 : 0 < R1) (h12 : R1 ≤ R2)
    (hR : 500000000 + R2 - 1 < 2 ^ BITS) (hD : D + 500000000 ≤ 2 ^ 32)
    (hU : U + D + 7 < 2 ^ 32) :
    ∃ v1 v2, vc4_dsi_encoder_enable_hs_timing BITS R1 D U = some v1 ∧
      vc4_dsi_encoder_enable_hs_timing BITS R2 D U = some v2 ∧ v1 ≤ v2 := by
  have h2 : 0 < R2 := by omega
  have e1 := enable_ui_ns_exact BITS R1 h1 (by omega)
  have e2 := enable_ui_ns_exact BITS R2 h2 hR
  have u12 : (500000000 + R2 - 1) / R2 ≤ (500000000 + R1 - 1) / R1 :=
    ceil_div_antitone 500000000 R2 R1 h1 h12
  have p2 : 1 ≤ (500000000 + R2 - 1) / R2 := ceil_div_pos 500000000 R2 (by norm_num) h2
  have b1 : (500000000 + R1 - 1) / R1 ≤ 500000000 := ceil_div_le_self 500000000 R1 h1
  generalize (500000000 + R1 - 1) / R1 = u1 at e1 u12 b1
  generalize (500000000 + R2 - 1) / R2 = u2 at e2 u12 p2
  have q12 : (D + u1 - 1) / u1 ≤ (D + u2 - 1) / u2 := ceil_div_antitone D u1 u2 p2 u12
  have q2 : (D + u2 - 1) / u2 ≤ D := ceil_div_le_self D u2 p2
  have t1 := dsi_hs_timing_exact u1 D U (by omega) (by omega) (by omega)
  have t2 := dsi_hs_timing_exact u2 D U p2 (by omega) (by omega)
  refine ⟨(U + (D + u1 - 1) / u1 + 7) / 8 * 8, (U + (D + u2 - 1) / u2 + 7) / 8 * 8, ?_, ?_, ?_⟩
  · simp only [vc4_dsi_encoder_enable_hs_timing, e1, Option.some_bind]; exact t1
  · simp only [vc4_dsi_encoder_enable_hs_timing, e2, Option.some_bind]; exact t2
  · omega

/-- Witness of C5: 250 MHz against 500 MHz for the 38 ns clock-prepare time. -/
theorem hs_timing_monotone_in_rate_witness :
    ∃ v1 v2, vc4_dsi_encoder_enable_hs_timing 32 250000000 38 0 = some v1 ∧
      vc4_dsi_encoder_enable_hs_timing 32 500000000 38 0 = some v2 ∧ v1 ≤ v2 :=
  hs_timing_monotone_in_rate 32 250000000 500000000 38 0 (by decide) (by decide)
    (by decide) (by decide) (by decide)

/-- C5 as stated fails: at R1 = 250 MHz <= R2 = 500 MHz, D = 38 ns and U = 0 the
enable sequence computes 24 cycles at the slower rate and 40 at the faster
one, so the value at R1 is not at least the value at R2. -/
theorem hs_timing_not_increasing_as_rate_decreases :
    (0 < 250000000 ∧ 250000000 ≤ 500000000) ∧
    vc4_dsi_encoder_enable_ui_ns 32 250000000 = some 2 ∧
    vc4_dsi_encoder_enable_ui_ns 32 500000000 = some 1 ∧
    vc4_dsi_encoder_enable_hs_timing 32 250000000 38 0 = some 24 ∧
    vc4_dsi_encoder_enable_hs_timing 32 500000000 38 0 = some 40 ∧
    ¬ (24 ≥ 40) := by
  refine ⟨by decide, by decide, by decide, by decide, by decide, by decide⟩

/-- C6, amended: for every PHY clock rate R > 0 for which 500000000 + R - 1 fits
an unsigned long, the enable sequence's ui_ns is ceil(500000000 / R) and at
least 1, so dsi_hs_timing returns a value for every ns and ui; at R = 500 MHz
ui_ns is 1, and dsi_hs_timing(1, 38, 0) = 40. -/
theorem enable_ui_ns_is_ceil (BITS R : Nat) (h0 : 0 < R)
    (hR : 500000000 + R - 1 < 2 ^ BITS) :
    ∃ ui_ns, vc4_dsi_encoder_enable_ui_ns BITS R = some ui_ns ∧
      ui_ns = spec_ceil_div 500000000 R ∧ 1 ≤ ui_ns ∧
      (∀ ns ui, ∃ v, dsi_hs_timing ui_ns ns ui = some v) ∧
      (R = 500000000 → ui_ns = 1) ∧
      dsi_hs_timing 1 38 0 = some 40 := by
  have p : 1 ≤ (500000000 + R - 1) / R := ceil_div_pos 500000000 R (by norm_num) h0
  refine ⟨_, enable_ui_ns_exact BITS R h0 hR, (spec_ceil_div_eq _ _ h0).symm, p, ?_, ?_, by decide⟩
  · intro ns ui
    exact ⟨_, dsi_hs_timing_eq _ ns ui p⟩
  · rintro rfl
    norm_num

/-- Witness of C6: the 500 MHz scenario with a 32-bit unsigned long. -/
theorem enable_ui_ns_is_ceil_witness :
    ∃ ui_ns, vc4_dsi_encoder_enable_ui_ns 32 500000000 = some ui_ns ∧
      ui_ns = spec_ceil_div 500000000 500000000 ∧ 1 ≤ ui_ns ∧
      (∀ ns ui, ∃ v, dsi_hs_timing ui_ns ns ui = some v) ∧
      (500000000 = 500000000 → ui_ns = 1) ∧
      dsi_hs_timing 1 38 0 = some 40 :=
  enable_ui_ns_is_ceil 32 500000000 (by decide) (by decide)

/-- C6 as stated fails: for R = 2^32 - 1 held in a 32-bit unsigned long the sum
500000000 + R - 1 wraps, ui_ns comes out as 0 although ceil(500000000 / R) = 1,
and dsi_hs_timing then divides by zero.  With a 64-bit unsigned long the same
happens at R = 2^64 - 1. -/
theorem enable_ui_ns_zero_at_max_rate :
    (0 < 4294967295 ∧ 4294967295 < 2 ^ 32) ∧
    vc4_dsi_encoder_enable_ui_ns 32 4294967295 = some 0 ∧
    spec_ceil_div 500000000 4294967295 = 1 ∧
    dsi_hs_timing 0 38 0 = none ∧
    vc4_dsi_encoder_enable_hs_timing 32 4294967295 38 0 = none ∧
    vc4_dsi_encoder_enable_ui_ns 64 18446744073709551615 = some 0 := by
  refine ⟨by norm_num, by decide, ?_, by decide, by decide, by decide⟩
  rw [spec_ceil_div_eq _ _ (by norm_num)]

/-! ## Packet encoder: header and control words -/

/-- C7: for header bytes h0, h1, h2 and any payload length, the header word
written to TXPKT1H holds h0 in bits 7:0, h1 | (h2 << 8) in bits 23:8, and in
bits 31:24 cmd_fifo_len = L mod 4 for a long packet and 0 for a short one:
VC4_GET_FIELD of each field returns the value packed. -/
theorem pkth_fields (port : Nat) (msg : mipi_dsi_msg) (is_long : Bool)
    (packet : mipi_dsi_packet) (hw : Hw)
    (h0 : packet.header 0 < 256) (h1 : packet.header 1 < 256) (h2 : packet.header 2 < 256) :
    Event.write (DSI_PORT port DSI0_TXPKT1H DSI1_TXPKT1H) (pkth is_long packet) ∈
      (vc4_dsi_host_transfer port msg is_long packet hw).trace ∧
    VC4_GET_FIELD (pkth is_long packet) DSI_TXPKT1H_BC_DT_MASK DSI_TXPKT1H_BC_DT_SHIFT =
      packet.header 0 ∧
    VC4_GET_FIELD (pkth is_long packet) DSI_TXPKT1H_BC_PARAM_MASK DSI_TXPKT1H_BC_PARAM_SHIFT =
      (packet.header 1 ||| (packet.header 2 <<< 8)) ∧
    VC4_GET_FIELD (pkth is_long packet) DSI_TXPKT1H_BC_CMDFIFO_MASK
      DSI_TXPKT1H_BC_CMDFIFO_SHIFT =
      (if is_long then packet.payload_length % 4 else 0) ∧
    cmd_fifo_len is_long packet = (if is_long then packet.payload_length % 4 else 0) := by
  have e0 : packet.header 0 % 256 = packet.header 0 := Nat.mod_eq_of_lt h0
  have e1 : packet.header 1 % 256 = packet.header 1 := Nat.mod_eq_of_lt h1
  have e2 : packet.header 2 % 256 = packet.header 2 := Nat.mod_eq_of_lt h2
  have hp : (packet.header 1 ||| (packet.header 2 <<< 8)) < 2 ^ (23 + 1 - 8) := by
    apply Nat.or_lt_two_pow
    · omega
    · rw [Nat.shiftLeft_eq]; omega
  have hc : packet.payload_length % 4 < 2 ^ (31 + 1 - 24) := by omega
  have hd : packet.header 0 < 2 ^ (7 + 1 - 0) := by omega
  refine ⟨pkth_written port msg is_long packet hw, ?_, ?_, ?_, ?_⟩
  · cases is_long <;>
    simp only [pkth, cmd_fifo_len, e0, e1, e2, DSI_PIX_FIFO_WIDTH, DSI_TXPKT1H_BC_DT_MASK,
      DSI_TXPKT1H_BC_DT_SHIFT, DSI_TXPKT1H_BC_PARAM_MASK, DSI_TXPKT1H_BC_PARAM_SHIFT,
      DSI_TXPKT1H_BC_CMDFIFO_MASK, DSI_TXPKT1H_BC_CMDFIFO_SHIFT, VC4_GET_FIELD_or,
      VC4_GET_FIELD_zero, if_true, Bool.false_eq_true, if_false,
      VC4_GET_SET_FIELD _ 7 0 (by norm_num) (by norm_num) hd,
      VC4_GET_SET_FIELD_other _ 7 0 23 8 (by norm_num) (Or.inr (by norm_num)),
      VC4_GET_SET_FIELD_other _ 7 0 31 24 (by norm_num) (Or.inr (by norm_num)),
      Nat.zero_or, Nat.or_zero]
  · cases is_long <;>
    simp only [pkth, cmd_fifo_len, e0, e1, e2, DSI_PIX_FIFO_WIDTH, DSI_TXPKT1H_BC_DT_MASK,
      DSI_TXPKT1H_BC_DT_SHIFT, DSI_TXPKT1H_BC_PARAM_MASK, DSI_TXPKT1H_BC_PARAM_SHIFT,
      DSI_TXPKT1H_BC_CMDFIFO_MASK, DSI_TXPKT1H_BC_CMDFIFO_SHIFT, VC4_GET_FIELD_or,
      VC4_GET_FIELD_zero, if_true, Bool.false_eq_true, if_false,
      VC4_GET_SET_FIELD _ 23 8 (by norm_num) (by norm_num) hp,
      VC4_GET_SET_FIELD_other _ 23 8 7 0 (by norm_num) (Or.inl (by norm_num)),
      VC4_GET_SET_FIELD_other _ 23 8 31 24 (by norm_num) (Or.inr (by norm_num)),
      Nat.zero_or, Nat.or_zero]
  · cases is_long <;>
    simp only [pkth, cmd_fifo_len, e0, e1, e2, DSI_PIX_FIFO_WIDTH, DSI_TXPKT1H_BC_DT_MASK,
      DSI_TXPKT1H_BC_DT_SHIFT, DSI_TXPKT1H_BC_PARAM_MASK, DSI_TXPKT1H_BC_PARAM_SHIFT,
      DSI_TXPKT1H_BC_CMDFIFO_MASK, DSI_TXPKT1H_BC_CMDFIFO_SHIFT, VC4_GET_FIELD_or,
      VC4_GET_FIELD_zero, if_true, Bool.false_eq_true, if_false,
      VC4_GET_SET_FIELD _ 31 24 (by norm_num) (by norm_num) hc,
      VC4_GET_SET_FIELD_other _ 31 24 7 0 (by norm_num) (Or.inl (by norm_num)),
      VC4_GET_SET_FIELD_other _ 31 24 23 8 (by norm_num) (Or.inl (by norm_num)),
      Nat.zero_or, Nat.or_zero]
  · cases is_long <;> simp [cmd_fifo_len, DSI_PIX_FIFO_WIDTH]

/-- Witness of C7: a DCS long write (data type 0x39) of 18 bytes. -/
theorem pkth_fields_witness :
    VC4_GET_FIELD (pkth true packet_18) DSI_TXPKT1H_BC_DT_MASK DSI_TXPKT1H_BC_DT_SHIFT = 0x39 ∧
    VC4_GET_FIELD (pkth true packet_18) DSI_TXPKT1H_BC_PARAM_MASK
      DSI_TXPKT1H_BC_PARAM_SHIFT = 18 ∧
    VC4_GET_FIELD (pkth true packet_18) DSI_TXPKT1H_BC_CMDFIFO_MASK
      DSI_TXPKT1H_BC_CMDFIFO_SHIFT = 2 := by
  have h := pkth_fields 1 msg_tx_only true packet_18 hw_completes
    (by decide) (by decide) (by decide)
  exact ⟨h.2.1.trans (by decide), h.2.2.1.trans (by decide), h.2.2.2.1.trans (by decide)⟩

/-- C8: the control word submitted to TXPKT1C has CMD_CTRL (bits 5:4) = RX (1)
if and only if rx_len != 0 and TX (0) otherwise, CMD_TYPE_LONG set if and only
if the packet is long, CMD_MODE_LP set if and only if MIPI_DSI_MSG_USE_LPM is in
the flags, CMD_REPEAT (bits 23:10) = 1, CMD_EN set, and TE_EN, CMD_TX_TIME and
TRIG_CMD zero. -/
theorem pktc_fields (port : Nat) (msg : mipi_dsi_msg) (is_long : Bool)
    (packet : mipi_dsi_packet) (hw : Hw) :
    Event.write (DSI_PORT port DSI0_TXPKT1C DSI1_TXPKT1C) (pktc msg is_long packet) ∈
      (vc4_dsi_host_transfer port msg is_long packet hw).trace ∧
    (VC4_GET_FIELD (pktc msg is_long packet) DSI_TXPKT1C_CMD_CTRL_MASK
        DSI_TXPKT1C_CMD_CTRL_SHIFT = DSI_TXPKT1C_CMD_CTRL_RX ↔ msg.rx_len ≠ 0) ∧
    (¬ msg.rx_len ≠ 0 → VC4_GET_FIELD (pktc msg is_long packet) DSI_TXPKT1C_CMD_CTRL_MASK
        DSI_TXPKT1C_CMD_CTRL_SHIFT = DSI_TXPKT1C_CMD_CTRL_TX) ∧
    (pktc msg is_long packet &&& DSI_TXPKT1C_CMD_TYPE_LONG ≠ 0 ↔ is_long = true) ∧
    (pktc msg is_long packet &&& DSI_TXPKT1C_CMD_MODE_LP ≠ 0 ↔
      msg.flags &&& MIPI_DSI_MSG_USE_LPM ≠ 0) ∧
    VC4_GET_FIELD (pktc msg is_long packet) DSI_TXPKT1C_CMD_REPEAT_MASK
      DSI_TXPKT1C_CMD_REPEAT_SHIFT = 1 ∧
    pktc msg is_long packet &&& DSI_TXPKT1C_CMD_EN ≠ 0 ∧
    pktc msg is_long packet &&& DSI_TXPKT1C_CMD_TE_EN = 0 ∧
    VC4_GET_FIELD (pktc msg is_long packet) DSI_TXPKT1C_CMD_TX_TIME_MASK
      DSI_TXPKT1C_CMD_TX_TIME_SHIFT = 0 ∧
    VC4_GET_FIELD (pktc msg is_long packet) DSI_TXPKT1C_TRIG_CMD_MASK
      DSI_TXPKT1C_TRIG_CMD_SHIFT = 0 := by
  refine ⟨pktc_written port msg is_long packet hw, ?_, ?_, ?_, ?_, ?_, ?_, ?_, ?_, ?_⟩
  · unfold pktc
    by_cases hr : msg.rx_len = 0 <;> simp only [hr, ne_eq, not_true_eq_false, not_false_eq_true,
      if_true, if_false, iff_true, iff_false] <;> split_ifs <;> decide
  · intro hr
    unfold pktc
    simp only [hr, if_false]
    split_ifs <;> decide
  · unfold pktc
    cases is_long <;> simp only [Bool.false_eq_true, if_true, if_false, iff_true, iff_false] <;>
      split_ifs <;> decide
  · unfold pktc
    by_cases hf : msg.flags &&& MIPI_DSI_MSG_USE_LPM = 0 <;>
      simp only [hf, ne_eq, not_true_eq_false, not_false_eq_true,
      if_true, if_false, iff_true, iff_false] <;> split_ifs <;> decide
  · unfold pktc
    simp only
    split_ifs <;> decide
  · unfold pktc
    simp only
    split_ifs <;> decide
  · unfold pktc
    simp only
    split_ifs <;> decide
  · unfold pktc
    simp only
    split_ifs <;> decide
  · unfold pktc
    simp only
    split_ifs <;> decide

/-! ## Transfer engine: wait and failure path -/

/-- C9: when the completion wait times out, STAT is read again and the wait
leaves ret = 0 (success) if and only if it has TXPKT1_DONE set, the transfer
then returning what it returns when the completion is signalled without error;
otherwise ret is -ETIMEDOUT and the transfer returns -ETIMEDOUT.  When the wait
does not time out, ret is the xfer_result left by the interrupt handler, which
the transfer returns when it is an error or when no response is expected. -/
theorem wait_outcome (port : Nat) (msg : mipi_dsi_msg) (is_long : Bool)
    (packet : mipi_dsi_packet) (hw : Hw) :
    (hw.completed = false →
      Event.read (DSI_PORT port DSI0_STAT DSI1_STAT) ∈
        (vc4_dsi_host_transfer port msg is_long packet hw).trace ∧
      ((xfer_wait port hw).1 = 0 ↔ (hw.stat % 2 ^ 32) &&& DSI1_STAT_TXPKT1_DONE ≠ 0) ∧
      ((hw.stat % 2 ^ 32) &&& DSI1_STAT_TXPKT1_DONE ≠ 0 →
        (vc4_dsi_host_transfer port msg is_long packet hw).ret =
          (vc4_dsi_host_transfer port msg is_long packet
            (Hw.mk true 0 hw.stat hw.rxpkt1h hw.rxpkt_fifo hw.txpkt1c hw.ctrl)).ret) ∧
      (¬ (hw.stat % 2 ^ 32) &&& DSI1_STAT_TXPKT1_DONE ≠ 0 →
        (xfer_wait port hw).1 = -ETIMEDOUT ∧
        (vc4_dsi_host_transfer port msg is_long packet hw).ret = -ETIMEDOUT)) ∧
    (hw.completed = true →
      (xfer_wait port hw).1 = hw.xfer_result ∧
      (hw.xfer_result ≠ 0 →
        (vc4_dsi_host_transfer port msg is_long packet hw).ret = hw.xfer_result) ∧
      (msg.rx_len = 0 →
        (vc4_dsi_host_transfer port msg is_long packet hw).ret = hw.xfer_result)) := by
  constructor
  · intro hc
    refine ⟨?_, ?_, ?_, ?_⟩
    · unfold vc4_dsi_host_transfer
      simp only
      split_ifs <;> simp [xfer_wait, hc]
    · rw [xfer_wait_ret, hc]
      by_cases hd : (hw.stat % 2 ^ 32) &&& DSI1_STAT_TXPKT1_DONE = 0
      · simp only [hd, ne_eq, not_true_eq_false, if_false, Bool.false_eq_true, iff_false]
        exact neg_ETIMEDOUT_ne_zero
      · simp only [hd, ne_eq, not_false_eq_true, if_true, Bool.false_eq_true, if_false]
    · intro hd
      have h1 : (xfer_wait port hw).1 = 0 := by
        rw [xfer_wait_ret, hc]
        simp only [Bool.false_eq_true, if_false, if_pos hd]
      have h2 : (xfer_wait port
          (Hw.mk true 0 hw.stat hw.rxpkt1h hw.rxpkt_fifo hw.txpkt1c hw.ctrl)).1 = 0 := by
        simp [xfer_wait]
      rw [transfer_ret, transfer_ret, h1, h2]
      rfl
    · intro hd
      have h1 : (xfer_wait port hw).1 = -ETIMEDOUT := by
        rw [xfer_wait_ret, hc]
        simp only [Bool.false_eq_true, if_false, if_neg hd]
      refine ⟨h1, ?_⟩
      rw [transfer_ret, h1, if_pos neg_ETIMEDOUT_ne_zero]
  · intro hc
    have h1 : (xfer_wait port hw).1 = hw.xfer_result := by simp [xfer_wait, hc]
    refine ⟨h1, ?_, ?_⟩
    · intro hx
      rw [transfer_ret, h1]
      simp [hx]
    · intro hr
      rw [transfer_ret, h1]
      by_cases hx : hw.xfer_result = 0 <;> simp [hx, hr]

/-- C10, amended: the transfer returns a non-zero error if and only if it runs
the reset sequence, and then its register writes end with TXPKT1C rewritten with
CMD_EN cleared, CTRL rewritten with all of the port's FIFO-reset bits set,
TXPKT1C written as 0 and, last, INT_EN written with
DSI1_INTERRUPTS_ALWAYS_ENABLED; TXPKT1C holds 0 afterwards. -/
theorem failure_runs_reset (port : Nat) (msg : mipi_dsi_msg) (is_long : Bool)
    (packet : mipi_dsi_packet) (hw : Hw) :
    ((vc4_dsi_host_transfer port msg is_long packet hw).ret ≠ 0 ↔
      reset_fifo_and_return port hw <:+
        (vc4_dsi_host_transfer port msg is_long packet hw).trace) ∧
    ((vc4_dsi_host_transfer port msg is_long packet hw).ret ≠ 0 →
      ∃ pre r c,
        register_writes (vc4_dsi_host_transfer port msg is_long packet hw).trace =
          pre ++ [(DSI_PORT port DSI0_TXPKT1C DSI1_TXPKT1C, r),
                  (DSI_PORT port DSI0_CTRL DSI1_CTRL, c),
                  (DSI_PORT port DSI0_TXPKT1C DSI1_TXPKT1C, 0),
                  (DSI_PORT port DSI0_INT_EN DSI1_INT_EN, DSI1_INTERRUPTS_ALWAYS_ENABLED)] ∧
        r &&& DSI_TXPKT1C_CMD_EN = 0 ∧
        (port = 0 → c &&& DSI0_CTRL_RESET_FIFOS = DSI0_CTRL_RESET_FIFOS) ∧
        (port ≠ 0 → c &&& DSI1_CTRL_RESET_FIFOS = DSI1_CTRL_RESET_FIFOS) ∧
        ∀ init, reg_after (DSI_PORT port DSI0_TXPKT1C DSI1_TXPKT1C) init
          (vc4_dsi_host_transfer port msg is_long packet hw).trace = 0) := by
  rcases transfer_trace_cases port msg is_long packet hw with ⟨hne, pre, hpre⟩ | ⟨hz, hnot⟩
  · refine ⟨⟨fun _ => ⟨pre, hpre.symm⟩, fun _ => hne⟩, fun _ => ?_⟩
    refine ⟨register_writes pre, _,
      (hw.ctrl % 2 ^ 32) ||| (if port = 0 then DSI0_CTRL_RESET_FIFOS else DSI1_CTRL_RESET_FIFOS),
      ?_, cmd_en_cleared hw.txpkt1c, ?_, ?_, ?_⟩
    · rw [hpre, register_writes_append, register_writes_reset]
    · intro h0
      simp only [h0, if_true]
      exact or_and_self_right _ _
    · intro h0
      simp only [h0, if_false]
      exact or_and_self_right _ _
    · intro init
      rw [hpre, reg_after_append, reg_after_reset]
  · refine ⟨⟨fun h => absurd hz h, fun hsuf => ?_⟩, fun h => absurd hz h⟩
    exact absurd (hsuf.subset (udelay_mem_reset port hw)) hnot

/-- C10 as stated fails: on a timed-out transfer (port 1, return value
-ETIMEDOUT) the last register write is not the zeroing of TXPKT1C but the write
of DSI1_INTERRUPTS_ALWAYS_ENABLED to INT_EN that follows it, so the register
writes do not end with the three writes of the claim. -/
theorem reset_is_followed_by_remask :
    (vc4_dsi_host_transfer 1 msg_tx_only true packet_18 hw_times_out).ret = -ETIMEDOUT ∧
    (register_writes
      (vc4_dsi_host_transfer 1 msg_tx_only true packet_18 hw_times_out).trace).getLast? =
        some (DSI1_INT_EN, DSI1_INTERRUPTS_ALWAYS_ENABLED) ∧
    ¬ ∃ pre r c, register_writes
      (vc4_dsi_host_transfer 1 msg_tx_only true packet_18 hw_times_out).trace =
        pre ++ [(DSI1_TXPKT1C, r), (DSI1_CTRL, c), (DSI1_TXPKT1C, 0)] := by
  have hlast : (register_writes
      (vc4_dsi_host_transfer 1 msg_tx_only true packet_18 hw_times_out).trace).getLast? =
        some (DSI1_INT_EN, DSI1_INTERRUPTS_ALWAYS_ENABLED) := by decide
  refine ⟨by decide, hlast, ?_⟩
  rintro ⟨pre, r, c, h⟩
  rw [h] at hlast
  simp at hlast
  exact absurd hlast.1 (by decide)

/-! ## Shape of the trace of a transfer, continued -/

theorem transfer_trace_eq (port : Nat) (msg : mipi_dsi_msg) (is_long : Bool)
    (packet : mipi_dsi_packet) (hw : Hw) :
    (vc4_dsi_host_transfer port msg is_long packet hw).trace =
      xfer_submit port msg is_long packet ++ ((xfer_wait port hw).2 ++
        (Event.write (DSI_PORT port DSI0_INT_EN DSI1_INT_EN) DSI1_INTERRUPTS_ALWAYS_ENABLED ::
          (if (xfer_wait port hw).1 ≠ 0 then reset_fifo_and_return port hw
           else if msg.rx_len ≠ 0 then
             (xfer_response port msg hw).2 ++
               (if (xfer_response port msg hw).1 ≠ 0 then reset_fifo_and_return port hw
                else [])
           else []))) := by
  unfold vc4_dsi_host_transfer
  simp only
  split_ifs <;> simp only [List.append_assoc, List.singleton_append, List.append_nil,
    List.cons_append, List.nil_append]

theorem rx_stores_append (a b : List Event) :
    rx_stores (a ++ b) = rx_stores a ++ rx_stores b := by
  induction a with
  | nil => rfl
  | cons e a ih => cases e <;> simp [rx_stores, ih]

theorem rx_stores_eq_nil (l : List Event) (h : ∀ i v, Event.rx_store i v ∉ l) :
    rx_stores l = [] := by
  induction l with
  | nil => rfl
  | cons e l ih =>
    have hl : ∀ i v, Event.rx_store i v ∉ l := fun i v hm => h i v (List.mem_cons_of_mem _ hm)
    cases e <;> simp [rx_stores, ih hl]
    exact h _ _ (List.mem_cons_self _ _)

theorem rx_stores_submit (port : Nat) (msg : mipi_dsi_msg) (is_long : Bool)
    (packet : mipi_dsi_packet) : rx_stores (xfer_submit port msg is_long packet) = [] := by
  apply rx_stores_eq_nil
  intro i v
  unfold xfer_submit cmd_fifo_writes pix_fifo_writes xfer_arm_and_send
  split_ifs <;> simp

theorem rx_stores_wait (port : Nat) (hw : Hw) : rx_stores (xfer_wait port hw).2 = [] := by
  unfold xfer_wait
  split_ifs <;> rfl

theorem rx_stores_reset (port : Nat) (hw : Hw) :
    rx_stores (reset_fifo_and_return port hw) = [] := rfl

theorem reg_after_no_write (offset init : Nat) (l : List Event)
    (h : ∀ v, Event.write offset v ∉ l) : reg_after offset init l = init := by
  induction l generalizing init with
  | nil => rfl
  | cons e l ih =>
    have hl : ∀ v, Event.write offset v ∉ l := fun v hm => h v (List.mem_cons_of_mem _ hm)
    cases e with
    | write o val =>
      have ho : o ≠ offset := by
        rintro rfl
        exact h val (List.mem_cons_self _ _)
      simp [reg_after, ho, ih _ hl]
    | _ => simp [reg_after, ih _ hl]

theorem no_write_in_response (port : Nat) (msg : mipi_dsi_msg) (hw : Hw) (o v : Nat) :
    Event.write o v ∉ (xfer_response port msg hw).2 := by
  unfold xfer_response
  simp only
  split_ifs <;> simp

theorem reg_after_reset_int_en (port init : Nat) (hw : Hw) :
    reg_after (DSI_PORT port DSI0_INT_EN DSI1_INT_EN) init (reset_fifo_and_return port hw) =
      DSI1_INTERRUPTS_ALWAYS_ENABLED := by
  by_cases h : port = 0 <;>
    simp [reset_fifo_and_return, reg_after, DSI_PORT, h, DSI0_TXPKT1C, DSI1_TXPKT1C, DSI0_CTRL,
      DSI1_CTRL, DSI0_INT_EN, DSI1_INT_EN]

theorem VC4_GET_FIELD_lt (w h l : Nat) (hl : l ≤ h + 1) :
    VC4_GET_FIELD w (VC4_MASK h l) l < 2 ^ (h + 1 - l) := by
  apply Nat.lt_pow_two_of_testBit
  intro i hi
  unfold VC4_GET_FIELD
  rw [Nat.testBit_shiftRight, Nat.testBit_and, VC4_MASK_testBit h l (l + i) hl]
  have : ¬ (l + i ≤ h) := by omega
  simp [this]


/-! ## Transfer engine: response decoding and interrupt masks -/

/-- C11: when the wait ended in success, a response is expected (rx_len != 0),
RXPKT1H has PKT_TYPE_LONG set and its byte count (bits 23:8) differs from
rx_len, the transfer returns -ENXIO and stores nothing into the rx buffer;
after the read of RXPKT1H it goes straight to the reset sequence, so it reads
nothing from the response FIFO (the only read the call can make at the offset
DSI1_RXPKT_FIFO is the read of DSI0_INT_STAT after a timed-out wait on port
0, which has that offset). -/
theorem response_length_mismatch (port : Nat) (msg : mipi_dsi_msg) (is_long : Bool)
    (packet : mipi_dsi_packet) (hw : Hw)
    (hok : (xfer_wait port hw).1 = 0) (hrx : msg.rx_len ≠ 0)
    (hlong : (hw.rxpkt1h % 2 ^ 32) &&& DSI_RXPKT1H_PKT_TYPE_LONG ≠ 0)
    (hlen : VC4_GET_FIELD (hw.rxpkt1h % 2 ^ 32) DSI_RXPKT1H_BC_PARAM_MASK
      DSI_RXPKT1H_BC_PARAM_SHIFT ≠ msg.rx_len) :
    (vc4_dsi_host_transfer port msg is_long packet hw).ret = - ENXIO ∧
    rx_stores (vc4_dsi_host_transfer port msg is_long packet hw).trace = [] ∧
    (vc4_dsi_host_transfer port msg is_long packet hw).trace =
      xfer_submit port msg is_long packet ++ ((xfer_wait port hw).2 ++
        (Event.write (DSI_PORT port DSI0_INT_EN DSI1_INT_EN) DSI1_INTERRUPTS_ALWAYS_ENABLED ::
          Event.read (DSI_PORT port DSI0_RXPKT1H DSI1_RXPKT1H) ::
          reset_fifo_and_return port hw)) ∧
    Event.read DSI1_RXPKT_FIFO ∉
      (Event.read (DSI_PORT port DSI0_RXPKT1H DSI1_RXPKT1H) :: reset_fifo_and_return port hw) ∧
    (Event.read DSI1_RXPKT_FIFO ∈ (vc4_dsi_host_transfer port msg is_long packet hw).trace →
      port = 0 ∧ hw.completed = false) := by
  have hresp : xfer_response port msg hw =
      (- ENXIO, [Event.read (DSI_PORT port DSI0_RXPKT1H DSI1_RXPKT1H)]) := by
    unfold xfer_response
    simp only [if_pos hlong, if_pos hlen]
  have hne : (- ENXIO : Int) ≠ 0 := by decide
  have htrace : (vc4_dsi_host_transfer port msg is_long packet hw).trace =
      xfer_submit port msg is_long packet ++ ((xfer_wait port hw).2 ++
        (Event.write (DSI_PORT port DSI0_INT_EN DSI1_INT_EN) DSI1_INTERRUPTS_ALWAYS_ENABLED ::
          Event.read (DSI_PORT port DSI0_RXPKT1H DSI1_RXPKT1H) ::
          reset_fifo_and_return port hw)) := by
    rw [transfer_trace_eq, hresp]
    simp only [hok, ne_eq, not_true_eq_false, if_false, hrx, not_false_eq_true, if_true,
      if_pos hne, List.singleton_append]
  have hnoread : Event.read DSI1_RXPKT_FIFO ∉
      (Event.read (DSI_PORT port DSI0_RXPKT1H DSI1_RXPKT1H) ::
        reset_fifo_and_return port hw) := by
    by_cases h : port = 0 <;>
      simp [reset_fifo_and_return, DSI_PORT, h, DSI1_RXPKT_FIFO, DSI0_RXPKT1H, DSI1_RXPKT1H,
        DSI0_TXPKT1C, DSI1_TXPKT1C, DSI0_CTRL, DSI1_CTRL]
  refine ⟨?_, ?_, htrace, hnoread, ?_⟩
  · rw [transfer_ret, hresp]
    simp only [hok, ne_eq, not_true_eq_false, if_false, hrx, not_false_eq_true, if_true]
  · rw [htrace, rx_stores_append, rx_stores_append, rx_stores_submit, rx_stores_wait]
    simp [rx_stores, rx_stores_reset]
  · intro hmem
    rw [htrace] at hmem
    have hsub : Event.read DSI1_RXPKT_FIFO ∉ xfer_submit port msg is_long packet := by
      unfold xfer_submit cmd_fifo_writes pix_fifo_writes xfer_arm_and_send
      split_ifs <;> simp
    rcases List.mem_append.1 hmem with h1 | h1
    · exact absurd h1 hsub
    rcases List.mem_append.1 h1 with h2 | h2
    · unfold xfer_wait at h2
      by_cases hc : hw.completed = true
      · simp [hc] at h2
      · by_cases hp : port = 0
        · exact ⟨hp, by simpa using hc⟩
        · simp [hc, DSI_PORT, hp, DSI1_RXPKT_FIFO, DSI1_STAT, DSI1_INT_STAT] at h2
    · rcases List.mem_cons.1 h2 with h3 | h3
      · exact absurd h3 (by simp)
      · exact absurd h3 hnoread

/-- Witness of C11: a response that declares 10 bytes when 8 were requested. -/
theorem response_length_mismatch_witness :
    (vc4_dsi_host_transfer 1 msg_read_8 false packet_dcs_read hw_long_response_10).ret =
      - ENXIO ∧
    rx_stores
      (vc4_dsi_host_transfer 1 msg_read_8 false packet_dcs_read hw_long_response_10).trace =
        [] :=
  let h := response_length_mismatch 1 msg_read_8 false packet_dcs_read hw_long_response_10
    (by decide) (by decide) (by decide) (by decide)
  ⟨h.1, h.2.1⟩

/-- C12: when the wait ended in success and RXPKT1H has PKT_TYPE_LONG clear and
the byte b in its SHORT_0 field (bits 15:8), a transfer with rx_len = 1 returns
0 and its only store into the rx buffer is b at index 0; with rx_len >= 2 it
returns 0 and stores b at index 0, then the SHORT_1 field (bits 23:16) at index
1, and nothing else. -/
theorem short_response (port : Nat) (msg : mipi_dsi_msg) (is_long : Bool)
    (packet : mipi_dsi_packet) (hw : Hw) (b : Nat)
    (hok : (xfer_wait port hw).1 = 0)
    (hshort : (hw.rxpkt1h % 2 ^ 32) &&& DSI_RXPKT1H_PKT_TYPE_LONG = 0)
    (hb : VC4_GET_FIELD (hw.rxpkt1h % 2 ^ 32) DSI_RXPKT1H_SHORT_0_MASK
      DSI_RXPKT1H_SHORT_0_SHIFT = b) :
    b < 256 ∧
    (msg.rx_len = 1 →
      (vc4_dsi_host_transfer port msg is_long packet hw).ret = 0 ∧
      rx_stores (vc4_dsi_host_transfer port msg is_long packet hw).trace = [(0, b)]) ∧
    (2 ≤ msg.rx_len →
      (vc4_dsi_host_transfer port msg is_long packet hw).ret = 0 ∧
      rx_stores (vc4_dsi_host_transfer port msg is_long packet hw).trace =
        [(0, b), (1, VC4_GET_FIELD (hw.rxpkt1h % 2 ^ 32) DSI_RXPKT1H_SHORT_1_MASK
          DSI_RXPKT1H_SHORT_1_SHIFT)]) := by
  have hb0 : VC4_GET_FIELD (hw.rxpkt1h % 2 ^ 32) DSI_RXPKT1H_SHORT_0_MASK
      DSI_RXPKT1H_SHORT_0_SHIFT < 256 :=
    VC4_GET_FIELD_lt (hw.rxpkt1h % 2 ^ 32) 15 8 (by norm_num)
  have hb1 : VC4_GET_FIELD (hw.rxpkt1h % 2 ^ 32) DSI_RXPKT1H_SHORT_1_MASK
      DSI_RXPKT1H_SHORT_1_SHIFT < 256 :=
    VC4_GET_FIELD_lt (hw.rxpkt1h % 2 ^ 32) 23 16 (by norm_num)
  have hresp : xfer_response port msg hw =
      (0, Event.read (DSI_PORT port DSI0_RXPKT1H DSI1_RXPKT1H) ::
        Event.rx_store 0 b ::
        (if 1 < msg.rx_len then
          [Event.rx_store 1 (VC4_GET_FIELD (hw.rxpkt1h % 2 ^ 32) DSI_RXPKT1H_SHORT_1_MASK
            DSI_RXPKT1H_SHORT_1_SHIFT)]
         else [])) := by
    unfold xfer_response
    have hn : ¬ (hw.rxpkt1h % 2 ^ 32) &&& DSI_RXPKT1H_PKT_TYPE_LONG ≠ 0 := fun h => h hshort
    have hbm : b % 256 = b := Nat.mod_eq_of_lt (hb ▸ hb0)
    simp only [if_neg hn, hb, hbm, Nat.mod_eq_of_lt hb1]
  have key : msg.rx_len ≠ 0 →
      (vc4_dsi_host_transfer port msg is_long packet hw).ret = 0 ∧
      rx_stores (vc4_dsi_host_transfer port msg is_long packet hw).trace =
        (0, b) :: (if 1 < msg.rx_len then
          [(1, VC4_GET_FIELD (hw.rxpkt1h % 2 ^ 32) DSI_RXPKT1H_SHORT_1_MASK
            DSI_RXPKT1H_SHORT_1_SHIFT)] else []) := by
    intro hrx
    constructor
    · rw [transfer_ret, hresp]
      simp only [hok, ne_eq, not_true_eq_false, if_false, hrx, not_false_eq_true, if_true]
    · rw [transfer_trace_eq, hresp, rx_stores_append, rx_stores_append, rx_stores_submit,
        rx_stores_wait]
      simp only [hok, ne_eq, not_true_eq_false, if_false, hrx, not_false_eq_true, if_true,
        List.append_nil, List.nil_append]
      split_ifs <;> simp [rx_stores]
  refine ⟨hb ▸ hb0, ?_, ?_⟩
  · intro h1
    have := key (by omega)
    simpa [h1] using this
  · intro h2
    have := key (by omega)
    have h1 : 1 < msg.rx_len := by omega
    simpa [h1] using this

/-- Witness of C12: a short response carrying the bytes 0x12 and 0x34, read with
rx_len = 1. -/
theorem short_response_witness :
    (vc4_dsi_host_transfer 1 msg_read_1 false packet_dcs_read hw_short_response).ret = 0 ∧
    rx_stores
      (vc4_dsi_host_transfer 1 msg_read_1 false packet_dcs_read hw_short_response).trace =
        [(0, 0x12)] :=
  (short_response 1 msg_read_1 false packet_dcs_read hw_short_response 0x12
    (by decide) (by decide) (by decide)).2.1 rfl


/-- C13: before it submits the packet the transfer writes to INT_EN, for the
first time in the call and right before the TXPKT1H and TXPKT1C writes, exactly
DSI1_INTERRUPTS_ALWAYS_ENABLED plus one completion bit: DSI1_INT_PHY_DIR_RTF
when rx_len != 0 and DSI1_INT_TXPKT1_DONE otherwise (the other completion bit
stays clear), so each of the eight always-on error bits is set in it. -/
theorem armed_interrupt_mask (port : Nat) (msg : mipi_dsi_msg) (is_long : Bool)
    (packet : mipi_dsi_packet) (hw : Hw) :
    ∃ armed pre rest,
      (vc4_dsi_host_transfer port msg is_long packet hw).trace =
        pre ++ (Event.write (DSI_PORT port DSI0_INT_EN DSI1_INT_EN) armed ::
          Event.write (DSI_PORT port DSI0_TXPKT1H DSI1_TXPKT1H) (pkth is_long packet) ::
          Event.write (DSI_PORT port DSI0_TXPKT1C DSI1_TXPKT1C) (pktc msg is_long packet) ::
          rest) ∧
      (∀ v, Event.write (DSI_PORT port DSI0_INT_EN DSI1_INT_EN) v ∉ pre) ∧
      (∀ v, Event.write (DSI_PORT port DSI0_TXPKT1C DSI1_TXPKT1C) v ∉ pre) ∧
      (msg.rx_len ≠ 0 →
        armed = DSI1_INTERRUPTS_ALWAYS_ENABLED ||| DSI1_INT_PHY_DIR_RTF ∧
        armed = DSI1_INTERRUPTS_ALWAYS_ENABLED + DSI1_INT_PHY_DIR_RTF ∧
        armed &&& DSI1_INT_TXPKT1_DONE = 0) ∧
      (msg.rx_len = 0 →
        armed = DSI1_INTERRUPTS_ALWAYS_ENABLED ||| DSI1_INT_TXPKT1_DONE ∧
        armed = DSI1_INTERRUPTS_ALWAYS_ENABLED + DSI1_INT_TXPKT1_DONE ∧
        armed &&& DSI1_INT_PHY_DIR_RTF = 0) ∧
      armed &&& DSI1_INTERRUPTS_ALWAYS_ENABLED = DSI1_INTERRUPTS_ALWAYS_ENABLED ∧
      (∀ bit ∈ [DSI1_INT_ERR_SYNC_ESC, DSI1_INT_ERR_CONTROL, DSI1_INT_ERR_CONT_LP0,
          DSI1_INT_ERR_CONT_LP1, DSI1_INT_HSTX_TO, DSI1_INT_LPRX_TO, DSI1_INT_TA_TO,
          DSI1_INT_PR_TO], armed &&& bit = bit) := by
  obtain ⟨rest, h⟩ := transfer_trace_starts_with_submit port msg is_long packet hw
  refine ⟨if msg.rx_len ≠ 0 then DSI1_INTERRUPTS_ALWAYS_ENABLED ||| DSI1_INT_PHY_DIR_RTF
      else DSI1_INTERRUPTS_ALWAYS_ENABLED ||| DSI1_INT_TXPKT1_DONE,
    (if is_long then
      (if DSI_PIX_FIFO_DEPTH ≤ pix_fifo_len is_long packet then [Event.warn] else [])
     else []) ++
    cmd_fifo_writes port packet (cmd_fifo_len is_long packet) ++
    pix_fifo_writes port packet (cmd_fifo_len is_long packet) (pix_fifo_len is_long packet) ++
    [Event.xfer_result_clear, Event.reinit_completion,
      Event.write (DSI_PORT port DSI0_INT_STAT DSI1_INT_STAT)
        (DSI1_INT_TXPKT1_DONE ||| DSI1_INT_PHY_DIR_RTF)],
    Event.wait_for_completion_timeout 100 :: rest, ?_, ?_, ?_, ?_, ?_, ?_, ?_⟩
  · rw [h]
    unfold xfer_submit xfer_arm_and_send
    simp only [List.append_assoc, List.cons_append, List.nil_append]
  · intro v
    unfold cmd_fifo_writes pix_fifo_writes
    by_cases hp : port = 0 <;> split_ifs <;>
      simp [DSI_PORT, hp, DSI0_INT_EN, DSI1_INT_EN, DSI0_TXPKT_CMD_FIFO, DSI1_TXPKT_CMD_FIFO,
        DSI0_TXPKT_PIX_FIFO, DSI1_TXPKT_PIX_FIFO, DSI0_INT_STAT, DSI1_INT_STAT]
  · intro v
    unfold cmd_fifo_writes pix_fifo_writes
    by_cases hp : port = 0 <;> split_ifs <;>
      simp [DSI_PORT, hp, DSI0_TXPKT1C, DSI1_TXPKT1C, DSI0_TXPKT_CMD_FIFO, DSI1_TXPKT_CMD_FIFO,
        DSI0_TXPKT_PIX_FIFO, DSI1_TXPKT_PIX_FIFO, DSI0_INT_STAT, DSI1_INT_STAT]
  · intro hrx
    rw [if_pos hrx]
    exact ⟨rfl, by decide, by decide⟩
  · intro hrx
    have hn : ¬ msg.rx_len ≠ 0 := fun h => h hrx
    rw [if_neg hn]
    exact ⟨rfl, by decide, by decide⟩
  · split_ifs <;> decide
  · split_ifs <;> decide

/-- C14: every call makes its events in this order: first the command-FIFO and
pixel-FIFO data writes (no other register is written before), then the reset of
xfer_result to 0, the write clearing the completion bits in INT_STAT, the write
arming INT_EN, the write of the header word to TXPKT1H and the write of the
control word, with CMD_EN set, to TXPKT1C; nothing after it writes to either
FIFO. -/
theorem submit_ordering (port : Nat) (msg : mipi_dsi_msg) (is_long : Bool)
    (packet : mipi_dsi_packet) (hw : Hw) :
    ∃ armed rest,
      (vc4_dsi_host_transfer port msg is_long packet hw).trace =
        ((if is_long then
          (if DSI_PIX_FIFO_DEPTH ≤ pix_fifo_len is_long packet then [Event.warn] else [])
         else []) ++
        cmd_fifo_writes port packet (cmd_fifo_len is_long packet) ++
        pix_fifo_writes port packet (cmd_fifo_len is_long packet)
          (pix_fifo_len is_long packet)) ++
        (Event.xfer_result_clear ::
         Event.reinit_completion ::
         Event.write (DSI_PORT port DSI0_INT_STAT DSI1_INT_STAT)
           (DSI1_INT_TXPKT1_DONE ||| DSI1_INT_PHY_DIR_RTF) ::
         Event.write (DSI_PORT port DSI0_INT_EN DSI1_INT_EN) armed ::
         Event.write (DSI_PORT port DSI0_TXPKT1H DSI1_TXPKT1H) (pkth is_long packet) ::
         Event.write (DSI_PORT port DSI0_TXPKT1C DSI1_TXPKT1C) (pktc msg is_long packet) ::
         Event.wait_for_completion_timeout 100 :: rest) ∧
      (∀ o v, Event.write o v ∈
          ((if is_long then
            (if DSI_PIX_FIFO_DEPTH ≤ pix_fifo_len is_long packet then [Event.warn] else [])
           else []) ++
          cmd_fifo_writes port packet (cmd_fifo_len is_long packet) ++
          pix_fifo_writes port packet (cmd_fifo_len is_long packet)
            (pix_fifo_len is_long packet)) →
        o = DSI_PORT port DSI0_TXPKT_CMD_FIFO DSI1_TXPKT_CMD_FIFO ∨
        o = DSI_PORT port DSI0_TXPKT_PIX_FIFO DSI1_TXPKT_PIX_FIFO) ∧
      (∀ o v, Event.write o v ∈ rest →
        o ≠ DSI_PORT port DSI0_TXPKT_CMD_FIFO DSI1_TXPKT_CMD_FIFO ∧
        o ≠ DSI_PORT port DSI0_TXPKT_PIX_FIFO DSI1_TXPKT_PIX_FIFO) ∧
      pktc msg is_long packet &&& DSI_TXPKT1C_CMD_EN ≠ 0 := by
  refine ⟨if msg.rx_len ≠ 0 then DSI1_INTERRUPTS_ALWAYS_ENABLED ||| DSI1_INT_PHY_DIR_RTF
      else DSI1_INTERRUPTS_ALWAYS_ENABLED ||| DSI1_INT_TXPKT1_DONE,
    (xfer_wait port hw).2 ++
      (Event.write (DSI_PORT port DSI0_INT_EN DSI1_INT_EN) DSI1_INTERRUPTS_ALWAYS_ENABLED ::
        (if (xfer_wait port hw).1 ≠ 0 then reset_fifo_and_return port hw
         else if msg.rx_len ≠ 0 then
           (xfer_response port msg hw).2 ++
             (if (xfer_response port msg hw).1 ≠ 0 then reset_fifo_and_return port hw
              else [])
         else [])), ?_, ?_, ?_, ?_⟩
  · rw [transfer_trace_eq]
    unfold xfer_submit xfer_arm_and_send
    simp only [List.append_assoc, List.cons_append, List.nil_append]
  · intro o v hm
    unfold cmd_fifo_writes pix_fifo_writes at hm
    split_ifs at hm <;> simp at hm <;> rcases hm with ⟨_, _, rfl, _⟩ | ⟨_, _, rfl, _⟩ <;> simp
  · intro o v hm
    have hwait : Event.write o v ∉ (xfer_wait port hw).2 := by
      unfold xfer_wait
      split_ifs <;> simp
    have hresp := no_write_in_response port msg hw o v
    have hreset : Event.write o v ∈ reset_fifo_and_return port hw →
        o = DSI_PORT port DSI0_TXPKT1C DSI1_TXPKT1C ∨ o = DSI_PORT port DSI0_CTRL DSI1_CTRL ∨
        o = DSI_PORT port DSI0_INT_EN DSI1_INT_EN := by
      intro h
      simp [reset_fifo_and_return] at h
      rcases h with ⟨rfl, _⟩ | ⟨rfl, _⟩ | ⟨rfl, _⟩ | ⟨rfl, _⟩ <;> simp
    have hcases : o = DSI_PORT port DSI0_TXPKT1C DSI1_TXPKT1C ∨
        o = DSI_PORT port DSI0_CTRL DSI1_CTRL ∨ o = DSI_PORT port DSI0_INT_EN DSI1_INT_EN := by
      rcases List.mem_append.1 hm with h1 | h1
      · exact absurd h1 hwait
      rcases List.mem_cons.1 h1 with h2 | h2
      · right; right
        injection h2
      · split_ifs at h2
        · exact hreset h2
        · rcases List.mem_append.1 h2 with h3 | h3
          · exact absurd h3 hresp
          · exact hreset h3
        · rcases List.mem_append.1 h2 with h3 | h3
          · exact absurd h3 hresp
          · simp at h3
        · simp at h2
    by_cases hp : port = 0 <;> rcases hcases with rfl | rfl | rfl <;>
      simp [DSI_PORT, hp, DSI0_TXPKT1C, DSI1_TXPKT1C, DSI0_CTRL, DSI1_CTRL, DSI0_INT_EN,
        DSI1_INT_EN, DSI0_TXPKT_CMD_FIFO, DSI1_TXPKT_CMD_FIFO, DSI0_TXPKT_PIX_FIFO,
        DSI1_TXPKT_PIX_FIFO]
  · unfold pktc
    simp only
    split_ifs <;> decide

/-- C15: whatever the outcome of the call, INT_EN holds
DSI1_INTERRUPTS_ALWAYS_ENABLED when the transfer returns: the last write to
INT_EN in the trace writes exactly that value, and no write to INT_EN follows
it. -/
theorem int_en_restored (port : Nat) (msg : mipi_dsi_msg) (is_long : Bool)
    (packet : mipi_dsi_packet) (hw : Hw) :
    (∀ init, reg_after (DSI_PORT port DSI0_INT_EN DSI1_INT_EN) init
      (vc4_dsi_host_transfer port msg is_long packet hw).trace =
        DSI1_INTERRUPTS_ALWAYS_ENABLED) ∧
    (∃ pre post, (vc4_dsi_host_transfer port msg is_long packet hw).trace =
      pre ++ (Event.write (DSI_PORT port DSI0_INT_EN DSI1_INT_EN)
        DSI1_INTERRUPTS_ALWAYS_ENABLED :: post) ∧
      ∀ v, Event.write (DSI_PORT port DSI0_INT_EN DSI1_INT_EN) v ∉ post) := by
  have hsplit : ∃ pre post, (vc4_dsi_host_transfer port msg is_long packet hw).trace =
      pre ++ (Event.write (DSI_PORT port DSI0_INT_EN DSI1_INT_EN)
        DSI1_INTERRUPTS_ALWAYS_ENABLED :: post) ∧
      ∀ v, Event.write (DSI_PORT port DSI0_INT_EN DSI1_INT_EN) v ∉ post := by
    rcases transfer_trace_cases port msg is_long packet hw with ⟨_, pre, hpre⟩ | ⟨hz, _⟩
    · refine ⟨pre ++ (reset_fifo_and_return port hw).dropLast, [], ?_, by simp⟩
      rw [hpre]
      simp [reset_fifo_and_return]
    · rw [transfer_ret] at hz
      rw [transfer_trace_eq]
      by_cases h1 : (xfer_wait port hw).1 ≠ 0
      · rw [if_pos h1] at hz
        exact absurd hz h1
      · rw [if_neg h1] at hz ⊢
        by_cases h2 : msg.rx_len ≠ 0
        · rw [if_pos h2] at hz ⊢
          have h3 : ¬ (xfer_response port msg hw).1 ≠ 0 := fun h => h hz
          rw [if_neg h3]
          refine ⟨xfer_submit port msg is_long packet ++ (xfer_wait port hw).2,
            (xfer_response port msg hw).2, ?_, ?_⟩
          · simp only [List.append_assoc, List.append_nil]
          · intro v
            exact no_write_in_response port msg hw _ v
        · rw [if_neg h2]
          exact ⟨xfer_submit port msg is_long packet ++ (xfer_wait port hw).2, [],
            by simp only [List.append_assoc], by simp⟩
  refine ⟨?_, hsplit⟩
  obtain ⟨pre, post, ht, hpost⟩ := hsplit
  intro init
  rw [ht, reg_after_append]
  simp only [reg_after, if_true]
  exact reg_after_no_write _ _ _ hpost

/-! ## Interrupt classifier -/

theorem and_or_eq_zero (x a b : Nat) : x &&& (a ||| b) = 0 ↔ x &&& a = 0 ∧ x &&& b = 0 := by
  rw [Nat.and_or_distrib_left]
  constructor
  · intro h
    constructor
    · apply Nat.eq_of_testBit_eq
      intro i
      have := congrArg (fun n => Nat.testBit n i) h
      simp only [Nat.testBit_or, Nat.zero_testBit, Bool.or_eq_false_iff] at this
      simpa using this.1
    · apply Nat.eq_of_testBit_eq
      intro i
      have := congrArg (fun n => Nat.testBit n i) h
      simp only [Nat.testBit_or, Nat.zero_testBit, Bool.or_eq_false_iff] at this
      simpa using this.2
  · rintro ⟨h1, h2⟩
    rw [h1, h2]
    rfl

theorem dsi_handle_error_ret (ret : irqreturn_t) (stat bit : Nat) :
    (dsi_handle_error ret stat bit).1 =
      if stat &&& bit = 0 then ret else irqreturn_t.IRQ_HANDLED := by
  unfold dsi_handle_error
  split_ifs <;> rfl

theorem irq_handle_errors_ret (stat : Nat) :
    (irq_handle_errors stat).1 =
      if stat &&& DSI1_INT_ERR_SYNC_ESC = 0 ∧ stat &&& DSI1_INT_ERR_CONTROL = 0 ∧
          stat &&& DSI1_INT_ERR_CONT_LP0 = 0 ∧ stat &&& DSI1_INT_ERR_CONT_LP1 = 0 ∧
          stat &&& DSI1_INT_HSTX_TO = 0 ∧ stat &&& DSI1_INT_LPRX_TO = 0 ∧
          stat &&& DSI1_INT_TA_TO = 0 ∧ stat &&& DSI1_INT_PR_TO = 0
      then irqreturn_t.IRQ_NONE else irqreturn_t.IRQ_HANDLED := by
  simp only [irq_handle_errors, dsi_handle_error_ret]
  by_cases h1 : stat &&& DSI1_INT_ERR_SYNC_ESC = 0 <;>
  by_cases h2 : stat &&& DSI1_INT_ERR_CONTROL = 0 <;>
  by_cases h3 : stat &&& DSI1_INT_ERR_CONT_LP0 = 0 <;>
  by_cases h4 : stat &&& DSI1_INT_ERR_CONT_LP1 = 0 <;>
  by_cases h5 : stat &&& DSI1_INT_HSTX_TO = 0 <;>
  by_cases h6 : stat &&& DSI1_INT_LPRX_TO = 0 <;>
  by_cases h7 : stat &&& DSI1_INT_TA_TO = 0 <;>
  by_cases h8 : stat &&& DSI1_INT_PR_TO = 0 <;>
  simp only [h1, h2, h3, h4, h5, h6, h7, h8, if_true, if_false, and_self, and_true, and_false,
    false_and, true_and]

theorem irq_handle_errors_only_reports (stat : Nat) (e : Event)
    (h : e ∈ (irq_handle_errors stat).2) : ∃ bit, e = Event.drm_error bit := by
  simp only [irq_handle_errors, List.mem_append] at h
  have key : ∀ ret bit, e ∈ (dsi_handle_error ret stat bit).2 → ∃ b, e = Event.drm_error b := by
    intro ret bit hm
    unfold dsi_handle_error at hm
    split_ifs at hm
    · simp at hm
    · simp at hm
      exact ⟨bit, hm⟩
  rcases h with ((((((h | h) | h) | h) | h) | h) | h) | h <;> exact key _ _ h

theorem complete_not_mem_errors (stat : Nat) : Event.complete ∉ (irq_handle_errors stat).2 := by
  intro h
  obtain ⟨b, hb⟩ := irq_handle_errors_only_reports stat _ h
  cases hb

theorem count_complete_errors (stat : Nat) :
    (irq_handle_errors stat).2.count Event.complete = 0 :=
  List.count_eq_zero.2 (complete_not_mem_errors stat)

theorem register_writes_eq_nil (l : List Event) (h : ∀ o v, Event.write o v ∉ l) :
    register_writes l = [] := by
  induction l with
  | nil => rfl
  | cons e l ih =>
    have hl : ∀ o v, Event.write o v ∉ l := fun o v hm => h o v (List.mem_cons_of_mem _ hm)
    cases e <;> simp [register_writes, ih hl]
    exact h _ _ (List.mem_cons_self _ _)

theorem register_writes_errors (stat : Nat) :
    register_writes (irq_handle_errors stat).2 = [] := by
  apply register_writes_eq_nil
  intro o v h
  obtain ⟨b, hb⟩ := irq_handle_errors_only_reports stat _ h
  cases hb

theorem irq_handler_completion (port int_stat : Nat) (xfer_result : Int)
    (hp : (int_stat % 2 ^ 32) &&& (DSI1_INT_TXPKT1_DONE ||| DSI1_INT_PHY_DIR_RTF) ≠ 0) :
    vc4_dsi_irq_handler port int_stat xfer_result =
      IrqOutcome.mk irqreturn_t.IRQ_HANDLED xfer_result
        ([Event.read (DSI_PORT port DSI0_INT_STAT DSI1_INT_STAT),
          Event.write (DSI_PORT port DSI0_INT_STAT DSI1_INT_STAT) (int_stat % 2 ^ 32)] ++
          (irq_handle_errors (int_stat % 2 ^ 32)).2 ++ [Event.complete]) := by
  unfold vc4_dsi_irq_handler
  simp only [if_pos hp]

theorem irq_handler_timeout (port int_stat : Nat) (xfer_result : Int)
    (hn : (int_stat % 2 ^ 32) &&& (DSI1_INT_TXPKT1_DONE ||| DSI1_INT_PHY_DIR_RTF) = 0)
    (hto : (int_stat % 2 ^ 32) &&& DSI1_INT_HSTX_TO ≠ 0) :
    vc4_dsi_irq_handler port int_stat xfer_result =
      IrqOutcome.mk irqreturn_t.IRQ_HANDLED (-ETIMEDOUT)
        ([Event.read (DSI_PORT port DSI0_INT_STAT DSI1_INT_STAT),
          Event.write (DSI_PORT port DSI0_INT_STAT DSI1_INT_STAT) (int_stat % 2 ^ 32)] ++
          (irq_handle_errors (int_stat % 2 ^ 32)).2 ++
          [Event.complete, Event.xfer_result_timeout]) := by
  have hn1 : ¬ (int_stat % 2 ^ 32) &&& (DSI1_INT_TXPKT1_DONE ||| DSI1_INT_PHY_DIR_RTF) ≠ 0 :=
    fun h => h hn
  unfold vc4_dsi_irq_handler
  simp only [if_neg hn1, if_pos hto]

theorem irq_handler_errors_only (port int_stat : Nat) (xfer_result : Int)
    (hn : (int_stat % 2 ^ 32) &&& (DSI1_INT_TXPKT1_DONE ||| DSI1_INT_PHY_DIR_RTF) = 0)
    (hto : (int_stat % 2 ^ 32) &&& DSI1_INT_HSTX_TO = 0) :
    vc4_dsi_irq_handler port int_stat xfer_result =
      IrqOutcome.mk (irq_handle_errors (int_stat % 2 ^ 32)).1 xfer_result
        ([Event.read (DSI_PORT port DSI0_INT_STAT DSI1_INT_STAT),
          Event.write (DSI_PORT port DSI0_INT_STAT DSI1_INT_STAT) (int_stat % 2 ^ 32)] ++
          (irq_handle_errors (int_stat % 2 ^ 32)).2) := by
  have hn1 : ¬ (int_stat % 2 ^ 32) &&& (DSI1_INT_TXPKT1_DONE ||| DSI1_INT_PHY_DIR_RTF) ≠ 0 :=
    fun h => h hn
  have hn2 : ¬ (int_stat % 2 ^ 32) &&& DSI1_INT_HSTX_TO ≠ 0 := fun h => h hto
  unfold vc4_dsi_irq_handler
  simp only [if_neg hn1, if_neg hn2]

theorem count_complete_with_errors (a b : Event) (stat : Nat) (tail : List Event)
    (ha : a ≠ Event.complete) (hb : b ≠ Event.complete) :
    ([a, b] ++ (irq_handle_errors stat).2 ++ tail).count Event.complete =
      tail.count Event.complete := by
  rw [List.count_append, List.count_append, count_complete_errors,
    List.count_cons_of_ne (Ne.symm ha), List.count_cons_of_ne (Ne.symm hb)]
  simp

theorem irq_trace_shape (port int_stat : Nat) (xfer_result : Int) :
    ∃ rest, (vc4_dsi_irq_handler port int_stat xfer_result).trace =
      Event.read (DSI_PORT port DSI0_INT_STAT DSI1_INT_STAT) ::
      Event.write (DSI_PORT port DSI0_INT_STAT DSI1_INT_STAT) (int_stat % 2 ^ 32) ::
      ((irq_handle_errors (int_stat % 2 ^ 32)).2 ++ rest) ∧
      (rest = [] ∨ rest = [Event.complete] ∨
        rest = [Event.complete, Event.xfer_result_timeout]) := by
  unfold vc4_dsi_irq_handler
  simp only
  split_ifs
  · exact ⟨[Event.complete], by simp, by simp⟩
  · exact ⟨[Event.complete, Event.xfer_result_timeout], by simp, by simp⟩
  · exact ⟨[], by simp, by simp⟩

theorem error_only_irq_aux (port int_stat : Nat) (xfer_result : Int)
    (hdone : (int_stat % 2 ^ 32) &&& DSI1_INT_TXPKT1_DONE = 0)
    (hrtf : (int_stat % 2 ^ 32) &&& DSI1_INT_PHY_DIR_RTF = 0)
    (hto : (int_stat % 2 ^ 32) &&& DSI1_INT_HSTX_TO = 0) :
    (∀ e, (∀ b, e ≠ Event.drm_error b) →
      e ≠ Event.read (DSI_PORT port DSI0_INT_STAT DSI1_INT_STAT) →
      e ≠ Event.write (DSI_PORT port DSI0_INT_STAT DSI1_INT_STAT) (int_stat % 2 ^ 32) →
      e ∉ (vc4_dsi_irq_handler port int_stat xfer_result).trace) ∧
    (vc4_dsi_irq_handler port int_stat xfer_result).xfer_result = xfer_result ∧
    (vc4_dsi_irq_handler port int_stat xfer_result).ret =
      (irq_handle_errors (int_stat % 2 ^ 32)).1 := by
  rw [irq_handler_errors_only port int_stat xfer_result
    ((and_or_eq_zero _ _ _).2 ⟨hdone, hrtf⟩) hto]
  refine ⟨?_, rfl, rfl⟩
  intro e he h1 h2 h
  simp only [List.mem_append, List.mem_cons, List.mem_singleton, List.not_mem_nil,
    or_false] at h
  rcases h with (h | h) | h
  · exact h1 h
  · exact h2 h
  · obtain ⟨b, hb⟩ := irq_handle_errors_only_reports _ _ h
    exact he b hb

/-- C16, amended: for every interrupt-status word in which DSI1_INT_HSTX_TO is
set, the handler signals the completion once and returns IRQ_HANDLED; it sets
xfer_result to -ETIMEDOUT when neither DSI1_INT_TXPKT1_DONE nor
DSI1_INT_PHY_DIR_RTF is set with it, and leaves xfer_result unchanged when one
of them is. -/
theorem hstx_timeout_irq (port int_stat : Nat) (xfer_result : Int)
    (hto : (int_stat % 2 ^ 32) &&& DSI1_INT_HSTX_TO ≠ 0) :
    (vc4_dsi_irq_handler port int_stat xfer_result).ret = irqreturn_t.IRQ_HANDLED ∧
    (vc4_dsi_irq_handler port int_stat xfer_result).trace.count Event.complete = 1 ∧
    ((int_stat % 2 ^ 32) &&& DSI1_INT_TXPKT1_DONE = 0 ∧
      (int_stat % 2 ^ 32) &&& DSI1_INT_PHY_DIR_RTF = 0 →
      (vc4_dsi_irq_handler port int_stat xfer_result).xfer_result = -ETIMEDOUT ∧
      Event.xfer_result_timeout ∈ (vc4_dsi_irq_handler port int_stat xfer_result).trace) ∧
    (¬ ((int_stat % 2 ^ 32) &&& DSI1_INT_TXPKT1_DONE = 0 ∧
      (int_stat % 2 ^ 32) &&& DSI1_INT_PHY_DIR_RTF = 0) →
      (vc4_dsi_irq_handler port int_stat xfer_result).xfer_result = xfer_result) := by
  by_cases hd : (int_stat % 2 ^ 32) &&& (DSI1_INT_TXPKT1_DONE ||| DSI1_INT_PHY_DIR_RTF) = 0
  · have hd2 := (and_or_eq_zero _ _ _).1 hd
    rw [irq_handler_timeout port int_stat xfer_result hd hto]
    refine ⟨rfl, ?_, fun _ => ⟨rfl, ?_⟩, fun h => absurd hd2 h⟩
    · show List.count Event.complete _ = 1
      rw [count_complete_with_errors _ _ _ _ (by simp) (by simp)]
      rfl
    · show Event.xfer_result_timeout ∈ _ ++ [Event.complete, Event.xfer_result_timeout]
      simp
  · have hd2 : ¬ ((int_stat % 2 ^ 32) &&& DSI1_INT_TXPKT1_DONE = 0 ∧
        (int_stat % 2 ^ 32) &&& DSI1_INT_PHY_DIR_RTF = 0) :=
      fun h => hd ((and_or_eq_zero _ _ _).2 h)
    rw [irq_handler_completion port int_stat xfer_result hd]
    refine ⟨rfl, ?_, fun h => absurd h hd2, fun _ => rfl⟩
    show List.count Event.complete _ = 1
    rw [count_complete_with_errors _ _ _ _ (by simp) (by simp)]
    rfl

/-- Witness of C16: the status word with only DSI1_INT_HSTX_TO set. -/
theorem hstx_timeout_irq_witness :
    (vc4_dsi_irq_handler 1 0x400 0).ret = irqreturn_t.IRQ_HANDLED ∧
    (vc4_dsi_irq_handler 1 0x400 0).xfer_result = -ETIMEDOUT :=
  let h := hstx_timeout_irq 1 0x400 0 (by decide)
  ⟨h.1, (h.2.2.1 (by decide)).1⟩

/-- C16 as stated fails: when DSI1_INT_HSTX_TO (bit 10) and DSI1_INT_TXPKT1_DONE
(bit 1) are set in the same status word, the handler takes the completion
branch and leaves xfer_result at 0 instead of -ETIMEDOUT. -/
theorem hstx_timeout_with_done_is_success :
    (0x402 % 2 ^ 32) &&& DSI1_INT_HSTX_TO ≠ 0 ∧
    (vc4_dsi_irq_handler 1 0x402 0).xfer_result = 0 ∧
    (vc4_dsi_irq_handler 1 0x402 0).xfer_result ≠ -ETIMEDOUT ∧
    (vc4_dsi_irq_handler 1 0x402 0).trace =
      [Event.read DSI1_INT_STAT, Event.write DSI1_INT_STAT 0x402,
       Event.drm_error DSI1_INT_HSTX_TO, Event.complete] := by
  refine ⟨by decide, by decide, by decide, by decide⟩

/-- C17: for every interrupt-status word in which DSI1_INT_TXPKT1_DONE or
DSI1_INT_PHY_DIR_RTF is set, the handler signals the completion exactly once,
leaves xfer_result unchanged and returns IRQ_HANDLED; a transfer that reset
xfer_result to 0 and is woken by it sees ret = 0 after its wait. -/
theorem completion_irq (port int_stat : Nat) (xfer_result : Int)
    (hdone : (int_stat % 2 ^ 32) &&& DSI1_INT_TXPKT1_DONE ≠ 0 ∨
      (int_stat % 2 ^ 32) &&& DSI1_INT_PHY_DIR_RTF ≠ 0) :
    (vc4_dsi_irq_handler port int_stat xfer_result).trace.count Event.complete = 1 ∧
    (vc4_dsi_irq_handler port int_stat xfer_result).xfer_result = xfer_result ∧
    Event.xfer_result_timeout ∉ (vc4_dsi_irq_handler port int_stat xfer_result).trace ∧
    (vc4_dsi_irq_handler port int_stat xfer_result).ret = irqreturn_t.IRQ_HANDLED ∧
    (∀ hw : Hw, hw.completed = true →
      hw.xfer_result = (vc4_dsi_irq_handler port int_stat 0).xfer_result →
      (xfer_wait port hw).1 = 0) := by
  have hp : (int_stat % 2 ^ 32) &&& (DSI1_INT_TXPKT1_DONE ||| DSI1_INT_PHY_DIR_RTF) ≠ 0 := by
    intro h
    have h2 := (and_or_eq_zero _ _ _).1 h
    rcases hdone with h1 | h1
    · exact h1 h2.1
    · exact h1 h2.2
  have hx : ∀ x : Int, (vc4_dsi_irq_handler port int_stat x).xfer_result = x := by
    intro x
    rw [irq_handler_completion port int_stat x hp]
  refine ⟨?_, hx _, ?_, ?_, ?_⟩
  · rw [irq_handler_completion port int_stat xfer_result hp]
    show List.count Event.complete _ = 1
    rw [count_complete_with_errors _ _ _ _ (by simp) (by simp)]
    rfl
  · rw [irq_handler_completion port int_stat xfer_result hp]
    intro h
    simp only [List.append_assoc, List.mem_append, List.mem_cons, List.mem_singleton,
      List.not_mem_nil, or_false] at h
    rcases h with h | h | h
    · rcases h with h | h <;> cases h
    · obtain ⟨b, hb⟩ := irq_handle_errors_only_reports _ _ h
      cases hb
    · cases h
  · rw [irq_handler_completion port int_stat xfer_result hp]
  · intro hw hcomp hres
    rw [xfer_wait_ret, hcomp, hres, hx]
    rfl

/-- Witness of C17: the status word with only DSI1_INT_TXPKT1_DONE set. -/
theorem completion_irq_witness :
    (vc4_dsi_irq_handler 1 0x2 0).trace.count Event.complete = 1 ∧
    (vc4_dsi_irq_handler 1 0x2 0).xfer_result = 0 :=
  let h := completion_irq 1 0x2 0 (Or.inl (by decide))
  ⟨h.1, h.2.1⟩

/-- C18: for every interrupt-status word that has neither completion bit nor
DSI1_INT_HSTX_TO set but at least one of ERR_SYNC_ESC, ERR_CONTROL,
ERR_CONT_LP0, ERR_CONT_LP1, LPRX_TO, TA_TO, PR_TO, the handler returns
IRQ_HANDLED, does not signal the completion and leaves xfer_result unchanged. -/
theorem error_only_irq (port int_stat : Nat) (xfer_result : Int)
    (hdone : (int_stat % 2 ^ 32) &&& DSI1_INT_TXPKT1_DONE = 0)
    (hrtf : (int_stat % 2 ^ 32) &&& DSI1_INT_PHY_DIR_RTF = 0)
    (hto : (int_stat % 2 ^ 32) &&& DSI1_INT_HSTX_TO = 0)
    (herr : ∃ bit ∈ [DSI1_INT_ERR_SYNC_ESC, DSI1_INT_ERR_CONTROL, DSI1_INT_ERR_CONT_LP0,
      DSI1_INT_ERR_CONT_LP1, DSI1_INT_LPRX_TO, DSI1_INT_TA_TO, DSI1_INT_PR_TO],
      (int_stat % 2 ^ 32) &&& bit ≠ 0) :
    (vc4_dsi_irq_handler port int_stat xfer_result).ret = irqreturn_t.IRQ_HANDLED ∧
    Event.complete ∉ (vc4_dsi_irq_handler port int_stat xfer_result).trace ∧
    Event.xfer_result_timeout ∉ (vc4_dsi_irq_handler port int_stat xfer_result).trace ∧
    (vc4_dsi_irq_handler port int_stat xfer_result).xfer_result = xfer_result := by
  obtain ⟨hnot, hx, hret⟩ := error_only_irq_aux port int_stat xfer_result hdone hrtf hto
  refine ⟨?_, hnot _ (by intro b; simp) (by simp) (by simp),
    hnot _ (by intro b; simp) (by simp) (by simp), hx⟩
  rw [hret, irq_handle_errors_ret]
  apply if_neg
  rintro ⟨h1, h2, h3, h4, -, h6, h7, h8⟩
  obtain ⟨bit, hmem, hbit⟩ := herr
  simp only [List.mem_cons, List.mem_singleton, List.not_mem_nil, or_false] at hmem
  rcases hmem with rfl | rfl | rfl | rfl | rfl | rfl | rfl
  · exact hbit h1
  · exact hbit h2
  · exact hbit h3
  · exact hbit h4
  · exact hbit h6
  · exact hbit h7
  · exact hbit h8

/-- Witness of C18: a status word with the two contention errors set
(bits 8 and 9), handled while xfer_result is 0. -/
theorem error_only_irq_witness :
    (vc4_dsi_irq_handler 0 0x300 0).ret = irqreturn_t.IRQ_HANDLED ∧
    Event.complete ∉ (vc4_dsi_irq_handler 0 0x300 0).trace ∧
    (vc4_dsi_irq_handler 0 0x300 0).xfer_result = 0 :=
  let h := error_only_irq 0 0x300 0 (by decide) (by decide) (by decide)
    ⟨DSI1_INT_ERR_CONT_LP0, by simp, by decide⟩
  ⟨h.1, h.2.1, h.2.2.2⟩

/-- C19: the handler returns IRQ_NONE if and only if the status word it read has
none of the ten recognised bits set, and then it signals no completion and
leaves xfer_result unchanged; in every case its first two events are the read
of INT_STAT and the write of the value read back to INT_STAT, its only register
write, and everything after them is classification (reports, the completion,
the timeout result). -/
theorem irq_none_iff (port int_stat : Nat) (xfer_result : Int) :
    ((vc4_dsi_irq_handler port int_stat xfer_result).ret = irqreturn_t.IRQ_NONE ↔
      ∀ bit ∈ [DSI1_INT_ERR_SYNC_ESC, DSI1_INT_ERR_CONTROL, DSI1_INT_ERR_CONT_LP0,
        DSI1_INT_ERR_CONT_LP1, DSI1_INT_HSTX_TO, DSI1_INT_LPRX_TO, DSI1_INT_TA_TO,
        DSI1_INT_PR_TO, DSI1_INT_TXPKT1_DONE, DSI1_INT_PHY_DIR_RTF],
        (int_stat % 2 ^ 32) &&& bit = 0) ∧
    ((vc4_dsi_irq_handler port int_stat xfer_result).ret = irqreturn_t.IRQ_NONE →
      Event.complete ∉ (vc4_dsi_irq_handler port int_stat xfer_result).trace ∧
      (vc4_dsi_irq_handler port int_stat xfer_result).xfer_result = xfer_result) ∧
    register_writes (vc4_dsi_irq_handler port int_stat xfer_result).trace =
      [(DSI_PORT port DSI0_INT_STAT DSI1_INT_STAT, int_stat % 2 ^ 32)] ∧
    (∃ rest, (vc4_dsi_irq_handler port int_stat xfer_result).trace =
      Event.read (DSI_PORT port DSI0_INT_STAT DSI1_INT_STAT) ::
      Event.write (DSI_PORT port DSI0_INT_STAT DSI1_INT_STAT) (int_stat % 2 ^ 32) :: rest ∧
      ∀ e ∈ rest, e = Event.complete ∨ e = Event.xfer_result_timeout ∨
        ∃ bit, e = Event.drm_error bit) := by
  have hiff : (vc4_dsi_irq_handler port int_stat xfer_result).ret = irqreturn_t.IRQ_NONE ↔
      ∀ bit ∈ [DSI1_INT_ERR_SYNC_ESC, DSI1_INT_ERR_CONTROL, DSI1_INT_ERR_CONT_LP0,
        DSI1_INT_ERR_CONT_LP1, DSI1_INT_HSTX_TO, DSI1_INT_LPRX_TO, DSI1_INT_TA_TO,
        DSI1_INT_PR_TO, DSI1_INT_TXPKT1_DONE, DSI1_INT_PHY_DIR_RTF],
        (int_stat % 2 ^ 32) &&& bit = 0 := by
    simp only [List.forall_mem_cons, List.not_mem_nil, false_implies, implies_true, and_true]
    by_cases hd : (int_stat % 2 ^ 32) &&& (DSI1_INT_TXPKT1_DONE ||| DSI1_INT_PHY_DIR_RTF) = 0
    · have hd2 := (and_or_eq_zero _ _ _).1 hd
      by_cases hto : (int_stat % 2 ^ 32) &&& DSI1_INT_HSTX_TO = 0
      · rw [irq_handler_errors_only port int_stat xfer_result hd hto]
        show (irq_handle_errors (int_stat % 2 ^ 32)).1 = irqreturn_t.IRQ_NONE ↔ _
        rw [irq_handle_errors_ret]
        simp only [hd2.1, hd2.2, and_true]
        split_ifs with h
        · simp only [true_iff]
          exact h
        · simp only [reduceCtorEq, false_iff]
          exact h
      · rw [irq_handler_timeout port int_stat xfer_result hd hto]
        show irqreturn_t.IRQ_HANDLED = irqreturn_t.IRQ_NONE ↔ _
        simp only [reduceCtorEq, false_iff]
        rintro ⟨-, -, -, -, h5, -⟩
        exact hto h5
    · rw [irq_handler_completion port int_stat xfer_result hd]
      show irqreturn_t.IRQ_HANDLED = irqreturn_t.IRQ_NONE ↔ _
      simp only [reduceCtorEq, false_iff]
      rintro ⟨-, -, -, -, -, -, -, -, h9, h10⟩
      exact hd ((and_or_eq_zero _ _ _).2 ⟨h9, h10⟩)
  obtain ⟨rest, htrace, hrest⟩ := irq_trace_shape port int_stat xfer_result
  refine ⟨hiff, ?_, ?_, ?_⟩
  · intro hnone
    have hall := hiff.1 hnone
    have h9 := hall DSI1_INT_TXPKT1_DONE (by simp)
    have h10 := hall DSI1_INT_PHY_DIR_RTF (by simp)
    have h5 := hall DSI1_INT_HSTX_TO (by simp)
    obtain ⟨hnot, hx, -⟩ := error_only_irq_aux port int_stat xfer_result h9 h10 h5
    exact ⟨hnot _ (by intro b; simp) (by simp) (by simp), hx⟩
  · rw [htrace]
    simp only [register_writes, register_writes_append, register_writes_errors, List.nil_append]
    rcases hrest with rfl | rfl | rfl <;> simp [register_writes]
  · refine ⟨_, htrace, ?_⟩
    intro e he
    rcases List.mem_append.1 he with h | h
    · exact Or.inr (Or.inr (irq_handle_errors_only_reports _ _ h))
    · rcases hrest with rfl | rfl | rfl
      · simp at h
      · simp at h
        exact Or.inl h
      · simp at h
        rcases h with h | h
        · exact Or.inl h
        · exact Or.inr (Or.inl h)


/-! ## Power-state sequencer -/

theorem wait_for_timeout (mask : Nat) (reads : List Nat)
    (h : ∀ v ∈ reads, (v % 2 ^ 32) &&& mask ≠ mask) :
    (wait_for mask reads).1 = -ETIMEDOUT := by
  induction reads with
  | nil => rfl
  | cons v rest ih =>
    have hv := h v (List.mem_cons_self _ _)
    have hrest : ∀ w ∈ rest, (w % 2 ^ 32) &&& mask ≠ mask :=
      fun w hw => h w (List.mem_cons_of_mem _ hw)
    unfold wait_for
    rw [if_neg hv]
    exact ih hrest

theorem and_not_testBit (x m i : Nat) (hm : m < 2 ^ 32) (hx : x < 2 ^ 32) :
    (x &&& (2 ^ 32 - 1 - m)).testBit i = (x.testBit i && !m.testBit i) := by
  have e : 2 ^ 32 - 1 - m = 2 ^ 32 - (m + 1) := by omega
  rw [Nat.testBit_and, e, Nat.testBit_two_pow_sub_succ hm]
  by_cases hi : i < 32
  · simp [hi]
  · have hxi : x.testBit i = false :=
      Nat.testBit_lt_two_pow (lt_of_lt_of_le hx (Nat.pow_le_pow_right (by norm_num) (by omega)))
    simp [hxi]

theorem or_and_not (x m : Nat) (hm : m < 2 ^ 32) (hx : x < 2 ^ 32) :
    (x ||| m) &&& (2 ^ 32 - 1 - m) = x &&& (2 ^ 32 - 1 - m) := by
  apply Nat.eq_of_testBit_eq
  intro i
  rw [and_not_testBit _ _ _ hm (Nat.or_lt_two_pow hx hm), and_not_testBit _ _ _ hm hx,
    Nat.testBit_or]
  cases x.testBit i <;> cases m.testBit i <;> rfl

theorem and_not_and_self (x m : Nat) (hm : m < 2 ^ 32) (hx : x < 2 ^ 32) :
    (x &&& (2 ^ 32 - 1 - m)) &&& m = 0 := by
  apply Nat.eq_of_testBit_eq
  intro i
  rw [Nat.testBit_and, and_not_testBit _ _ _ hm hx]
  cases x.testBit i <;> cases m.testBit i <;> simp

theorem and_not_eq_self (x m : Nat) (hm : m < 2 ^ 32) (hx : x < 2 ^ 32) (h : x &&& m = 0) :
    x &&& (2 ^ 32 - 1 - m) = x := by
  apply Nat.eq_of_testBit_eq
  intro i
  rw [and_not_testBit _ _ _ hm hx]
  have hi := congrArg (fun n => Nat.testBit n i) h
  simp only [Nat.testBit_and, Nat.zero_testBit] at hi
  cases hx1 : x.testBit i <;> cases hm1 : m.testBit i <;> simp_all

theorem phyc_ulps_lt (port lanes : Nat) : phyc_ulps port lanes < 2 ^ 32 := by
  unfold phyc_ulps DSI_PORT
  split_ifs <;> decide

theorem latch_ulps_lt (port : Nat) :
    DSI_PORT port DSI0_PHY_AFEC0_LATCH_ULPS DSI1_PHY_AFEC0_LATCH_ULPS < 2 ^ 32 := by
  unfold DSI_PORT
  split_ifs <;> decide

theorem stat_ulps_ne_stat_stop (lanes : Nat) : stat_ulps lanes ≠ stat_stop lanes := by
  unfold stat_ulps stat_stop
  split_ifs <;> decide

theorem phyc_ne_afec0 (port : Nat) :
    DSI_PORT port DSI0_PHYC DSI1_PHYC ≠ DSI_PORT port DSI0_PHY_AFEC0 DSI1_PHY_AFEC0 := by
  unfold DSI_PORT
  split_ifs <;> decide

theorem stat_ne_phyc (port : Nat) :
    DSI_PORT port DSI0_STAT DSI1_STAT ≠ DSI_PORT port DSI0_PHYC DSI1_PHYC := by
  unfold DSI_PORT
  split_ifs <;> decide

theorem stat_ne_afec0 (port : Nat) :
    DSI_PORT port DSI0_STAT DSI1_STAT ≠ DSI_PORT port DSI0_PHY_AFEC0 DSI1_PHY_AFEC0 := by
  unfold DSI_PORT
  split_ifs <;> decide

theorem reg_write_same (regs : Nat → Nat) (offset val : Nat) :
    reg_write regs offset val offset = val := by
  simp [reg_write]

theorem reg_write_other (regs : Nat → Nat) (offset val o : Nat) (h : o ≠ offset) :
    reg_write regs offset val o = regs o := by
  simp [reg_write, h]

theorem mem_register_writes (l : List Event) (o v : Nat) (h : Event.write o v ∈ l) :
    (o, v) ∈ register_writes l := by
  induction l with
  | nil => cases h
  | cons e l ih =>
    rcases List.mem_cons.1 h with rfl | h1
    · simp [register_writes]
    · cases e <;> simp [register_writes, ih h1]

theorem vc4_dsi_ulps_timeout (port lanes : Nat) (ulps : Bool) (hw : UlpsHw)
    (regs : Nat → Nat)
    (htimeout : ∀ v ∈ hw.stat_ulps_poll, (v % 2 ^ 32) &&& stat_ulps lanes ≠ stat_ulps lanes) :
    vc4_dsi_ulps port lanes ulps hw regs =
      (reg_write
        (reg_write (reg_write regs (DSI_PORT port DSI0_PHYC DSI1_PHYC)
            ((regs (DSI_PORT port DSI0_PHYC DSI1_PHYC) % 2 ^ 32) ||| phyc_ulps port lanes))
          (DSI_PORT port DSI0_PHYC DSI1_PHYC)
          ((regs (DSI_PORT port DSI0_PHYC DSI1_PHYC) % 2 ^ 32) &&&
            (2 ^ 32 - 1 - phyc_ulps port lanes)))
        (DSI_PORT port DSI0_PHY_AFEC0 DSI1_PHY_AFEC0)
        ((regs (DSI_PORT port DSI0_PHY_AFEC0 DSI1_PHY_AFEC0) % 2 ^ 32) &&&
          (2 ^ 32 - 1 - DSI_PORT port DSI0_PHY_AFEC0_LATCH_ULPS DSI1_PHY_AFEC0_LATCH_ULPS)),
       [Event.write (DSI_PORT port DSI0_STAT DSI1_STAT) (stat_ulps lanes),
        Event.read (DSI_PORT port DSI0_PHYC DSI1_PHYC),
        Event.write (DSI_PORT port DSI0_PHYC DSI1_PHYC)
          ((regs (DSI_PORT port DSI0_PHYC DSI1_PHYC) % 2 ^ 32) ||| phyc_ulps port lanes)] ++
       List.replicate (wait_for (stat_ulps lanes) hw.stat_ulps_poll).2
         (Event.read (DSI_PORT port DSI0_STAT DSI1_STAT)) ++
       [Event.read (DSI_PORT port DSI0_STAT DSI1_STAT),
        Event.read (DSI_PORT port DSI0_PHYC DSI1_PHYC),
        Event.write (DSI_PORT port DSI0_PHYC DSI1_PHYC)
          ((regs (DSI_PORT port DSI0_PHYC DSI1_PHYC) % 2 ^ 32) &&&
            (2 ^ 32 - 1 - phyc_ulps port lanes))] ++
       [Event.read (DSI_PORT port DSI0_PHY_AFEC0 DSI1_PHY_AFEC0),
        Event.write (DSI_PORT port DSI0_PHY_AFEC0 DSI1_PHY_AFEC0)
          ((regs (DSI_PORT port DSI0_PHY_AFEC0 DSI1_PHY_AFEC0) % 2 ^ 32) &&&
            (2 ^ 32 - 1 -
              DSI_PORT port DSI0_PHY_AFEC0_LATCH_ULPS DSI1_PHY_AFEC0_LATCH_ULPS))]) := by
  have hpoll : (wait_for (stat_ulps lanes) hw.stat_ulps_poll).1 ≠ 0 := by
    rw [wait_for_timeout _ _ htimeout]
    decide
  have hx : regs (DSI_PORT port DSI0_PHYC DSI1_PHYC) % 2 ^ 32 < 2 ^ 32 :=
    Nat.mod_lt _ (by norm_num)
  have hm := phyc_ulps_lt port lanes
  have h1 : ((regs (DSI_PORT port DSI0_PHYC DSI1_PHYC) % 2 ^ 32) ||| phyc_ulps port lanes) %
      2 ^ 32 = (regs (DSI_PORT port DSI0_PHYC DSI1_PHYC) % 2 ^ 32) ||| phyc_ulps port lanes :=
    Nat.mod_eq_of_lt (Nat.or_lt_two_pow hx hm)
  have hne := phyc_ne_afec0 port
  unfold vc4_dsi_ulps vc4_dsi_latch_ulps
  simp only [if_pos hpoll, reg_write_same, h1, or_and_not _ _ hm hx, Bool.false_eq_true,
    if_false, reg_write_other _ _ _ _ (Ne.symm hne)]

/-- C20: if the first poll of vc4_dsi_ulps times out (no value that STAT returns
during the poll has all bits of stat_ulps set), then on return PHYC has every
bit of phyc_ulps clear and every other bit as at entry (so PHYC is as at entry
when the request bits were clear then), PHY_AFEC0 has the port's LATCH_ULPS bit
clear and every other bit as at entry, no other register content changed, and
stat_stop was never written to STAT: the STOP phase did not run. -/
theorem ulps_first_poll_timeout (port lanes : Nat) (ulps : Bool) (hw : UlpsHw)
    (regs : Nat → Nat)
    (htimeout : ∀ v ∈ hw.stat_ulps_poll, (v % 2 ^ 32) &&& stat_ulps lanes ≠ stat_ulps lanes) :
    (vc4_dsi_ulps port lanes ulps hw regs).1 (DSI_PORT port DSI0_PHYC DSI1_PHYC) &&&
      phyc_ulps port lanes = 0 ∧
    (∀ i, (phyc_ulps port lanes).testBit i = false →
      ((vc4_dsi_ulps port lanes ulps hw regs).1 (DSI_PORT port DSI0_PHYC DSI1_PHYC)).testBit i =
        (regs (DSI_PORT port DSI0_PHYC DSI1_PHYC) % 2 ^ 32).testBit i) ∧
    (regs (DSI_PORT port DSI0_PHYC DSI1_PHYC) < 2 ^ 32 →
      regs (DSI_PORT port DSI0_PHYC DSI1_PHYC) &&& phyc_ulps port lanes = 0 →
      (vc4_dsi_ulps port lanes ulps hw regs).1 (DSI_PORT port DSI0_PHYC DSI1_PHYC) =
        regs (DSI_PORT port DSI0_PHYC DSI1_PHYC)) ∧
    (vc4_dsi_ulps port lanes ulps hw regs).1 (DSI_PORT port DSI0_PHY_AFEC0 DSI1_PHY_AFEC0) &&&
      DSI_PORT port DSI0_PHY_AFEC0_LATCH_ULPS DSI1_PHY_AFEC0_LATCH_ULPS = 0 ∧
    (∀ i, (DSI_PORT port DSI0_PHY_AFEC0_LATCH_ULPS DSI1_PHY_AFEC0_LATCH_ULPS).testBit i = false →
      ((vc4_dsi_ulps port lanes ulps hw regs).1
        (DSI_PORT port DSI0_PHY_AFEC0 DSI1_PHY_AFEC0)).testBit i =
        (regs (DSI_PORT port DSI0_PHY_AFEC0 DSI1_PHY_AFEC0) % 2 ^ 32).testBit i) ∧
    (∀ o, o ≠ DSI_PORT port DSI0_PHYC DSI1_PHYC →
      o ≠ DSI_PORT port DSI0_PHY_AFEC0 DSI1_PHY_AFEC0 →
      (vc4_dsi_ulps port lanes ulps hw regs).1 o = regs o) ∧
    (∀ o, Event.write o (stat_stop lanes) ∈ (vc4_dsi_ulps port lanes ulps hw regs).2 →
      o ≠ DSI_PORT port DSI0_STAT DSI1_STAT) ∧
    register_writes (vc4_dsi_ulps port lanes ulps hw regs).2 =
      [(DSI_PORT port DSI0_STAT DSI1_STAT, stat_ulps lanes),
       (DSI_PORT port DSI0_PHYC DSI1_PHYC,
        (regs (DSI_PORT port DSI0_PHYC DSI1_PHYC) % 2 ^ 32) ||| phyc_ulps port lanes),
       (DSI_PORT port DSI0_PHYC DSI1_PHYC,
        (regs (DSI_PORT port DSI0_PHYC DSI1_PHYC) % 2 ^ 32) &&&
          (2 ^ 32 - 1 - phyc_ulps port lanes)),
       (DSI_PORT port DSI0_PHY_AFEC0 DSI1_PHY_AFEC0,
        (regs (DSI_PORT port DSI0_PHY_AFEC0 DSI1_PHY_AFEC0) % 2 ^ 32) &&&
          (2 ^ 32 - 1 - DSI_PORT port DSI0_PHY_AFEC0_LATCH_ULPS DSI1_PHY_AFEC0_LATCH_ULPS))] := by
  have hx : regs (DSI_PORT port DSI0_PHYC DSI1_PHYC) % 2 ^ 32 < 2 ^ 32 :=
    Nat.mod_lt _ (by norm_num)
  have ha : regs (DSI_PORT port DSI0_PHY_AFEC0 DSI1_PHY_AFEC0) % 2 ^ 32 < 2 ^ 32 :=
    Nat.mod_lt _ (by norm_num)
  have hm := phyc_ulps_lt port lanes
  have hl := latch_ulps_lt port
  have hne := phyc_ne_afec0 port
  have hphyc : (vc4_dsi_ulps port lanes ulps hw regs).1 (DSI_PORT port DSI0_PHYC DSI1_PHYC) =
      (regs (DSI_PORT port DSI0_PHYC DSI1_PHYC) % 2 ^ 32) &&&
        (2 ^ 32 - 1 - phyc_ulps port lanes) := by
    rw [vc4_dsi_ulps_timeout port lanes ulps hw regs htimeout]
    show reg_write _ _ _ _ = _
    rw [reg_write_other _ _ _ _ hne, reg_write_same]
  have hafec : (vc4_dsi_ulps port lanes ulps hw regs).1
      (DSI_PORT port DSI0_PHY_AFEC0 DSI1_PHY_AFEC0) =
      (regs (DSI_PORT port DSI0_PHY_AFEC0 DSI1_PHY_AFEC0) % 2 ^ 32) &&&
        (2 ^ 32 - 1 - DSI_PORT port DSI0_PHY_AFEC0_LATCH_ULPS DSI1_PHY_AFEC0_LATCH_ULPS) := by
    rw [vc4_dsi_ulps_timeout port lanes ulps hw regs htimeout]
    show reg_write _ _ _ _ = _
    rw [reg_write_same]
  have hwrites : register_writes (vc4_dsi_ulps port lanes ulps hw regs).2 =
      [(DSI_PORT port DSI0_STAT DSI1_STAT, stat_ulps lanes),
       (DSI_PORT port DSI0_PHYC DSI1_PHYC,
        (regs (DSI_PORT port DSI0_PHYC DSI1_PHYC) % 2 ^ 32) ||| phyc_ulps port lanes),
       (DSI_PORT port DSI0_PHYC DSI1_PHYC,
        (regs (DSI_PORT port DSI0_PHYC DSI1_PHYC) % 2 ^ 32) &&&
          (2 ^ 32 - 1 - phyc_ulps port lanes)),
       (DSI_PORT port DSI0_PHY_AFEC0 DSI1_PHY_AFEC0,
        (regs (DSI_PORT port DSI0_PHY_AFEC0 DSI1_PHY_AFEC0) % 2 ^ 32) &&&
          (2 ^ 32 - 1 -
            DSI_PORT port DSI0_PHY_AFEC0_LATCH_ULPS DSI1_PHY_AFEC0_LATCH_ULPS))] := by
    rw [vc4_dsi_ulps_timeout port lanes ulps hw regs htimeout]
    show register_writes (_ ++ _ ++ _ ++ _) = _
    rw [register_writes_append, register_writes_append, register_writes_append,
      register_writes_eq_nil (List.replicate _ _)
        (fun o v h => by cases (List.eq_of_mem_replicate h))]
    rfl
  refine ⟨?_, ?_, ?_, ?_, ?_, ?_, ?_, hwrites⟩
  · rw [hphyc]
    exact and_not_and_self _ _ hm hx
  · intro i hi
    rw [hphyc, and_not_testBit _ _ _ hm hx, hi]
    simp
  · intro hlt h0
    rw [hphyc, Nat.mod_eq_of_lt hlt]
    exact and_not_eq_self _ _ hm hlt h0
  · rw [hafec]
    exact and_not_and_self _ _ hl ha
  · intro i hi
    rw [hafec, and_not_testBit _ _ _ hl ha, hi]
    simp
  · intro o h1 h2
    rw [vc4_dsi_ulps_timeout port lanes ulps hw regs htimeout]
    show reg_write _ _ _ _ = _
    rw [reg_write_other _ _ _ _ h2, reg_write_other _ _ _ _ h1, reg_write_other _ _ _ _ h1]
  · intro o hmem
    have hin : (o, stat_stop lanes) ∈
        register_writes (vc4_dsi_ulps port lanes ulps hw regs).2 :=
      mem_register_writes _ _ _ hmem
    rw [hwrites] at hin
    simp only [List.mem_cons, Prod.mk.injEq, List.mem_singleton, List.not_mem_nil,
      or_false] at hin
    rcases hin with ⟨-, h⟩ | ⟨rfl, -⟩ | ⟨rfl, -⟩ | ⟨rfl, -⟩
    · exact absurd h.symm (stat_ulps_ne_stat_stop lanes)
    · exact (stat_ne_phyc port).symm
    · exact (stat_ne_phyc port).symm
    · exact (stat_ne_afec0 port).symm

/-- Witness of C20: two lanes on port 1, STAT showing nothing during the first
poll: PHYC is as at entry and LATCH_ULPS is cleared in PHY_AFEC0. -/
theorem ulps_first_poll_timeout_witness :
    (vc4_dsi_ulps 1 2 true ulps_hw_no_answer regs_two_lanes).1 DSI1_PHYC = 0x10011 ∧
    (vc4_dsi_ulps 1 2 true ulps_hw_no_answer regs_two_lanes).1 DSI1_PHY_AFEC0 &&&
      DSI1_PHY_AFEC0_LATCH_ULPS = 0 ∧
    (vc4_dsi_ulps 1 2 true ulps_hw_no_answer regs_two_lanes).1 DSI1_PHY_AFEC0 = 0x123 :=
  let h := ulps_first_poll_timeout 1 2 true ulps_hw_no_answer regs_two_lanes (by decide)
  ⟨h.2.2.1 (by decide) (by decide), h.2.2.2.1, by decide⟩

/-! ## Power-state sequencer: the paths on which the first poll succeeds -/

theorem wait_for_success (mask : Nat) (reads : List Nat)
    (h : ∃ v ∈ reads, (v % 2 ^ 32) &&& mask = mask) :
    (wait_for mask reads).1 = 0 := by
  induction reads with
  | nil =>
    obtain ⟨v, hv, -⟩ := h
    cases hv
  | cons w rest ih =>
    unfold wait_for
    by_cases hw : (w % 2 ^ 32) &&& mask = mask
    · rw [if_pos hw]
    · rw [if_neg hw]
      apply ih
      obtain ⟨v, hv, hvm⟩ := h
      rcases List.mem_cons.1 hv with rfl | hv1
      · exact absurd hvm hw
      · exact ⟨v, hv1, hvm⟩

theorem and_not_idem (x m : Nat) :
    ((x &&& (2 ^ 32 - 1 - m)) % 2 ^ 32) &&& (2 ^ 32 - 1 - m) = x &&& (2 ^ 32 - 1 - m) := by
  have hlt : x &&& (2 ^ 32 - 1 - m) < 2 ^ 32 :=
    lt_of_le_of_lt Nat.and_le_right (by omega)
  rw [Nat.mod_eq_of_lt hlt, Nat.and_assoc, Nat.and_self]

theorem vc4_dsi_ulps_phyc (port lanes : Nat) (ulps : Bool) (hw : UlpsHw) (regs : Nat → Nat)
    (hpoll : (wait_for (stat_ulps lanes) hw.stat_ulps_poll).1 = 0) :
    (vc4_dsi_ulps port lanes ulps hw regs).1 (DSI_PORT port DSI0_PHYC DSI1_PHYC) =
      (regs (DSI_PORT port DSI0_PHYC DSI1_PHYC) % 2 ^ 32) &&&
        (2 ^ 32 - 1 - phyc_ulps port lanes) := by
  have hx : regs (DSI_PORT port DSI0_PHYC DSI1_PHYC) % 2 ^ 32 < 2 ^ 32 :=
    Nat.mod_lt _ (by norm_num)
  have hm := phyc_ulps_lt port lanes
  have h1 : ((regs (DSI_PORT port DSI0_PHYC DSI1_PHYC) % 2 ^ 32) ||| phyc_ulps port lanes) %
      2 ^ 32 = (regs (DSI_PORT port DSI0_PHYC DSI1_PHYC) % 2 ^ 32) ||| phyc_ulps port lanes :=
    Nat.mod_eq_of_lt (Nat.or_lt_two_pow hx hm)
  have hne := phyc_ne_afec0 port
  have hnot : ¬ (wait_for (stat_ulps lanes) hw.stat_ulps_poll).1 ≠ 0 := not_not.2 hpoll
  unfold vc4_dsi_ulps vc4_dsi_latch_ulps
  simp only [if_neg hnot]
  split_ifs <;>
    simp only [reg_write_same, reg_write_other _ _ _ _ hne, h1, or_and_not _ _ hm hx,
      and_not_idem]

theorem vc4_dsi_ulps_afec0 (port lanes : Nat) (ulps : Bool) (hw : UlpsHw) (regs : Nat → Nat)
    (hpoll : (wait_for (stat_ulps lanes) hw.stat_ulps_poll).1 = 0) :
    (vc4_dsi_ulps port lanes ulps hw regs).1 (DSI_PORT port DSI0_PHY_AFEC0 DSI1_PHY_AFEC0) =
      if ulps then
        (regs (DSI_PORT port DSI0_PHY_AFEC0 DSI1_PHY_AFEC0) % 2 ^ 32) |||
          DSI_PORT port DSI0_PHY_AFEC0_LATCH_ULPS DSI1_PHY_AFEC0_LATCH_ULPS
      else
        (regs (DSI_PORT port DSI0_PHY_AFEC0 DSI1_PHY_AFEC0) % 2 ^ 32) &&&
          (2 ^ 32 - 1 - DSI_PORT port DSI0_PHY_AFEC0_LATCH_ULPS DSI1_PHY_AFEC0_LATCH_ULPS) := by
  have hne := phyc_ne_afec0 port
  have hnot : ¬ (wait_for (stat_ulps lanes) hw.stat_ulps_poll).1 ≠ 0 := not_not.2 hpoll
  unfold vc4_dsi_ulps vc4_dsi_latch_ulps
  simp only [if_neg hnot]
  split_ifs <;>
    simp only [reg_write_same, reg_write_other _ _ _ _ hne, reg_write_other _ _ _ _ (Ne.symm hne)]

theorem vc4_dsi_ulps_other (port lanes : Nat) (ulps : Bool) (hw : UlpsHw) (regs : Nat → Nat)
    (o : Nat) (h1 : o ≠ DSI_PORT port DSI0_PHYC DSI1_PHYC)
    (h2 : o ≠ DSI_PORT port DSI0_PHY_AFEC0 DSI1_PHY_AFEC0) :
    (vc4_dsi_ulps port lanes ulps hw regs).1 o = regs o := by
  unfold vc4_dsi_ulps vc4_dsi_latch_ulps
  simp only
  split_ifs <;> simp only [reg_write_other _ _ _ _ h1, reg_write_other _ _ _ _ h2]

/-- C21: if the first poll of vc4_dsi_ulps(dsi, ulps) succeeds (some value that
STAT returns during the poll has all bits of stat_ulps set), then on return,
whatever the second poll does, the port's LATCH_ULPS bit of PHY_AFEC0 equals the
ulps argument (set for entry, clear for exit) and every other bit of PHY_AFEC0
is as at entry, every bit of phyc_ulps is clear in PHYC and every other bit of
PHYC is as at entry, and no other register content changed. -/
theorem ulps_first_poll_success (port lanes : Nat) (ulps : Bool) (hw : UlpsHw)
    (regs : Nat → Nat)
    (hsuccess : ∃ v ∈ hw.stat_ulps_poll, (v % 2 ^ 32) &&& stat_ulps lanes = stat_ulps lanes) :
    (vc4_dsi_ulps port lanes ulps hw regs).1 (DSI_PORT port DSI0_PHY_AFEC0 DSI1_PHY_AFEC0) &&&
        DSI_PORT port DSI0_PHY_AFEC0_LATCH_ULPS DSI1_PHY_AFEC0_LATCH_ULPS =
      (if ulps then DSI_PORT port DSI0_PHY_AFEC0_LATCH_ULPS DSI1_PHY_AFEC0_LATCH_ULPS else 0) ∧
    (∀ i, (DSI_PORT port DSI0_PHY_AFEC0_LATCH_ULPS DSI1_PHY_AFEC0_LATCH_ULPS).testBit i = false →
      ((vc4_dsi_ulps port lanes ulps hw regs).1
        (DSI_PORT port DSI0_PHY_AFEC0 DSI1_PHY_AFEC0)).testBit i =
        (regs (DSI_PORT port DSI0_PHY_AFEC0 DSI1_PHY_AFEC0) % 2 ^ 32).testBit i) ∧
    (vc4_dsi_ulps port lanes ulps hw regs).1 (DSI_PORT port DSI0_PHYC DSI1_PHYC) &&&
      phyc_ulps port lanes = 0 ∧
    (∀ i, (phyc_ulps port lanes).testBit i = false →
      ((vc4_dsi_ulps port lanes ulps hw regs).1 (DSI_PORT port DSI0_PHYC DSI1_PHYC)).testBit i =
        (regs (DSI_PORT port DSI0_PHYC DSI1_PHYC) % 2 ^ 32).testBit i) ∧
    (∀ o, o ≠ DSI_PORT port DSI0_PHYC DSI1_PHYC →
      o ≠ DSI_PORT port DSI0_PHY_AFEC0 DSI1_PHY_AFEC0 →
      (vc4_dsi_ulps port lanes ulps hw regs).1 o = regs o) := by
  have hpoll := wait_for_success _ _ hsuccess
  have hx : regs (DSI_PORT port DSI0_PHYC DSI1_PHYC) % 2 ^ 32 < 2 ^ 32 :=
    Nat.mod_lt _ (by norm_num)
  have ha : regs (DSI_PORT port DSI0_PHY_AFEC0 DSI1_PHY_AFEC0) % 2 ^ 32 < 2 ^ 32 :=
    Nat.mod_lt _ (by norm_num)
  have hm := phyc_ulps_lt port lanes
  have hl := latch_ulps_lt port
  have hphyc := vc4_dsi_ulps_phyc port lanes ulps hw regs hpoll
  have hafec := vc4_dsi_ulps_afec0 port lanes ulps hw regs hpoll
  refine ⟨?_, ?_, ?_, ?_, ?_⟩
  · rw [hafec]
    cases ulps
    · simp only [Bool.false_eq_true, if_false]
      exact and_not_and_self _ _ hl ha
    · simp only [if_true]
      exact or_and_self_right _ _
  · intro i hi
    rw [hafec]
    cases ulps
    · simp only [Bool.false_eq_true, if_false]
      rw [and_not_testBit _ _ _ hl ha, hi]
      simp
    · simp only [if_true]
      rw [Nat.testBit_or, hi]
      simp
  · rw [hphyc]
    exact and_not_and_self _ _ hm hx
  · intro i hi
    rw [hphyc, and_not_testBit _ _ _ hm hx, hi]
    simp
  · intro o h1 h2
    exact vc4_dsi_ulps_other port lanes ulps hw regs o h1 h2

/-- Witness of C21: entry on port 1 with two lanes, the second poll timing out:
LATCH_ULPS (bit 14) is set in PHY_AFEC0 and PHYC has no request bit set. -/
theorem ulps_first_poll_success_witness :
    (∃ v ∈ ulps_hw_no_stop.stat_ulps_poll, (v % 2 ^ 32) &&& stat_ulps 2 = stat_ulps 2) ∧
    (wait_for (stat_stop 2) ulps_hw_no_stop.stat_stop_poll).1 ≠ 0 ∧
    (vc4_dsi_ulps 1 2 true ulps_hw_no_stop regs_two_lanes).1 DSI1_PHY_AFEC0 &&&
      DSI1_PHY_AFEC0_LATCH_ULPS = DSI1_PHY_AFEC0_LATCH_ULPS ∧
    (vc4_dsi_ulps 1 2 true ulps_hw_no_stop regs_two_lanes).1 DSI1_PHYC &&&
      phyc_ulps 1 2 = 0 :=
  let h := ulps_first_poll_success 1 2 true ulps_hw_no_stop regs_two_lanes
    ⟨0x0a040000, by decide, by decide⟩
  ⟨⟨0x0a040000, by decide, by decide⟩, by decide, h.1, h.2.2.1⟩

/-! ## Power-state sequencer: a second entry -/

theorem vc4_dsi_ulps_first_writes (port lanes : Nat) (ulps : Bool) (hw : UlpsHw)
    (regs : Nat → Nat) :
    ∃ rest, register_writes (vc4_dsi_ulps port lanes ulps hw regs).2 =
      (DSI_PORT port DSI0_STAT DSI1_STAT, stat_ulps lanes) ::
      (DSI_PORT port DSI0_PHYC DSI1_PHYC,
        (regs (DSI_PORT port DSI0_PHYC DSI1_PHYC) % 2 ^ 32) ||| phyc_ulps port lanes) ::
      rest := by
  unfold vc4_dsi_ulps
  simp only
  split_ifs <;>
    simp only [List.append_assoc, List.cons_append, List.nil_append, register_writes] <;>
    exact ⟨_, rfl⟩

theorem phyc_ulps_ne_zero (port lanes : Nat) : phyc_ulps port lanes ≠ 0 := by
  unfold phyc_ulps DSI_PORT
  split_ifs <;> decide

/-- C22, amended: in a state reached by an entry call vc4_dsi_ulps(dsi, true) in
which both polls succeeded, a second entry call whose first poll succeeds again
is not a no-op: its first two register writes are stat_ulps to STAT and PHYC
with every bit of phyc_ulps set, a value that differs from the content of PHYC
before the call; but every register content, PHYC and PHY_AFEC0 included, is the
same after the second call as before it. -/
theorem ulps_second_entry (port lanes : Nat) (hw1 hw2 : UlpsHw) (regs : Nat → Nat)
    (hfirst : ∃ v ∈ hw1.stat_ulps_poll, (v % 2 ^ 32) &&& stat_ulps lanes = stat_ulps lanes)
    (_hstop : ∃ v ∈ hw1.stat_stop_poll, (v % 2 ^ 32) &&& stat_stop lanes = stat_stop lanes)
    (hsecond : ∃ v ∈ hw2.stat_ulps_poll, (v % 2 ^ 32) &&& stat_ulps lanes = stat_ulps lanes) :
    (∃ rest, register_writes (vc4_dsi_ulps port lanes true hw2
        (vc4_dsi_ulps port lanes true hw1 regs).1).2 =
      (DSI_PORT port DSI0_STAT DSI1_STAT, stat_ulps lanes) ::
      (DSI_PORT port DSI0_PHYC DSI1_PHYC,
        (vc4_dsi_ulps port lanes true hw1 regs).1 (DSI_PORT port DSI0_PHYC DSI1_PHYC) |||
          phyc_ulps port lanes) :: rest) ∧
    ((vc4_dsi_ulps port lanes true hw1 regs).1 (DSI_PORT port DSI0_PHYC DSI1_PHYC) |||
        phyc_ulps port lanes) &&& phyc_ulps port lanes = phyc_ulps port lanes ∧
    ((vc4_dsi_ulps port lanes true hw1 regs).1 (DSI_PORT port DSI0_PHYC DSI1_PHYC) |||
        phyc_ulps port lanes) ≠
      (vc4_dsi_ulps port lanes true hw1 regs).1 (DSI_PORT port DSI0_PHYC DSI1_PHYC) ∧
    (∀ o, (vc4_dsi_ulps port lanes true hw2 (vc4_dsi_ulps port lanes true hw1 regs).1).1 o =
      (vc4_dsi_ulps port lanes true hw1 regs).1 o) := by
  have hp1 := wait_for_success _ _ hfirst
  have hp2 := wait_for_success _ _ hsecond
  have hx : regs (DSI_PORT port DSI0_PHYC DSI1_PHYC) % 2 ^ 32 < 2 ^ 32 :=
    Nat.mod_lt _ (by norm_num)
  have ha : regs (DSI_PORT port DSI0_PHY_AFEC0 DSI1_PHY_AFEC0) % 2 ^ 32 < 2 ^ 32 :=
    Nat.mod_lt _ (by norm_num)
  have hm := phyc_ulps_lt port lanes
  have hl := latch_ulps_lt port
  have hphyc1 := vc4_dsi_ulps_phyc port lanes true hw1 regs hp1
  have hafec1 := vc4_dsi_ulps_afec0 port lanes true hw1 regs hp1
  rw [if_pos rfl] at hafec1
  have hlt : (vc4_dsi_ulps port lanes true hw1 regs).1 (DSI_PORT port DSI0_PHYC DSI1_PHYC) <
      2 ^ 32 := by
    rw [hphyc1]
    exact lt_of_le_of_lt Nat.and_le_left hx
  have hzero : (vc4_dsi_ulps port lanes true hw1 regs).1 (DSI_PORT port DSI0_PHYC DSI1_PHYC) &&&
      phyc_ulps port lanes = 0 := by
    rw [hphyc1]
    exact and_not_and_self _ _ hm hx
  refine ⟨?_, or_and_self_right _ _, ?_, ?_⟩
  · obtain ⟨rest, h⟩ := vc4_dsi_ulps_first_writes port lanes true hw2
      (vc4_dsi_ulps port lanes true hw1 regs).1
    rw [Nat.mod_eq_of_lt hlt] at h
    exact ⟨rest, h⟩
  · intro heq
    have h := or_and_self_right
      ((vc4_dsi_ulps port lanes true hw1 regs).1 (DSI_PORT port DSI0_PHYC DSI1_PHYC))
      (phyc_ulps port lanes)
    rw [heq, hzero] at h
    exact phyc_ulps_ne_zero port lanes h.symm
  · intro o
    by_cases h1 : o = DSI_PORT port DSI0_PHYC DSI1_PHYC
    · rw [h1, vc4_dsi_ulps_phyc port lanes true hw2 _ hp2, hphyc1, and_not_idem]
    · by_cases h2 : o = DSI_PORT port DSI0_PHY_AFEC0 DSI1_PHY_AFEC0
      · rw [h2, vc4_dsi_ulps_afec0 port lanes true hw2 _ hp2, if_pos rfl, hafec1,
          Nat.mod_eq_of_lt (Nat.or_lt_two_pow ha hl), Nat.or_assoc, Nat.or_self]
      · rw [vc4_dsi_ulps_other _ _ _ _ _ o h1 h2]

/-- Witness of C22, amended: two entries in a row on port 1 with two lanes,
every poll succeeding. -/
theorem ulps_second_entry_witness :
    (∃ v ∈ ulps_hw_answers.stat_ulps_poll, (v % 2 ^ 32) &&& stat_ulps 2 = stat_ulps 2) ∧
    (∃ v ∈ ulps_hw_answers.stat_stop_poll, (v % 2 ^ 32) &&& stat_stop 2 = stat_stop 2) ∧
    (vc4_dsi_ulps 1 2 true ulps_hw_answers
      (vc4_dsi_ulps 1 2 true ulps_hw_answers regs_two_lanes).1).1 DSI1_PHYC =
      (vc4_dsi_ulps 1 2 true ulps_hw_answers regs_two_lanes).1 DSI1_PHYC ∧
    (vc4_dsi_ulps 1 2 true ulps_hw_answers
      (vc4_dsi_ulps 1 2 true ulps_hw_answers regs_two_lanes).1).1 DSI1_PHY_AFEC0 =
      (vc4_dsi_ulps 1 2 true ulps_hw_answers regs_two_lanes).1 DSI1_PHY_AFEC0 :=
  let h := ulps_second_entry 1 2 ulps_hw_answers ulps_hw_answers regs_two_lanes
    ⟨0x0a040000, by decide, by decide⟩ ⟨0x05010000, by decide, by decide⟩
    ⟨0x0a040000, by decide, by decide⟩
  ⟨⟨0x0a040000, by decide, by decide⟩, ⟨0x05010000, by decide, by decide⟩,
    h.2.2.2 DSI1_PHYC, h.2.2.2 DSI1_PHY_AFEC0⟩

/-- C22 as stated fails: on port 1 with two lanes, after an entry call in which
both polls succeeded (PHYC = 0x10011, PHY_AFEC0 = 0x4123), a second entry call
makes five register writes: it writes stat_ulps (0x0a040000) to STAT, which
clears the ULPS status bits, and 0x30033 to PHYC, which sets the request bits of
the clock lane and of the data lanes 0 and 1 again. -/
theorem second_ulps_entry_writes_again :
    (wait_for (stat_ulps 2) ulps_hw_answers.stat_ulps_poll).1 = 0 ∧
    (wait_for (stat_stop 2) ulps_hw_answers.stat_stop_poll).1 = 0 ∧
    (vc4_dsi_ulps 1 2 true ulps_hw_answers regs_two_lanes).1 DSI1_PHYC = 0x10011 ∧
    (vc4_dsi_ulps 1 2 true ulps_hw_answers regs_two_lanes).1 DSI1_PHY_AFEC0 = 0x4123 ∧
    register_writes (vc4_dsi_ulps 1 2 true ulps_hw_answers
        (vc4_dsi_ulps 1 2 true ulps_hw_answers regs_two_lanes).1).2 =
      [(DSI1_STAT, 0x0a040000), (DSI1_PHYC, 0x30033), (DSI1_PHY_AFEC0, 0x4123),
       (DSI1_STAT, 0x05010000), (DSI1_PHYC, 0x10011)] ∧
    stat_ulps 2 = 0x0a040000 ∧
    0x30033 &&& phyc_ulps 1 2 = phyc_ulps 1 2 ∧
    register_writes (vc4_dsi_ulps 1 2 true ulps_hw_answers
        (vc4_dsi_ulps 1 2 true ulps_hw_answers regs_two_lanes).1).2 ≠ [] := by
  decide

/-! ## Link configuration -/

theorem vc4_dsi_host_attach_lanes (device : mipi_dsi_device) (env : AttachEnv) :
    (vc4_dsi_host_attach device env).lanes = device.lanes % 2 ^ 32 := by
  unfold vc4_dsi_host_attach
  simp only
  split_ifs <;> rfl

theorem vc4_dsi_host_attach_ret (device : mipi_dsi_device) (env : AttachEnv) :
    (vc4_dsi_host_attach device env).ret =
      if (device.mode_flags % 2 ^ 32) &&& MIPI_DSI_MODE_VIDEO = 0 then 0
      else if env.panel_found then env.drm_panel_attach_ret else 0 := by
  unfold vc4_dsi_host_attach
  simp only
  split_ifs <;> rfl

/-- C23, amended: vc4_dsi_host_attach stores the lane count of the device as it
is (as a u32), and its return value does not depend on the lane count: it is 0
for a device without the video-mode flag, else what drm_panel_attach returns
when a panel is found, else 0.  When the stored lane count is in 1..4, the
divider of the enable sequence is defined for every pixel format (no division
by zero), equals 24 / lanes for RGB888 and RGB666, 18 / lanes for RGB666-packed
and 16 / lanes for RGB565, and lies between 4 and 24. -/
theorem attach_stores_lanes_unchecked (device : mipi_dsi_device) (env : AttachEnv)
    (format : mipi_dsi_pixel_format)
    (hlow : 1 ≤ (vc4_dsi_host_attach device env).lanes)
    (hhigh : (vc4_dsi_host_attach device env).lanes ≤ 4) :
    (vc4_dsi_host_attach device env).lanes = device.lanes % 2 ^ 32 ∧
    (∀ lanes', (vc4_dsi_host_attach { device with lanes := lanes' } env).ret =
      (vc4_dsi_host_attach device env).ret) ∧
    vc4_dsi_encoder_enable_divider format (vc4_dsi_host_attach device env).lanes =
      some ((match format with
        | mipi_dsi_pixel_format.MIPI_DSI_FMT_RGB888 => 24
        | mipi_dsi_pixel_format.MIPI_DSI_FMT_RGB666 => 24
        | mipi_dsi_pixel_format.MIPI_DSI_FMT_RGB666_PACKED => 18
        | mipi_dsi_pixel_format.MIPI_DSI_FMT_RGB565 => 16) /
          (vc4_dsi_host_attach device env).lanes) ∧
    ∃ d, vc4_dsi_encoder_enable_divider format (vc4_dsi_host_attach device env).lanes =
      some d ∧ 4 ≤ d ∧ d ≤ 24 := by
  have hne : (vc4_dsi_host_attach device env).lanes ≠ 0 := by omega
  refine ⟨vc4_dsi_host_attach_lanes device env, ?_, ?_, ?_⟩
  · intro lanes'
    rw [vc4_dsi_host_attach_ret, vc4_dsi_host_attach_ret]
  · cases format <;> simp only [vc4_dsi_encoder_enable_divider, if_neg hne]
  · generalize (vc4_dsi_host_attach device env).lanes = n at hlow hhigh hne
    have hn : n = 1 ∨ n = 2 ∨ n = 3 ∨ n = 4 := by omega
    rcases hn with rfl | rfl | rfl | rfl <;> cases format <;>
      exact ⟨_, rfl, by decide, by decide⟩

/-- Witness of C23, amended: a two-lane RGB888 peripheral gets the divider 12. -/
theorem attach_stores_lanes_unchecked_witness :
    (vc4_dsi_host_attach device_two_lanes attach_no_panel).lanes = 2 ∧
    vc4_dsi_encoder_enable_divider mipi_dsi_pixel_format.MIPI_DSI_FMT_RGB888
      (vc4_dsi_host_attach device_two_lanes attach_no_panel).lanes = some 12 :=
  ⟨by decide,
    (attach_stores_lanes_unchecked device_two_lanes attach_no_panel
      mipi_dsi_pixel_format.MIPI_DSI_FMT_RGB888 (by decide) (by decide)).2.2.1⟩

/-- C23 as stated fails: a video-mode peripheral that declares 0 lanes is
attached with return value 0 and without an error report, the lane count 0 is
stored, and the divider 24 / lanes of the enable sequence is then a division by
zero; one that declares 5 lanes is attached the same way, and its divider for
RGB565 is 16 / 5 = 3, below 4. -/
theorem attach_accepts_lane_count_outside_1_to_4 :
    (vc4_dsi_host_attach device_no_lane attach_no_panel).ret = 0 ∧
    (vc4_dsi_host_attach device_no_lane attach_no_panel).lanes = 0 ∧
    AttachAction.dev_err ∉ (vc4_dsi_host_attach device_no_lane attach_no_panel).actions ∧
    vc4_dsi_encoder_enable_divider (vc4_dsi_host_attach device_no_lane attach_no_panel).format
      (vc4_dsi_host_attach device_no_lane attach_no_panel).lanes = none ∧
    (vc4_dsi_host_attach device_five_lanes attach_no_panel).ret = 0 ∧
    (vc4_dsi_host_attach device_five_lanes attach_no_panel).lanes = 5 ∧
    AttachAction.dev_err ∉ (vc4_dsi_host_attach device_five_lanes attach_no_panel).actions ∧
    vc4_dsi_encoder_enable_divider
      (vc4_dsi_host_attach device_five_lanes attach_no_panel).format
      (vc4_dsi_host_attach device_five_lanes attach_no_panel).lanes = some 3 := by
  decide

/-! ## Transfer engine: the offset of the response drain -/

/-- C26: a read of 10 bytes on port 0, answered in time by a long response of 10
bytes, returns 0 and reads RXPKT1H of port 0 and then ten times the offset 0x24,
DSI1_RXPKT_FIFO, which in the register map of port 0 is DSI0_INT_STAT: the
drain reads the interrupt-status register.  On port 1 the same transfer reads
ten times DSI1_RXPKT_FIFO, which differs from DSI1_INT_STAT and is the offset of
no other register of port 1. -/
theorem long_response_drain_reads_int_stat_on_port_0 :
    (vc4_dsi_host_transfer 0 msg_read_10 false packet_dcs_read hw_long_response_10).ret = 0 ∧
    register_reads
      (vc4_dsi_host_transfer 0 msg_read_10 false packet_dcs_read hw_long_response_10).trace =
      DSI0_RXPKT1H :: List.replicate 10 DSI0_INT_STAT ∧
    DSI1_RXPKT_FIFO = DSI0_INT_STAT ∧
    DSI0_registers.count DSI1_RXPKT_FIFO = 1 ∧
    DSI0_registers.indexOf DSI1_RXPKT_FIFO = DSI0_registers.indexOf DSI0_INT_STAT ∧
    register_reads
      (vc4_dsi_host_transfer 1 msg_read_10 false packet_dcs_read hw_long_response_10).trace =
      DSI1_RXPKT1H :: List.replicate 10 DSI1_RXPKT_FIFO ∧
    DSI1_RXPKT_FIFO ≠ DSI1_INT_STAT ∧
    DSI1_registers.count DSI1_RXPKT_FIFO = 1 := by
  decide

/-! ## Timing registers of the enable sequence -/

theorem VC4_MASK_lt (h l : Nat) (h32 : h < 32) : VC4_MASK h l < 2 ^ 32 := by
  unfold VC4_MASK
  have h1 : 2 ^ (h + 1) ≤ 2 ^ 32 := Nat.pow_le_pow_right (by norm_num) (by omega)
  have h2 : 0 < 2 ^ l := Nat.two_pow_pos l
  omega

theorem VC4_SET_FIELD_fits (v h l : Nat) (hl : l ≤ h) (h32 : h < 32)
    (hv : v < 2 ^ (h + 1 - l)) :
    VC4_SET_FIELD_warns v (VC4_MASK h l) l = false ∧
    VC4_SET_FIELD v (VC4_MASK h l) l = v <<< l ∧
    VC4_GET_FIELD (VC4_SET_FIELD v (VC4_MASK h l) l) (VC4_MASK h l) l = v := by
  have hbit : ∀ i, h < i → (v <<< l).testBit i = false := by
    intro i hi
    rw [Nat.testBit_shiftLeft]
    have h3 : v.testBit (i - l) = false := by
      apply Nat.testBit_lt_two_pow
      exact lt_of_lt_of_le hv (Nat.pow_le_pow_right (by norm_num) (by omega))
    simp [h3]
  have hlow : ∀ i, i < l → (v <<< l).testBit i = false := by
    intro i hi
    rw [Nat.testBit_shiftLeft]
    have : ¬ (i ≥ l) := by omega
    simp [this]
  have hmod : (v <<< l) % 2 ^ 32 = v <<< l := by
    apply Nat.mod_eq_of_lt
    apply Nat.lt_pow_two_of_testBit
    intro i hi
    exact hbit i (by omega)
  refine ⟨?_, ?_, VC4_GET_SET_FIELD v h l hl h32 hv⟩
  · unfold VC4_SET_FIELD_warns
    rw [decide_eq_false_iff_not, not_not, hmod]
    apply Nat.eq_of_testBit_eq
    intro i
    rw [and_not_testBit _ _ _ (VC4_MASK_lt h l h32) (by rw [← hmod]; exact Nat.mod_lt _ (by norm_num)),
      VC4_MASK_testBit h l i (by omega), Nat.zero_testBit]
    by_cases h1 : l ≤ i
    · by_cases h2 : i ≤ h
      · simp [h1, h2]
      · simp [hbit i (by omega)]
    · simp [hlow i (by omega)]
  · unfold VC4_SET_FIELD
    rw [hmod]
    apply Nat.eq_of_testBit_eq
    intro i
    rw [Nat.testBit_and, VC4_MASK_testBit h l i (by omega)]
    by_cases h1 : l ≤ i
    · by_cases h2 : i ≤ h
      · simp [h1, h2]
      · simp [hbit i (by omega)]
    · simp [hlow i (by omega)]

theorem dsi_hs_timing_le (ui_ns ns ui : Nat) (h : 1 ≤ ui_ns) (hb : ui + ns + 7 < 2 ^ 32) :
    ∃ v, dsi_hs_timing ui_ns ns ui = some v ∧ v ≤ ui + ns + 7 := by
  rw [dsi_hs_timing_eq ui_ns ns ui h]
  refine ⟨_, rfl, ?_⟩
  have hq : (ns + ui_ns - 1) % 2 ^ 32 / ui_ns ≤ ns :=
    le_trans (Nat.div_le_div_right (Nat.mod_le _ _)) (ceil_div_le_self ns ui_ns h)
  generalize (ns + ui_ns - 1) % 2 ^ 32 / ui_ns = q at hq
  have hmod : (ui + q) % 2 ^ 32 = ui + q := Nat.mod_eq_of_lt (by omega)
  rw [hmod, roundup_8_eq _ (by omega)]
  omega

theorem vc4_dsi_encoder_enable_lpx_eq : vc4_dsi_encoder_enable_lpx = some 6 := by
  decide

/-- C25: for every ui_ns >= 1, on either port, every timing value that the
enable sequence passes to VC4_SET_FIELD fits its field: the values for CZERO,
CPRE, CPREP, CTRAIL, CPOST, EXIT, ZERO, PRE, LPX and TRAIL are below 2^9; those
for WUP, INIT and LP_WUP are below 2^24, LP_WUP being 100000; with lpx = 6 the
turnaround values are TA_GET = 30, TA_SURE = 6, TA_GO = 24, LP_LPX = 6, below
2^8, and ESC_CLK_LPDT = 5, below 2^6; and for each field (ANLAT, which gets 0,
included) the warning of VC4_SET_FIELD does not fire, VC4_SET_FIELD returns the
shifted value unchanged, and VC4_GET_FIELD gives the value back. -/
theorem enable_timings_fit (port ui_ns : Nat) (h : 1 ≤ ui_ns) :
    (∀ fld ∈ [TimingField.CZERO, TimingField.CPRE, TimingField.CPREP, TimingField.CTRAIL,
        TimingField.CPOST, TimingField.EXIT, TimingField.ZERO, TimingField.PRE,
        TimingField.LPX, TimingField.TRAIL],
      ∃ v, vc4_dsi_encoder_enable_timing ui_ns fld = some v ∧ v < 2 ^ 9) ∧
    (∀ fld ∈ [TimingField.WUP, TimingField.INIT, TimingField.LP_WUP],
      ∃ v, vc4_dsi_encoder_enable_timing ui_ns fld = some v ∧ v < 2 ^ 24) ∧
    vc4_dsi_encoder_enable_timing ui_ns TimingField.LP_WUP = some 100000 ∧
    vc4_dsi_encoder_enable_lpx = some 6 ∧
    vc4_dsi_encoder_enable_timing ui_ns TimingField.TA_GET = some 30 ∧
    vc4_dsi_encoder_enable_timing ui_ns TimingField.TA_SURE = some 6 ∧
    vc4_dsi_encoder_enable_timing ui_ns TimingField.TA_GO = some 24 ∧
    vc4_dsi_encoder_enable_timing ui_ns TimingField.LP_LPX = some 6 ∧
    vc4_dsi_encoder_enable_timing ui_ns TimingField.ESC_CLK_LPDT = some 5 ∧
    (∀ fld ∈ [TimingField.TA_GET, TimingField.TA_SURE, TimingField.TA_GO,
        TimingField.LP_LPX],
      ∃ v, vc4_dsi_encoder_enable_timing ui_ns fld = some v ∧ v < 2 ^ 8) ∧
    (∃ v, vc4_dsi_encoder_enable_timing ui_ns TimingField.ESC_CLK_LPDT = some v ∧ v < 2 ^ 6) ∧
    (∀ fld, ∃ v, vc4_dsi_encoder_enable_timing ui_ns fld = some v ∧
      VC4_SET_FIELD_warns v (timing_field_mask port fld) (timing_field_shift port fld) = false ∧
      VC4_SET_FIELD v (timing_field_mask port fld) (timing_field_shift port fld) =
        v <<< timing_field_shift port fld ∧
      VC4_GET_FIELD
        (VC4_SET_FIELD v (timing_field_mask port fld) (timing_field_shift port fld))
        (timing_field_mask port fld) (timing_field_shift port fld) = v) := by
  obtain ⟨czero, hczero, bczero⟩ := dsi_hs_timing_le ui_ns 262 0 h (by norm_num)
  obtain ⟨cpre, hcpre, bcpre⟩ := dsi_hs_timing_le ui_ns 0 8 h (by norm_num)
  obtain ⟨cprep, hcprep, bcprep⟩ := dsi_hs_timing_le ui_ns 38 0 h (by norm_num)
  obtain ⟨ctrail, hctrail, bctrail⟩ := dsi_hs_timing_le ui_ns 60 0 h (by norm_num)
  obtain ⟨cpost, hcpost, bcpost⟩ := dsi_hs_timing_le ui_ns 60 52 h (by norm_num)
  obtain ⟨wup, hwup, bwup⟩ := dsi_hs_timing_le ui_ns 1000000 0 h (by norm_num)
  obtain ⟨hsexit, hhsexit, bhsexit⟩ := dsi_hs_timing_le ui_ns 100 0 h (by norm_num)
  obtain ⟨hszero, hhszero, bhszero⟩ := dsi_hs_timing_le ui_ns 105 6 h (by norm_num)
  obtain ⟨pre, hpre, bpre⟩ := dsi_hs_timing_le ui_ns 40 4 h (by norm_num)
  obtain ⟨trailns, htrailns, btrailns⟩ := dsi_hs_timing_le ui_ns 60 4 h (by norm_num)
  obtain ⟨hsinit, hhsinit, bhsinit⟩ := dsi_hs_timing_le ui_ns 1000 5000 h (by norm_num)
  have hlpx := vc4_dsi_encoder_enable_lpx_eq
  have eCZERO : vc4_dsi_encoder_enable_timing ui_ns TimingField.CZERO = some czero := hczero
  have eCPRE : vc4_dsi_encoder_enable_timing ui_ns TimingField.CPRE = some cpre := hcpre
  have eCPREP : vc4_dsi_encoder_enable_timing ui_ns TimingField.CPREP = some cprep := hcprep
  have eCTRAIL : vc4_dsi_encoder_enable_timing ui_ns TimingField.CTRAIL = some ctrail := hctrail
  have eCPOST : vc4_dsi_encoder_enable_timing ui_ns TimingField.CPOST = some cpost := hcpost
  have eWUP : vc4_dsi_encoder_enable_timing ui_ns TimingField.WUP = some wup := hwup
  have eEXIT : vc4_dsi_encoder_enable_timing ui_ns TimingField.EXIT = some hsexit := hhsexit
  have eZERO : vc4_dsi_encoder_enable_timing ui_ns TimingField.ZERO = some hszero := hhszero
  have ePRE : vc4_dsi_encoder_enable_timing ui_ns TimingField.PRE = some pre := hpre
  have eLPX : vc4_dsi_encoder_enable_timing ui_ns TimingField.LPX = some ctrail := by
    show vc4_dsi_encoder_enable_lpx.bind
      (fun lpx => dsi_hs_timing ui_ns ((lpx * ESC_TIME_NS) % 2 ^ 32) 0) = some ctrail
    rw [hlpx]
    exact hctrail
  have eTRAIL : vc4_dsi_encoder_enable_timing ui_ns TimingField.TRAIL =
      some (max cpre trailns) := by
    show (dsi_hs_timing ui_ns 0 8).bind
      (fun trail_ui => (dsi_hs_timing ui_ns 60 4).map fun trail_ns => max trail_ui trail_ns) =
        some (max cpre trailns)
    rw [hcpre, Option.some_bind, htrailns]
    rfl
  have eANLAT : vc4_dsi_encoder_enable_timing ui_ns TimingField.ANLAT = some 0 := rfl
  have eINIT : vc4_dsi_encoder_enable_timing ui_ns TimingField.INIT = some hsinit := hhsinit
  have eTA_GET : vc4_dsi_encoder_enable_timing ui_ns TimingField.TA_GET = some 30 := by
    show vc4_dsi_encoder_enable_lpx.map (fun lpx => (lpx * 5) % 2 ^ 32) = some 30
    rw [hlpx]
    rfl
  have eTA_SURE : vc4_dsi_encoder_enable_timing ui_ns TimingField.TA_SURE = some 6 := hlpx
  have eTA_GO : vc4_dsi_encoder_enable_timing ui_ns TimingField.TA_GO = some 24 := by
    show vc4_dsi_encoder_enable_lpx.map (fun lpx => (lpx * 4) % 2 ^ 32) = some 24
    rw [hlpx]
    rfl
  have eLP_LPX : vc4_dsi_encoder_enable_timing ui_ns TimingField.LP_LPX = some 6 := hlpx
  have eLP_WUP : vc4_dsi_encoder_enable_timing ui_ns TimingField.LP_WUP = some 100000 := by
    show dsi_esc_timing 1000000 = some 100000
    decide
  have eESC : vc4_dsi_encoder_enable_timing ui_ns TimingField.ESC_CLK_LPDT = some 5 := by
    show vc4_dsi_encoder_enable_lpx.map (fun lpx => (lpx + 2 ^ 32 - 1) % 2 ^ 32) = some 5
    rw [hlpx]
    rfl
  have bTRAIL : max cpre trailns ≤ 71 := max_le (by omega) (by omega)
  refine ⟨?_, ?_, eLP_WUP, hlpx, eTA_GET, eTA_SURE, eTA_GO, eLP_LPX, eESC, ?_,
    ⟨5, eESC, by norm_num⟩, ?_⟩
  · intro fld hmem
    simp only [List.mem_cons, List.mem_singleton, List.not_mem_nil, or_false] at hmem
    rcases hmem with rfl | rfl | rfl | rfl | rfl | rfl | rfl | rfl | rfl | rfl
    · exact ⟨_, eCZERO, by omega⟩
    · exact ⟨_, eCPRE, by omega⟩
    · exact ⟨_, eCPREP, by omega⟩
    · exact ⟨_, eCTRAIL, by omega⟩
    · exact ⟨_, eCPOST, by omega⟩
    · exact ⟨_, eEXIT, by omega⟩
    · exact ⟨_, eZERO, by omega⟩
    · exact ⟨_, ePRE, by omega⟩
    · exact ⟨_, eLPX, by omega⟩
    · exact ⟨_, eTRAIL, by omega⟩
  · intro fld hmem
    simp only [List.mem_cons, List.mem_singleton, List.not_mem_nil, or_false] at hmem
    rcases hmem with rfl | rfl | rfl
    · exact ⟨_, eWUP, by omega⟩
    · exact ⟨_, eINIT, by omega⟩
    · exact ⟨_, eLP_WUP, by norm_num⟩
  · intro fld hmem
    simp only [List.mem_cons, List.mem_singleton, List.not_mem_nil, or_false] at hmem
    rcases hmem with rfl | rfl | rfl | rfl
    · exact ⟨_, eTA_GET, by norm_num⟩
    · exact ⟨_, eTA_SURE, by norm_num⟩
    · exact ⟨_, eTA_GO, by norm_num⟩
    · exact ⟨_, eLP_LPX, by norm_num⟩
  · intro fld
    cases fld
    · exact ⟨_, eCZERO, VC4_SET_FIELD_fits _ 26 18 (by decide) (by decide) (by omega)⟩
    · exact ⟨_, eCPRE, VC4_SET_FIELD_fits _ 17 9 (by decide) (by decide) (by omega)⟩
    · exact ⟨_, eCPREP, VC4_SET_FIELD_fits _ 8 0 (by decide) (by decide) (by omega)⟩
    · exact ⟨_, eCTRAIL, VC4_SET_FIELD_fits _ 17 9 (by decide) (by decide) (by omega)⟩
    · exact ⟨_, eCPOST, VC4_SET_FIELD_fits _ 8 0 (by decide) (by decide) (by omega)⟩
    · exact ⟨_, eWUP, VC4_SET_FIELD_fits _ 23 0 (by decide) (by decide) (by omega)⟩
    · exact ⟨_, eEXIT, VC4_SET_FIELD_fits _ 26 18 (by decide) (by decide) (by omega)⟩
    · exact ⟨_, eZERO, VC4_SET_FIELD_fits _ 17 9 (by decide) (by decide) (by omega)⟩
    · exact ⟨_, ePRE, VC4_SET_FIELD_fits _ 8 0 (by decide) (by decide) (by omega)⟩
    · exact ⟨_, eLPX, VC4_SET_FIELD_fits _ 8 0 (by decide) (by decide) (by omega)⟩
    · exact ⟨_, eTRAIL, VC4_SET_FIELD_fits _ 17 9 (by decide) (by decide) (by omega)⟩
    · exact ⟨_, eANLAT, VC4_SET_FIELD_fits _ 22 18 (by decide) (by decide) (by norm_num)⟩
    · exact ⟨_, eINIT, VC4_SET_FIELD_fits _ 23 0 (by decide) (by decide) (by omega)⟩
    · exact ⟨_, eTA_GET, VC4_SET_FIELD_fits _ 31 24 (by decide) (by decide) (by norm_num)⟩
    · exact ⟨_, eTA_SURE, VC4_SET_FIELD_fits _ 23 16 (by decide) (by decide) (by norm_num)⟩
    · exact ⟨_, eTA_GO, VC4_SET_FIELD_fits _ 15 8 (by decide) (by decide) (by norm_num)⟩
    · exact ⟨_, eLP_LPX, VC4_SET_FIELD_fits _ 7 0 (by decide) (by decide) (by norm_num)⟩
    · exact ⟨_, eLP_WUP, VC4_SET_FIELD_fits _ 23 0 (by decide) (by decide) (by norm_num)⟩
    · by_cases hp : port = 0
      · refine ⟨_, eESC, ?_⟩
        simp only [timing_field_mask, timing_field_shift, if_pos hp]
        exact VC4_SET_FIELD_fits _ 17 12 (by decide) (by decide) (by norm_num)
      · refine ⟨_, eESC, ?_⟩
        simp only [timing_field_mask, timing_field_shift, if_neg hp]
        exact VC4_SET_FIELD_fits _ 25 20 (by decide) (by decide) (by norm_num)

/-- Witness of C25: at ui_ns = 2 (a 250 MHz PHY clock) CZERO is 136 and WUP is
500000. -/
theorem enable_timings_fit_witness :
    vc4_dsi_encoder_enable_timing 2 TimingField.CZERO = some 136 ∧
    vc4_dsi_encoder_enable_timing 2 TimingField.WUP = some 500000 ∧
    ∃ v, vc4_dsi_encoder_enable_timing 2 TimingField.CZERO = some v ∧
      VC4_SET_FIELD_warns v (timing_field_mask 1 TimingField.CZERO)
        (timing_field_shift 1 TimingField.CZERO) = false :=
  let h := (enable_timings_fit 1 2 (by decide)).2.2.2.2.2.2.2.2.2.2.2 TimingField.CZERO
  ⟨by decide, by decide, h.elim fun v hv => ⟨v, hv.1, hv.2.1⟩⟩

/-! ## Packet encoder: the payload in the FIFOs -/

theorem fifo_written_append (o : Nat) (a b : List Event) :
    fifo_written o (a ++ b) = fifo_written o a ++ fifo_written o b := by
  induction a with
  | nil => rfl
  | cons e a ih =>
    cases e with
    | write o' v =>
      by_cases h : o' = o
      · simp [fifo_written, h, ih]
      · simp [fifo_written, h, ih]
    | _ => simp [fifo_written, ih]

theorem fifo_written_eq_nil (o : Nat) (l : List Event) (h : ∀ v, Event.write o v ∉ l) :
    fifo_written o l = [] := by
  induction l with
  | nil => rfl
  | cons e l ih =>
    have hl : ∀ v, Event.write o v ∉ l := fun v hm => h v (List.mem_cons_of_mem _ hm)
    cases e with
    | write o' v =>
      have hne : o' ≠ o := by
        intro he
        apply h v
        rw [he]
        exact List.mem_cons_self _ _
      simp [fifo_written, hne, ih hl]
    | _ => simp [fifo_written, ih hl]

theorem fifo_written_map_same (o : Nat) (f : Nat → Nat) (l : List Nat) :
    fifo_written o (l.map fun i => Event.write o (f i)) = l.map f := by
  induction l with
  | nil => rfl
  | cons a l ih => simp [fifo_written, ih]

theorem fifo_written_map_other (o o' : Nat) (f : Nat → Nat) (l : List Nat) (h : o' ≠ o) :
    fifo_written o (l.map fun i => Event.write o' (f i)) = [] := by
  induction l with
  | nil => rfl
  | cons a l ih => simp [fifo_written, ih, h]

theorem cmd_fifo_ne_pix_fifo (port : Nat) :
    DSI_PORT port DSI0_TXPKT_CMD_FIFO DSI1_TXPKT_CMD_FIFO ≠
      DSI_PORT port DSI0_TXPKT_PIX_FIFO DSI1_TXPKT_PIX_FIFO := by
  unfold DSI_PORT
  split_ifs <;> decide

theorem fifo_not_written_after (port : Nat) (msg : mipi_dsi_msg) (is_long : Bool)
    (packet : mipi_dsi_packet) (hw : Hw) (o : Nat)
    (ho : o = DSI_PORT port DSI0_TXPKT_CMD_FIFO DSI1_TXPKT_CMD_FIFO ∨
      o = DSI_PORT port DSI0_TXPKT_PIX_FIFO DSI1_TXPKT_PIX_FIFO) :
    fifo_written o (xfer_arm_and_send port msg is_long packet ++ ((xfer_wait port hw).2 ++
        (Event.write (DSI_PORT port DSI0_INT_EN DSI1_INT_EN) DSI1_INTERRUPTS_ALWAYS_ENABLED ::
          (if (xfer_wait port hw).1 ≠ 0 then reset_fifo_and_return port hw
           else if msg.rx_len ≠ 0 then
             (xfer_response port msg hw).2 ++
               (if (xfer_response port msg hw).1 ≠ 0 then reset_fifo_and_return port hw
                else [])
           else [])))) = [] := by
  have hoff : ∀ x, (x = DSI_PORT port DSI0_INT_STAT DSI1_INT_STAT ∨
      x = DSI_PORT port DSI0_INT_EN DSI1_INT_EN ∨
      x = DSI_PORT port DSI0_TXPKT1H DSI1_TXPKT1H ∨
      x = DSI_PORT port DSI0_TXPKT1C DSI1_TXPKT1C ∨
      x = DSI_PORT port DSI0_CTRL DSI1_CTRL) → x ≠ o := by
    intro x hx he
    rw [he] at hx
    unfold DSI_PORT at ho hx
    by_cases hp : port = 0
    · subst hp
      simp only [ne_eq, not_true, if_false] at ho hx
      rcases ho with rfl | rfl <;> revert hx <;> decide
    · simp only [ne_eq, hp, not_false_eq_true, if_true] at ho hx
      rcases ho with rfl | rfl <;> revert hx <;> decide
  have hreset : ∀ v, Event.write o v ∉ reset_fifo_and_return port hw := by
    intro v hmem
    simp only [reset_fifo_and_return, List.mem_cons, List.mem_singleton, Event.write.injEq,
      List.not_mem_nil, or_false, reduceCtorEq, false_or] at hmem
    rcases hmem with ⟨h1, -⟩ | ⟨h1, -⟩ | ⟨h1, -⟩ | ⟨h1, -⟩
    · exact hoff _ (Or.inr (Or.inr (Or.inr (Or.inl rfl)))) h1.symm
    · exact hoff _ (Or.inr (Or.inr (Or.inr (Or.inr rfl)))) h1.symm
    · exact hoff _ (Or.inr (Or.inr (Or.inr (Or.inl rfl)))) h1.symm
    · exact hoff _ (Or.inr (Or.inl rfl)) h1.symm
  have harm : ∀ v, Event.write o v ∉ xfer_arm_and_send port msg is_long packet := by
    intro v hmem
    simp only [xfer_arm_and_send, List.mem_cons, List.mem_singleton, Event.write.injEq,
      List.not_mem_nil, or_false, reduceCtorEq, false_or] at hmem
    rcases hmem with ⟨h1, -⟩ | ⟨h1, -⟩ | ⟨h1, -⟩ | ⟨h1, -⟩
    · exact hoff _ (Or.inl rfl) h1.symm
    · exact hoff _ (Or.inr (Or.inl rfl)) h1.symm
    · exact hoff _ (Or.inr (Or.inr (Or.inl rfl))) h1.symm
    · exact hoff _ (Or.inr (Or.inr (Or.inr (Or.inl rfl)))) h1.symm
  have hwait : ∀ v, Event.write o v ∉ (xfer_wait port hw).2 := by
    intro v
    unfold xfer_wait
    split_ifs <;> simp
  apply fifo_written_eq_nil
  intro v hmem
  rw [List.mem_append, List.mem_append, List.mem_cons] at hmem
  rcases hmem with h1 | h1 | h1 | h1
  · exact harm v h1
  · exact hwait v h1
  · rw [Event.write.injEq] at h1
    exact hoff _ (Or.inr (Or.inl rfl)) h1.1.symm
  · split_ifs at h1
    · exact hreset v h1
    · rw [List.mem_append] at h1
      rcases h1 with h2 | h2
      · exact no_write_in_response port msg hw o v h2
      · exact hreset v h2
    · rw [List.append_nil] at h1
      exact no_write_in_response port msg hw o v h1
    · cases h1

theorem or_shift_bytes (b0 b1 b2 b3 : Nat) (h0 : b0 < 256) (h1 : b1 < 256) (h2 : b2 < 256) :
    b0 ||| (b1 <<< 8) ||| (b2 <<< 16) ||| (b3 <<< 24) =
      b0 + 256 * b1 + 65536 * b2 + 16777216 * b3 := by
  have h0' : b0 < 2 ^ 8 := by omega
  have e1 : b0 ||| (b1 <<< 8) = 2 ^ 8 * b1 + b0 := by
    rw [Nat.shiftLeft_eq, Nat.or_comm, Nat.mul_comm, Nat.mul_add_lt_is_or h0' b1]
  have h1' : 2 ^ 8 * b1 + b0 < 2 ^ 16 := by omega
  have e2 : (2 ^ 8 * b1 + b0) ||| (b2 <<< 16) = 2 ^ 16 * b2 + (2 ^ 8 * b1 + b0) := by
    rw [Nat.shiftLeft_eq, Nat.or_comm, Nat.mul_comm, Nat.mul_add_lt_is_or h1' b2]
  have h2' : 2 ^ 16 * b2 + (2 ^ 8 * b1 + b0) < 2 ^ 24 := by omega
  have e3 : (2 ^ 16 * b2 + (2 ^ 8 * b1 + b0)) ||| (b3 <<< 24) =
      2 ^ 24 * b3 + (2 ^ 16 * b2 + (2 ^ 8 * b1 + b0)) := by
    rw [Nat.shiftLeft_eq, Nat.or_comm, Nat.mul_comm, Nat.mul_add_lt_is_or h2' b3]
  rw [e1, e2, e3]
  omega

theorem le_bytes_pix_fifo_word (packet : mipi_dsi_packet) (c i : Nat) :
    le_bytes (pix_fifo_word packet c i) =
      [packet.payload (c + i * 4 + 0) % 256, packet.payload (c + i * 4 + 1) % 256,
       packet.payload (c + i * 4 + 2) % 256, packet.payload (c + i * 4 + 3) % 256] := by
  have h0 : packet.payload (c + i * 4 + 0) % 256 < 256 := Nat.mod_lt _ (by norm_num)
  have h1 : packet.payload (c + i * 4 + 1) % 256 < 256 := Nat.mod_lt _ (by norm_num)
  have h2 : packet.payload (c + i * 4 + 2) % 256 < 256 := Nat.mod_lt _ (by norm_num)
  have h3 : packet.payload (c + i * 4 + 3) % 256 < 256 := Nat.mod_lt _ (by norm_num)
  unfold le_bytes pix_fifo_word
  simp only
  rw [or_shift_bytes _ _ _ _ h0 h1 h2]
  generalize packet.payload (c + i * 4 + 0) % 256 = b0 at h0
  generalize packet.payload (c + i * 4 + 1) % 256 = b1 at h1
  generalize packet.payload (c + i * 4 + 2) % 256 = b2 at h2
  generalize packet.payload (c + i * 4 + 3) % 256 = b3 at h3
  simp only [Nat.shiftRight_eq_div_pow]
  have e0 : (b0 + 256 * b1 + 65536 * b2 + 16777216 * b3) % 2 ^ 32 =
      b0 + 256 * b1 + 65536 * b2 + 16777216 * b3 := Nat.mod_eq_of_lt (by omega)
  rw [e0]
  have e1 : (b0 + 256 * b1 + 65536 * b2 + 16777216 * b3) % 256 = b0 := by omega
  have e2 : (b0 + 256 * b1 + 65536 * b2 + 16777216 * b3) / 2 ^ 8 % 256 = b1 := by omega
  have e3 : (b0 + 256 * b1 + 65536 * b2 + 16777216 * b3) / 2 ^ 16 % 256 = b2 := by omega
  have e4 : (b0 + 256 * b1 + 65536 * b2 + 16777216 * b3) / 2 ^ 24 % 256 = b3 := by omega
  rw [e1, e2, e3, e4]

theorem pix_words_bytes (packet : mipi_dsi_packet) (c n : Nat) :
    ((List.range n).map (pix_fifo_word packet c)).flatMap le_bytes =
      (List.range (4 * n)).map (fun j => packet.payload (c + j) % 256) := by
  induction n with
  | zero => rfl
  | succ n ih =>
    have e : 4 * (n + 1) = 4 * n + 4 := by omega
    rw [List.range_succ, List.map_append, List.flatMap_append, ih, e, List.range_add,
      List.map_append, List.map_map]
    congr 1
    have e4 : List.range 4 = [0, 1, 2, 3] := by decide
    rw [e4]
    simp only [List.map_cons, List.map_nil, List.flatMap_cons, List.flatMap_nil,
      List.append_nil, le_bytes_pix_fifo_word, Function.comp_apply]
    have em : n * 4 = 4 * n := Nat.mul_comm _ _
    rw [em]
    rfl

theorem fifo_written_submit (port : Nat) (msg : mipi_dsi_msg) (packet : mipi_dsi_packet)
    (hw : Hw) :
    fifo_written (DSI_PORT port DSI0_TXPKT_CMD_FIFO DSI1_TXPKT_CMD_FIFO)
        (vc4_dsi_host_transfer port msg true packet hw).trace =
      (List.range (cmd_fifo_len true packet)).map (fun i => packet.payload i % 256) ∧
    fifo_written (DSI_PORT port DSI0_TXPKT_PIX_FIFO DSI1_TXPKT_PIX_FIFO)
        (vc4_dsi_host_transfer port msg true packet hw).trace =
      (List.range (pix_fifo_len true packet)).map
        (pix_fifo_word packet (cmd_fifo_len true packet)) := by
  have hwarn : ∀ o, fifo_written o
      (if DSI_PIX_FIFO_DEPTH ≤ pix_fifo_len true packet then [Event.warn] else []) = [] := by
    intro o
    split_ifs <;> rfl
  have hne := cmd_fifo_ne_pix_fifo port
  rw [transfer_trace_eq]
  unfold xfer_submit
  simp only [if_true, List.append_assoc]
  constructor
  · rw [fifo_written_append, fifo_written_append, fifo_written_append, hwarn,
      fifo_not_written_after port msg true packet hw _ (Or.inl rfl)]
    unfold cmd_fifo_writes pix_fifo_writes
    rw [fifo_written_map_same, fifo_written_map_other _ _ _ _ (Ne.symm hne)]
    simp only [List.nil_append, List.append_nil]
  · rw [fifo_written_append, fifo_written_append, fifo_written_append, hwarn,
      fifo_not_written_after port msg true packet hw _ (Or.inr rfl)]
    unfold cmd_fifo_writes pix_fifo_writes
    rw [fifo_written_map_same, fifo_written_map_other _ _ _ _ hne]
    simp only [List.nil_append, List.append_nil]

theorem xfer_submit_congr (port : Nat) (msg : mipi_dsi_msg) (packet packet' : mipi_dsi_packet)
    (hheader : packet'.header = packet.header)
    (hlen : packet'.payload_length = packet.payload_length)
    (hpayload : ∀ i, i < packet.payload_length → packet'.payload i = packet.payload i) :
    xfer_submit port msg true packet' = xfer_submit port msg true packet := by
  have hc : cmd_fifo_len true packet' = cmd_fifo_len true packet := by
    simp only [cmd_fifo_len, hlen]
  have hp : pix_fifo_len true packet' = pix_fifo_len true packet := by
    simp only [pix_fifo_len, hlen, hc]
  have hcle : cmd_fifo_len true packet ≤ packet.payload_length := by
    simp only [cmd_fifo_len, if_true]
    exact Nat.mod_le _ _
  have hple : cmd_fifo_len true packet + 4 * pix_fifo_len true packet ≤
      packet.payload_length := by
    have h1 : pix_fifo_len true packet ≤
        (packet.payload_length - cmd_fifo_len true packet) / 4 := by
      simp only [pix_fifo_len, if_true, DSI_PIX_FIFO_WIDTH]
      exact Nat.mod_le _ _
    omega
  have hkth : pkth true packet' = pkth true packet := by
    simp only [pkth, hheader, hc]
  have hktc : pktc msg true packet' = pktc msg true packet := by
    simp only [pktc, hp]
  have hcmd : cmd_fifo_writes port packet' (cmd_fifo_len true packet) =
      cmd_fifo_writes port packet (cmd_fifo_len true packet) := by
    unfold cmd_fifo_writes
    apply List.map_congr_left
    intro i hi
    rw [hpayload i (by have := List.mem_range.1 hi; omega)]
  have hpix : pix_fifo_writes port packet' (cmd_fifo_len true packet)
      (pix_fifo_len true packet) =
      pix_fifo_writes port packet (cmd_fifo_len true packet) (pix_fifo_len true packet) := by
    unfold pix_fifo_writes
    apply List.map_congr_left
    intro i hi
    have hi' := List.mem_range.1 hi
    unfold pix_fifo_word
    simp only
    rw [hpayload _ (show cmd_fifo_len true packet + i * 4 + 0 < _ by omega),
      hpayload _ (show cmd_fifo_len true packet + i * 4 + 1 < _ by omega),
      hpayload _ (show cmd_fifo_len true packet + i * 4 + 2 < _ by omega),
      hpayload _ (show cmd_fifo_len true packet + i * 4 + 3 < _ by omega)]
  unfold xfer_submit xfer_arm_and_send
  rw [hc, hp, hkth, hktc, hcmd, hpix]

/-- C24: for a long packet with payload p of length L (below 2^34, so that the
word count fits the u32 pix_fifo_len), a transfer reads only the payload
indices below L (a packet that differs only at indices from L on gives the same
transfer); the values it writes to the command FIFO are the bytes p[0], ...,
p[L mod 4 - 1] in order, so L mod 4 of them, at most 3 and fewer than
DSI_CMD_FIFO_DEPTH = 16; it writes (L - L mod 4) / 4 words to the pixel FIFO; and
the command-FIFO bytes followed by the four little-endian bytes of each
pixel-FIFO word, in write order, are the bytes p[0], ..., p[L - 1]. -/
theorem payload_in_fifos (port : Nat) (msg : mipi_dsi_msg) (packet : mipi_dsi_packet)
    (hw : Hw) (hL : packet.payload_length < 2 ^ 34) :
    (∀ packet' : mipi_dsi_packet, packet'.header = packet.header →
      packet'.payload_length = packet.payload_length →
      (∀ i, i < packet.payload_length → packet'.payload i = packet.payload i) →
      vc4_dsi_host_transfer port msg true packet' hw =
        vc4_dsi_host_transfer port msg true packet hw) ∧
    fifo_written (DSI_PORT port DSI0_TXPKT_CMD_FIFO DSI1_TXPKT_CMD_FIFO)
        (vc4_dsi_host_transfer port msg true packet hw).trace =
      (List.range (packet.payload_length % 4)).map (fun i => packet.payload i % 256) ∧
    (fifo_written (DSI_PORT port DSI0_TXPKT_CMD_FIFO DSI1_TXPKT_CMD_FIFO)
        (vc4_dsi_host_transfer port msg true packet hw).trace).length =
      packet.payload_length % 4 ∧
    (fifo_written (DSI_PORT port DSI0_TXPKT_CMD_FIFO DSI1_TXPKT_CMD_FIFO)
        (vc4_dsi_host_transfer port msg true packet hw).trace).length ≤ 3 ∧
    (fifo_written (DSI_PORT port DSI0_TXPKT_CMD_FIFO DSI1_TXPKT_CMD_FIFO)
        (vc4_dsi_host_transfer port msg true packet hw).trace).length < DSI_CMD_FIFO_DEPTH ∧
    (fifo_written (DSI_PORT port DSI0_TXPKT_PIX_FIFO DSI1_TXPKT_PIX_FIFO)
        (vc4_dsi_host_transfer port msg true packet hw).trace).length =
      (packet.payload_length - packet.payload_length % 4) / 4 ∧
    fifo_written (DSI_PORT port DSI0_TXPKT_CMD_FIFO DSI1_TXPKT_CMD_FIFO)
        (vc4_dsi_host_transfer port msg true packet hw).trace ++
      (fifo_written (DSI_PORT port DSI0_TXPKT_PIX_FIFO DSI1_TXPKT_PIX_FIFO)
        (vc4_dsi_host_transfer port msg true packet hw).trace).flatMap le_bytes =
      (List.range packet.payload_length).map (fun i => packet.payload i % 256) := by
  have hc : cmd_fifo_len true packet = packet.payload_length % 4 := by
    simp [cmd_fifo_len, DSI_PIX_FIFO_WIDTH]
  have hp : pix_fifo_len true packet =
      (packet.payload_length - packet.payload_length % 4) / 4 := by
    simp only [pix_fifo_len, hc, DSI_PIX_FIFO_WIDTH, if_true]
    apply Nat.mod_eq_of_lt
    omega
  obtain ⟨hcmd, hpix⟩ := fifo_written_submit port msg packet hw
  rw [hc] at hcmd
  rw [hc, hp] at hpix
  have hlen : (fifo_written (DSI_PORT port DSI0_TXPKT_CMD_FIFO DSI1_TXPKT_CMD_FIFO)
      (vc4_dsi_host_transfer port msg true packet hw).trace).length =
      packet.payload_length % 4 := by
    rw [hcmd, List.length_map, List.length_range]
  refine ⟨?_, hcmd, hlen, ?_, ?_, ?_, ?_⟩
  · intro packet' hheader hlen' hpayload
    have hs := xfer_submit_congr port msg packet packet' hheader hlen' hpayload
    unfold vc4_dsi_host_transfer
    rw [hs]
  · rw [hlen]
    omega
  · rw [hlen]
    unfold DSI_CMD_FIFO_DEPTH
    omega
  · rw [hpix, List.length_map, List.length_range]
  · rw [hcmd, hpix, pix_words_bytes]
    have e : packet.payload_length = packet.payload_length % 4 +
        4 * ((packet.payload_length - packet.payload_length % 4) / 4) := by omega
    conv => rhs; rw [e, List.range_add, List.map_append, List.map_map]
    rfl

/-- Witness of C24: the 18-byte long write puts the bytes 1, 2 into the command
FIFO and four words into the pixel FIFO, the first being 0x06050403. -/
theorem payload_in_fifos_witness :
    fifo_written DSI1_TXPKT_CMD_FIFO
      (vc4_dsi_host_transfer 1 msg_tx_only true packet_18 hw_completes).trace = [1, 2] ∧
    fifo_written DSI1_TXPKT_PIX_FIFO
      (vc4_dsi_host_transfer 1 msg_tx_only true packet_18 hw_completes).trace =
      [0x06050403, 0x0a090807, 0x0e0d0c0b, 0x1211100f] ∧
    fifo_written DSI1_TXPKT_CMD_FIFO
        (vc4_dsi_host_transfer 1 msg_tx_only true packet_18 hw_completes).trace ++
      (fifo_written DSI1_TXPKT_PIX_FIFO
        (vc4_dsi_host_transfer 1 msg_tx_only true packet_18 hw_completes).trace).flatMap
        le_bytes =
      (List.range 18).map (fun i => packet_18.payload i % 256) :=
  ⟨by decide, by decide,
    (payload_in_fifos 1 msg_tx_only packet_18 hw_completes (by decide)).2.2.2.2.2.2⟩

end Vc4Dsi
